import Mathlib

/-!
# Cypress touch-key driver (`drivers/input/keyboard/cypress/cypress-touchkey.c`)

A shallow embedding of the driver's bus transport, key-event work function and
notification LED control, followed by theorems about them.

Modelling conventions
* C `int` is `Int`, C `unsigned int` is `Nat` reduced modulo `2^32` where the code
  computes with it, `bool` is `Bool`.
* The driver's file-scope variables are the fields of `State`.  The state also
  carries the kernel objects the driver owns (timers, wake-lock, semaphore,
  regulators, interrupt disable depth) and a `trace` of every call the driver makes
  to an external collaborator, in program order.
* Everything the driver cannot decide itself is read from `Env`: the result of the
  n-th `i2c_transfer`, the bytes it delivers, `get_tsp_status()`,
  `msecs_to_jiffies`, whether `regulator_get` succeeds, and the build
  configuration.
* `jiffies` is a 32-bit `unsigned long`; sums of jiffies wrap at `2^32`.
* `printk` has no effect on the model.
-/

namespace Touchkey

/-! ## Constants -/

def KEYCODE_REG : Nat := 0
def UPDOWN_EVENT_BIT : Nat := 8
def KEYCODE_BIT : Nat := 7
def I2C_M_WR : Nat := 0
def I2C_M_RD : Nat := 1
def ENODEV : Int := 19

def ENABLE_BL : Nat := 1
def DISABLE_BL : Nat := 0
def BL_ALWAYS_ON : Int := -1
def BL_ALWAYS_OFF : Int := -2
def BL_STANDARD : Int := 3000
def BLN_VOLT : Int := 3000

def BREATHING_STEP_INCR : Nat := 50
def BREATHING_STEP_INT : Nat := 100
def BREATHING_MIN_VOLT : Nat := 2500
def BREATHING_MAX_VOLT : Nat := 3300
def BREATHING_PAUSE : Nat := 700
def BLINKING_INTERVAL_ON : Nat := 1000
def BLINKING_INTERVAL_OFF : Nat := 1000
def BATT_LIMIT : Nat := 20

def KEY_ENTER : Nat := 28
def KEY_END : Nat := 107
def KEY_MENU : Nat := 139
def KEY_BACK : Nat := 158

/-- Value of a C `int` expression after wrap-around to 32 bits. -/
def int32 (x : Int) : Int := (x + 2147483648) % 4294967296 - 2147483648

/-- Conversion of a C `int` to `unsigned int`. -/
def uint32 (x : Int) : Nat := (x % 4294967296).toNat

/-! ## Data model -/

/-- A kernel `timer_list`: whether it is pending and its `expires` field. -/
structure Timer where
  pending : Bool
  expires : Nat
deriving DecidableEq, Repr

/-- The `breathe` configuration (`struct breathing`). -/
structure Breathing where
  min : Nat
  max : Nat
  step_incr : Nat
  step_int : Nat
  pause : Nat
deriving DecidableEq, Repr

/-- The `blink` configuration (`struct blinking`). -/
structure Blinking where
  int_on : Nat
  int_off : Nat
deriving DecidableEq, Repr

/-- The two regulators the driver looks up by name. -/
inductive Regulator where
  | touch
  | touch_led
deriving DecidableEq, Repr

/-- The GPIO lines the driver configures. -/
inductive Gpio where
  | TOUCH_INT
  | TOUCH_EN
  | TOUCH_SDA_28V
  | TOUCH_SCL_28V
deriving DecidableEq, Repr

/-- Calls made by the driver to code outside it, recorded in program order. -/
inductive Ev where
  | i2c_transfer (flags : Nat) (len : Nat) (buf : List Nat) (ret : Int)
  | mdelay (ms : Nat)
  | input_report_key (code : Nat) (value : Int)
  | input_sync
  | enable_irq
  | disable_irq
  | regulator_enable (r : Regulator)
  | regulator_force_disable (r : Regulator)
  | regulator_set_voltage (r : Regulator) (min_uV : Int) (max_uV : Int)
  | wake_lock
  | wake_unlock
  | down
  | up
  | msleep (ms : Nat)
  | cancel_work_sync
  | gpio_direction_input (pin : Gpio)
  | gpio_direction_output (pin : Gpio) (value : Nat)
  | irq_set_irq_type
  | s3c_gpio_cfgpin (pin : Gpio)
  | s3c_gpio_setpull (pin : Gpio)
  | request_irq
  | register_early_suspend
  | ISSP_main (ret : Int)
deriving DecidableEq, Repr

/-- Everything the driver reads from outside itself. -/
structure Env where
  /-- Build option selecting the five-entry key map. -/
  CONFIG_TARGET_LOCALE_NAATT : Bool
  /-- Return value of the n-th call of `i2c_transfer` (n counted from 0). -/
  i2c_transfer : Nat → Int
  /-- Byte `i` found in the message buffer after the n-th transfer, when it is a read. -/
  i2c_rx : Nat → Nat → Nat
  /-- Result of `get_tsp_status()`. -/
  get_tsp_status : Int
  /-- The kernel's `msecs_to_jiffies`, on its `unsigned int` argument. -/
  msecs_to_jiffies : Nat → Nat
  /-- Whether `regulator_get(NULL, name)` yields a usable regulator. -/
  regulator_get : Regulator → Bool

/-- The driver's variables and the kernel objects it owns. -/
structure State where
  /-- True when `touchkey_driver != NULL`. -/
  touchkey_driver : Bool
  touchkey_enable : Int
  touchkey_probe : Bool
  touchkey_debug_count : Int
  touchkey_debug : List Nat
  screen_on : Int
  notification_enabled : Int
  notification_timeout : Int
  led_on : Int
  led_timeout : Int
  led_brightness : Int
  fade_out : Bool
  breathing_enabled : Bool
  breathe_in : Bool
  breathe_volt : Nat
  breathe : Breathing
  blinking_enabled : Bool
  blink_on : Bool
  blink : Blinking
  batt_status : Nat
  charging_status : Nat
  batt_limit : Nat
  polling_interval : Nat
  notification_count : Nat
  notification_persistent : Bool
  notification_renew : Bool
  /-- Value of `wake_lock_active(&led_wake_lock)`. -/
  led_wake_lock : Bool
  /-- Count of the semaphore `enable_sem`. -/
  enable_sem : Nat
  led_timer : Timer
  notification_timer : Timer
  breathing_timer : Timer
  polling_timer : Timer
  jiffies : Nat
  /-- Value of `regulator_is_enabled` for the regulator named touch. -/
  touch_regulator : Bool
  /-- Value of `regulator_is_enabled` for the regulator named touch_led. -/
  touch_led_regulator : Bool
  /-- Voltage last programmed into the touch_led regulator, in microvolt. -/
  touch_led_uV : Int
  /-- Disable depth of `IRQ_TOUCH_INT`. -/
  irq_depth : Nat
  /-- Whether `touchkey_work` is queued and has not started. -/
  touchkey_work_queued : Bool
  /-- Whether `touch_update_work` is queued and has not started. -/
  touch_update_work_queued : Bool
  touchkey_update_status : Int
  notification_enabled_charging : Bool
  prev_notification_enabled : Int
  /-- Number of `i2c_transfer` calls made so far. -/
  xfers : Nat
  trace : List Ev
deriving DecidableEq, Repr

/-- The file-scope initialisers of the driver, before probe. -/
def init_state : State where
  touchkey_driver := false
  touchkey_enable := 0
  touchkey_probe := true
  touchkey_debug_count := 0
  touchkey_debug := List.replicate 104 0
  screen_on := 1
  notification_enabled := -1
  notification_timeout := -1
  led_on := 0
  led_timeout := BL_STANDARD
  led_brightness := 0
  fade_out := true
  breathing_enabled := false
  breathe_in := true
  breathe_volt := 0
  breathe := ⟨BREATHING_MIN_VOLT, BREATHING_MAX_VOLT, BREATHING_STEP_INCR,
    BREATHING_STEP_INT, BREATHING_PAUSE⟩
  blinking_enabled := false
  blink_on := true
  blink := ⟨BLINKING_INTERVAL_ON, BLINKING_INTERVAL_OFF⟩
  batt_status := 0
  charging_status := 0
  batt_limit := BATT_LIMIT
  polling_interval := 0
  notification_count := 0
  notification_persistent := false
  notification_renew := true
  led_wake_lock := false
  enable_sem := 1
  led_timer := ⟨false, 0⟩
  notification_timer := ⟨false, 0⟩
  breathing_timer := ⟨false, 0⟩
  polling_timer := ⟨false, 0⟩
  jiffies := 0
  touch_regulator := false
  touch_led_regulator := false
  touch_led_uV := 0
  irq_depth := 0
  touchkey_work_queued := false
  touch_update_work_queued := false
  touchkey_update_status := 0
  notification_enabled_charging := false
  prev_notification_enabled := 0
  xfers := 0
  trace := []

/-- The key map `touchkey_keycode`; index 0 is a placeholder. -/
def touchkey_keycode (env : Env) : List Nat :=
  if env.CONFIG_TARGET_LOCALE_NAATT then [0, KEY_MENU, KEY_ENTER, KEY_BACK, KEY_END]
  else [0, KEY_MENU, KEY_BACK]

/-- The constant `touchkey_count = sizeof(touchkey_keycode) / sizeof(int)`. -/
def touchkey_count (env : Env) : Int := (touchkey_keycode env).length

/-! ## Kernel primitives -/

/-- Append one external call to the trace. -/
def emit (e : Ev) (s : State) : State := { s with trace := s.trace ++ [e] }

/-- Sum of two `unsigned long` jiffies values (32 bits on this platform). -/
def jiffies_add (a b : Nat) : Nat := (a + b) % 4294967296

/-- Sleep `msleep(ms)`: the clock advances by the corresponding jiffies. -/
def msleep (env : Env) (ms : Nat) (s : State) : State :=
  emit (Ev.msleep ms) { s with jiffies := jiffies_add s.jiffies (env.msecs_to_jiffies ms) }

/-- Busy-wait `mdelay(ms)`: the clock advances by the corresponding jiffies. -/
def mdelay (env : Env) (ms : Nat) (s : State) : State :=
  emit (Ev.mdelay ms) { s with jiffies := jiffies_add s.jiffies (env.msecs_to_jiffies ms) }

/-- Kernel `enable_irq(IRQ_TOUCH_INT)`: one level of disable depth is removed. -/
def enable_irq (s : State) : State :=
  emit Ev.enable_irq { s with irq_depth := s.irq_depth - 1 }

/-- Kernel `disable_irq(IRQ_TOUCH_INT)` and `disable_irq_nosync`: one more level of depth. -/
def disable_irq (s : State) : State :=
  emit Ev.disable_irq { s with irq_depth := s.irq_depth + 1 }

/-- Kernel `regulator_is_enabled` for the named regulator. -/
def regulator_is_enabled (r : Regulator) (s : State) : Bool :=
  match r with
  | Regulator.touch => s.touch_regulator
  | Regulator.touch_led => s.touch_led_regulator

/-- Kernel `regulator_enable` for the named regulator. -/
def regulator_enable (r : Regulator) (s : State) : State :=
  match r with
  | Regulator.touch => emit (Ev.regulator_enable r) { s with touch_regulator := true }
  | Regulator.touch_led => emit (Ev.regulator_enable r) { s with touch_led_regulator := true }

/-- Kernel `regulator_force_disable` for the named regulator. -/
def regulator_force_disable (r : Regulator) (s : State) : State :=
  match r with
  | Regulator.touch => emit (Ev.regulator_force_disable r) { s with touch_regulator := false }
  | Regulator.touch_led =>
    emit (Ev.regulator_force_disable r) { s with touch_led_regulator := false }

/-- Kernel `wake_lock(&led_wake_lock)`. -/
def wake_lock (s : State) : State := emit Ev.wake_lock { s with led_wake_lock := true }

/-- Kernel `wake_unlock(&led_wake_lock)`. -/
def wake_unlock (s : State) : State := emit Ev.wake_unlock { s with led_wake_lock := false }

/-! ## Regulator helpers of the driver -/

/-- Source function `touchkey_led_ldo_on(on)`. -/
def touchkey_led_ldo_on (env : Env) (enable : Bool) (s : State) : State :=
  if enable then
    if !env.regulator_get Regulator.touch_led then s
    else regulator_enable Regulator.touch_led s
  else
    if !env.regulator_get Regulator.touch_led then s
    else if regulator_is_enabled Regulator.touch_led s then
      regulator_force_disable Regulator.touch_led s
    else s

/-- Source function `touchkey_ldo_on(on)`. -/
def touchkey_ldo_on (env : Env) (enable : Bool) (s : State) : State :=
  if enable then
    if !env.regulator_get Regulator.touch then s
    else regulator_enable Regulator.touch s
  else
    if !env.regulator_get Regulator.touch then s
    else if regulator_is_enabled Regulator.touch s then
      regulator_force_disable Regulator.touch s
    else s

/-- Source function `change_touch_key_led_voltage(vol_mv)`; `vol_mv * 1000` is an `int` product. -/
def change_touch_key_led_voltage (env : Env) (vol_mv : Int) (s : State) : State :=
  if !env.regulator_get Regulator.touch_led then s
  else
    emit (Ev.regulator_set_voltage Regulator.touch_led (int32 (vol_mv * 1000))
        (int32 (vol_mv * 1000)))
      { s with touch_led_uV := int32 (vol_mv * 1000) }

/-- Source function `set_touchkey_debug(value)`: the debug ring buffer. -/
def set_touchkey_debug (value : Nat) (s : State) : State :=
  let count := if s.touchkey_debug_count = 100 then 0 else s.touchkey_debug_count
  { s with
    touchkey_debug := s.touchkey_debug.set count.toNat value
    touchkey_debug_count := count + 1 }

/-! ## Bus transport -/

/-- One `i2c_transfer` of a single message of `len` bytes at the start of the buffer `val`;
`rd` selects `I2C_M_RD`.  Returns the call's result and the buffer afterwards; the trace
records the bytes of the message. -/
def i2c_transfer (env : Env) (rd : Bool) (val : List Nat) (len : Nat) (s : State) :
    Int × List Nat × State :=
  let n := s.xfers
  let err := env.i2c_transfer n
  let msg := if rd then (List.range len).map (fun i => env.i2c_rx n i % 256) else val.take len
  let buf := if rd then msg ++ val.drop len else val
  (err, buf,
    emit (Ev.i2c_transfer (if rd then I2C_M_RD else I2C_M_WR) len msg err)
      { s with xfers := n + 1 })

/-- The loop `while (retry--) { ... }` shared by `i2c_touchkey_read` and
`i2c_touchkey_write`, entered with the given `retry` and `err`. -/
def i2c_touchkey_loop (env : Env) (rd : Bool) (len : Nat) :
    Nat → Int → List Nat → State → Int × List Nat × State
  | 0, err, val, s => (err, val, s)
  | retry + 1, _, val, s =>
    match i2c_transfer env rd val len s with
    | (err, buf, s1) =>
      if err ≥ 0 then (0, buf, s1)
      else i2c_touchkey_loop env rd len retry err buf (mdelay env 10 s1)

/-- The guard at the head of both transport functions. -/
def touchkey_not_ready (s : State) : Bool :=
  !s.touchkey_driver || !(s.touchkey_enable == 1) || !s.touchkey_probe

/-- Source function `i2c_touchkey_read(reg, val, len)`: result, buffer `val` afterwards, state. -/
def i2c_touchkey_read (env : Env) (_reg : Nat) (val : List Nat) (len : Nat) (s : State) :
    Int × List Nat × State :=
  if touchkey_not_ready s then (-ENODEV, val, s)
  else i2c_touchkey_loop env true len 2 0 val s

/-- Source function `i2c_touchkey_write(val, len)`: result and state. -/
def i2c_touchkey_write (env : Env) (val : List Nat) (len : Nat) (s : State) : Int × State :=
  if touchkey_not_ready s then (-ENODEV, s)
  else
    match i2c_touchkey_loop env false len 2 0 val s with
    | (err, _, s1) => (err, s1)

/-! ## Backlight commands and timers -/

/-- Source function `enable_touchkey_backlights`: writes the low byte of `int status = 1`. -/
def enable_touchkey_backlights (env : Env) (s : State) : State :=
  (i2c_touchkey_write env [1] 1 s).2

/-- Source function `disable_touchkey_backlights`: writes the low byte of `int status = 2`. -/
def disable_touchkey_backlights (env : Env) (s : State) : State :=
  (i2c_touchkey_write env [2] 1 s).2

/-- Kernel `mod_timer`: the timer becomes pending with the given `expires`. -/
def mod_timer (_t : Timer) (expires : Nat) : Timer := ⟨true, expires⟩

/-- Kernel `del_timer`: the timer is no longer pending. -/
def del_timer (t : Timer) : Timer := { t with pending := false }

/-- Source function `reset_breathing`. -/
def reset_breathing (env : Env) (s : State) : State :=
  let s1 : State := { s with breathe_in := true, breathe_volt := s.breathe.min }
  if s1.breathing_enabled then change_touch_key_led_voltage env (int32 s1.breathe.min) s1
  else if s1.blinking_enabled then change_touch_key_led_voltage env BLN_VOLT s1
  else s1

/-- Source function `start_breathing_timer`. -/
def start_breathing_timer (env : Env) (s : State) : State :=
  let expires := jiffies_add s.jiffies (env.msecs_to_jiffies 10)
  { s with breathing_timer := mod_timer s.breathing_timer expires }

/-- Source function `start_polling_timer`. -/
def start_polling_timer (env : Env) (s : State) : State :=
  let expires := jiffies_add s.jiffies (env.msecs_to_jiffies 10)
  { s with polling_timer := mod_timer s.polling_timer expires }

/-! ## Key event pipeline -/

/-- The loop `retry = 3; while (retry--) { ret = i2c_touchkey_read(...); if (!ret) break; }`
of `touchkey_work_func`, entered with the given `retry`, `ret` and buffer `data`. -/
def touchkey_read_retry (env : Env) : Nat → Int → List Nat → State → Int × List Nat × State
  | 0, ret, data, s => (ret, data, s)
  | retry + 1, _, data, s =>
    match i2c_touchkey_read env KEYCODE_REG data 3 s with
    | (ret, data1, s1) =>
      if ret = 0 then (ret, data1, s1)
      else touchkey_read_retry env retry ret data1 s1

/-- The statement under the comment "we have timed out or the lights should be on" in
`touchkey_work_func`. -/
def touchkey_work_backlight (env : Env) (s : State) : State :=
  if s.led_timer.expires > s.jiffies ∨ s.led_timeout ≠ BL_ALWAYS_OFF then
    enable_touchkey_backlights env (change_touch_key_led_voltage env s.led_brightness s)
  else s

/-- The statement under the comment "restart the timer" in `touchkey_work_func`. -/
def touchkey_work_timer (env : Env) (s : State) : State :=
  if s.led_timeout > 0 then
    let expires := jiffies_add s.jiffies (env.msecs_to_jiffies (uint32 s.led_timeout))
    { s with led_timer := mod_timer s.led_timer expires }
  else s

/-- Read of `touchkey_keycode[i]`; `none` where the C code would read outside the array. -/
def touchkey_keycode_at (env : Env) (i : Int) : Option Nat :=
  if 0 ≤ i ∧ i < touchkey_count env then (touchkey_keycode env)[i.toNat]? else none

/-- The part of `touchkey_work_func` after a successful read of the status frame `data`.
The result is `none` if `touchkey_keycode` is read outside its bounds. -/
def touchkey_work_decode (env : Env) (data : List Nat) (s : State) : Option State :=
  let s : State := set_touchkey_debug (data.getD 0 0) s
  let keycode_type : Int := ((data.getD 0 0) &&& KEYCODE_BIT : Nat)
  let pressed : Int := if (data.getD 0 0) &&& UPDOWN_EVENT_BIT = 0 then 1 else 0
  if keycode_type ≤ 0 ∨ keycode_type ≥ touchkey_count env then
    some (enable_irq s)
  else
    let s : State := if pressed ≠ 0 then set_touchkey_debug 80 s else s
    let reported : Option State :=
      if env.get_tsp_status ≠ 0 ∧ pressed ≠ 0 then some s
      else
        match touchkey_keycode_at env keycode_type with
        | none => none
        | some code => some (emit Ev.input_sync (emit (Ev.input_report_key code pressed) s))
    match reported with
    | none => none
    | some s =>
      some (enable_irq (set_touchkey_debug 65
        (touchkey_work_timer env (touchkey_work_backlight env s))))

/-- Source function `touchkey_work_func`.  The local `data[3]` and `ret` are uninitialised
in C; their initial values here are never observed because the loop body runs at least once. -/
def touchkey_work_func (env : Env) (s : State) : Option State :=
  let s : State := set_touchkey_debug 97 s
  match touchkey_read_retry env 3 0 [0, 0, 0] s with
  | (ret, data, s1) =>
    if ret < 0 then some (enable_irq s1)
    else touchkey_work_decode env data s1

/-- Source function `touchkey_interrupt`: the interrupt is disabled and `touchkey_work` is
queued. -/
def touchkey_interrupt (s : State) : State :=
  { disable_irq (set_touchkey_debug 73 s) with touchkey_work_queued := true }

/-! ## Notification LED control -/

/-- Kernel `down(&enable_sem)`; `none` when the count is zero, where the caller would
sleep and, no other context running in this model, never return. -/
def down (s : State) : Option State :=
  if s.enable_sem = 0 then none else some (emit Ev.down { s with enable_sem := s.enable_sem - 1 })

/-- Kernel `up(&enable_sem)`. -/
def up (s : State) : State := emit Ev.up { s with enable_sem := s.enable_sem + 1 }

/-- The `case ENABLE_BL:` branch of `led_status_write`. -/
def led_status_write_enable (env : Env) (s : State) : State :=
  if s.notification_enabled > 0 then
    let s : State := if !s.led_wake_lock then wake_lock s else s
    let s : State :=
      if s.screen_on = 0 then
        let s : State := touchkey_led_ldo_on env true (touchkey_ldo_on env true s)
        { s with touchkey_enable := 1 }
      else s
    let s : State := enable_touchkey_backlights env s
    let s : State := { s with led_on := 1 }
    let s : State :=
      if s.breathing_enabled ∨ s.blinking_enabled then
        start_breathing_timer env (reset_breathing env s)
      else change_touch_key_led_voltage env BLN_VOLT s
    if s.notification_timeout > 0 then
      let s : State := { s with notification_count := (s.notification_count + 1) % 4294967296 }
      let s : State :=
        if s.notification_persistent ∧ (s.charging_status = 1 ∨ s.charging_status = 4) then
          let expires := jiffies_add s.jiffies (env.msecs_to_jiffies (uint32 (-1)))
          { s with notification_timer := mod_timer s.notification_timer expires }
        else if s.notification_renew ∨ s.notification_count < 2 then
          let expires :=
            jiffies_add s.jiffies (env.msecs_to_jiffies (uint32 s.notification_timeout))
          { s with notification_timer := mod_timer s.notification_timer expires }
        else s
      if s.polling_interval > 0 then start_polling_timer env s else s
    else s
  else s

/-- The body of `case DISABLE_BL:` of `led_status_write` between `down` and `up`. -/
def led_status_write_disable (env : Env) (s : State) : State :=
  if s.led_on ≠ 0 then
    let s : State := disable_touchkey_backlights env s
    let s : State := { s with led_on := 0 }
    let s : State :=
      if s.screen_on = 0 then
        let s : State := touchkey_ldo_on env false (touchkey_led_ldo_on env false s)
        { s with touchkey_enable := 0 }
      else s
    let s : State :=
      if s.notification_timeout > 0 then
        { s with notification_timer := del_timer s.notification_timer }
      else s
    let s : State :=
      if s.breathing_enabled ∨ s.blinking_enabled then
        { s with breathing_timer := del_timer s.breathing_timer }
      else s
    if s.led_wake_lock then wake_unlock s else s
  else s

/-- Source function `led_status_write`.  The argument `data` is the unsigned value `sscanf` parsed
from `buf`, `none` when `sscanf` did not return 1.  The C function always returns `size`; the model
returns the state afterwards, `none` when `down` never returns. -/
def led_status_write (env : Env) (data : Option Nat) (s : State) : Option State :=
  match data with
  | none => some s
  | some d =>
    if d = ENABLE_BL then some (led_status_write_enable env s)
    else if d = DISABLE_BL then
      match down s with
      | none => none
      | some s1 => some (up (led_status_write_disable env s1))
    else some s

/-! ## Observations on traces -/

/-- The key events delivered to the input sink, oldest first. -/
def input_reports : List Ev → List (Nat × Int)
  | [] => []
  | Ev.input_report_key code value :: t => (code, value) :: input_reports t
  | _ :: t => input_reports t

/-- Number of `enable_irq` calls in a trace. -/
def irq_enables : List Ev → Nat
  | [] => 0
  | Ev.enable_irq :: t => irq_enables t + 1
  | _ :: t => irq_enables t

/-- Events that act on the LED: bus writes and regulator calls. -/
def Ev.is_led_action : Ev → Bool
  | Ev.i2c_transfer flags _ _ _ => flags == I2C_M_WR
  | Ev.regulator_enable _ => true
  | Ev.regulator_force_disable _ => true
  | Ev.regulator_set_voltage _ _ _ => true
  | _ => false

/-- The LED actions of a trace, oldest first. -/
def led_actions (t : List Ev) : List Ev := t.filter Ev.is_led_action

/-- Events of the bus transport in one direction (`rd` for reads): its transfers and the
retry delay. -/
def Ev.is_bus_of (rd : Bool) : Ev → Bool
  | Ev.i2c_transfer flags _ _ _ => flags == (if rd then I2C_M_RD else I2C_M_WR)
  | Ev.mdelay _ => true
  | _ => false

/-- Events that neither deliver a key event nor re-enable the interrupt. -/
def Ev.is_quiet : Ev → Bool
  | Ev.input_report_key _ _ => false
  | Ev.input_sync => false
  | Ev.enable_irq => false
  | _ => true

/-- The trace of `s2` is the trace of `s1` followed by events that all satisfy `p`. -/
def TraceExt (p : Ev → Bool) (s1 s2 : State) : Prop :=
  ∃ l, s2.trace = s1.trace ++ l ∧ ∀ e ∈ l, p e = true

/-- The state with the fields the bus transport changes (trace, transfer counter, clock)
blanked out. -/
def bus_erase (s : State) : State := { s with trace := [], xfers := 0, jiffies := 0 }

/-- The device is ready for bus transfers: the guard of the transport does not fire. -/
def ready (s : State) : Prop :=
  s.touchkey_driver = true ∧ s.touchkey_enable = 1 ∧ s.touchkey_probe = true

/-! ## Sample environments and states -/

/-- An environment for examples: bus results `r`, every received byte `b`, touch-surface
status `tsp`, 200 jiffies per second, both regulators available, three-entry key map. -/
def sample_env (r : Nat → Int) (b : Nat) (tsp : Int) : Env where
  CONFIG_TARGET_LOCALE_NAATT := false
  i2c_transfer := r
  i2c_rx := fun _ _ => b
  get_tsp_status := tsp
  msecs_to_jiffies := fun m => m / 5
  regulator_get := fun _ => true

/-- A state after probe: driver present, key input enabled. -/
def probed_state : State := { init_state with touchkey_driver := true, touchkey_enable := 1 }

/-! ## Timer work: backlight timeout, notification timeout, effect generator, battery poll -/

/-- The `for` loop of `led_fadeout`, entered with loop variable `i`.  The first argument
bounds the number of iterations; `led_fadeout` passes a bound that the loop cannot exhaust,
because `i` falls by 50 in every iteration. -/
def led_fadeout_loop (env : Env) : Nat → Int → State → State
  | 0, _, s => s
  | fuel + 1, i, s =>
    if i ≥ (BREATHING_MIN_VOLT : Int) then
      led_fadeout_loop env fuel (i - 50) (msleep env 50 (change_touch_key_led_voltage env i s))
    else s

/-- Source function `led_fadeout`. -/
def led_fadeout (env : Env) (s : State) : State :=
  disable_touchkey_backlights env
    (led_fadeout_loop env (s.led_brightness - 2499).toNat s.led_brightness s)

/-- Source function `bl_off`, the work scheduled by the KeyBacklight timer. -/
def bl_off (env : Env) (s : State) : State :=
  if s.led_on ≠ 0 ∨ s.touchkey_enable = 0 then s
  else if s.fade_out then led_fadeout env s
  else disable_touchkey_backlights env s

/-- Source function `notification_off`, the work scheduled by the NotificationTimeout
timer. -/
def notification_off (env : Env) (s : State) : State :=
  if s.led_on = 0 ∨ s.touchkey_enable = 0 then s
  else
    let s : State := touchkey_led_ldo_on env false s
    let s : State := touchkey_ldo_on env false s
    let s : State := disable_touchkey_backlights env s
    let s : State := { s with touchkey_enable := 0, led_on := 0, notification_count := 0 }
    if s.led_wake_lock then wake_unlock s else s

/-- The rising branch of `breathing_timer_action` (`breathe_in` true). -/
def breathing_rise (env : Env) (s : State) : State :=
  let s : State := change_touch_key_led_voltage env (int32 s.breathe_volt) s
  let s : State := { s with breathe_volt := (s.breathe_volt + s.breathe.step_incr) % 4294967296 }
  let s : State :=
    if s.breathe_volt ≥ s.breathe.max then
      { s with breathe_volt := s.breathe.max, breathe_in := false }
    else s
  let expires := jiffies_add s.jiffies (env.msecs_to_jiffies s.breathe.step_int)
  { s with breathing_timer := mod_timer s.breathing_timer expires }

/-- The falling branch of `breathing_timer_action` (`breathe_in` false). -/
def breathing_fall (env : Env) (s : State) : State :=
  let s : State := change_touch_key_led_voltage env (int32 s.breathe_volt) s
  let s : State :=
    { s with breathe_volt := uint32 ((s.breathe_volt : Int) - (s.breathe.step_incr : Int)) }
  if s.breathe_volt ≤ s.breathe.min then
    let s : State := reset_breathing env s
    let expires := jiffies_add s.jiffies (env.msecs_to_jiffies s.breathe.pause)
    { s with breathing_timer := mod_timer s.breathing_timer expires }
  else
    let expires := jiffies_add s.jiffies (env.msecs_to_jiffies s.breathe.step_int)
    { s with breathing_timer := mod_timer s.breathing_timer expires }

/-- The blinking branch of `breathing_timer_action`. -/
def blinking_tick (env : Env) (s : State) : State :=
  if s.blink_on then
    let s : State := enable_touchkey_backlights env s
    let expires := jiffies_add s.jiffies (env.msecs_to_jiffies s.blink.int_on)
    { s with breathing_timer := mod_timer s.breathing_timer expires, blink_on := false }
  else
    let s : State := disable_touchkey_backlights env s
    let expires := jiffies_add s.jiffies (env.msecs_to_jiffies s.blink.int_off)
    { s with breathing_timer := mod_timer s.breathing_timer expires, blink_on := true }

/-- Source function `breathing_timer_action`, the work scheduled by the Effect timer. -/
def breathing_timer_action (env : Env) (s : State) : State :=
  if s.breathing_enabled ∧ s.led_on ≠ 0 then
    if s.breathe_in then breathing_rise env s else breathing_fall env s
  else if s.blinking_enabled ∧ s.led_on ≠ 0 then blinking_tick env s
  else s

/-- Source function `polling_timer_action`, the work scheduled by the BatteryPoll timer. -/
def polling_timer_action (env : Env) (s : State) : State :=
  let status := s.batt_status
  if status ≤ s.batt_limit then
    let expires := jiffies_add s.jiffies (env.msecs_to_jiffies 10)
    { s with notification_timer := mod_timer s.notification_timer expires }
  else
    let expires := jiffies_add s.jiffies (env.msecs_to_jiffies s.polling_interval)
    { s with polling_timer := mod_timer s.polling_timer expires }

/-! ## Control-plane setters of the effect generator -/

def EINVAL : Int := 22

/-- Source function `enable_breathing_write`.  The argument `data` is the `unsigned int`
that `sscanf` stored, `none` when `sscanf` did not return 1; the result is the return value
and the state. -/
def enable_breathing_write (data : Option Nat) (size : Int) (s : State) : Int × State :=
  match data with
  | none => (-EINVAL, s)
  | some d =>
    if d > 1 then (-EINVAL, s)
    else
      let s : State := { s with breathing_enabled := (if d ≠ 0 then true else false) }
      let s : State := if s.blinking_enabled then { s with blinking_enabled := false } else s
      (size, s)

/-- Source function `enable_blinking_write`, with `data` as in `enable_breathing_write`. -/
def enable_blinking_write (data : Option Nat) (size : Int) (s : State) : Int × State :=
  match data with
  | none => (-EINVAL, s)
  | some d =>
    if d > 1 then (-EINVAL, s)
    else
      let s : State := { s with blinking_enabled := (if d ≠ 0 then true else false) }
      let s : State := if s.breathing_enabled then { s with breathing_enabled := false } else s
      (size, s)

/-- Source function `breathing_config_write`.  The argument `data` holds the five
`unsigned int` values that `sscanf` stored, `none` when `sscanf` did not return 5. -/
def breathing_config_write (data : Option Breathing) (size : Int) (s : State) : Int × State :=
  match data with
  | none => (-EINVAL, s)
  | some d => (size, { s with breathe := d })

/-! ## Power-state transitions -/

/-- The loop `while (retry < 3)` of `touchkey_autocalibration` (built only with
`CONFIG_TARGET_LOCALE_NAATT`), entered with `3 - retry` iterations left, the current
`count` and the six-byte buffer `data`. -/
def touchkey_autocalibration_loop (env : Env) : Nat → Int → List Nat → State → Int × State
  | 0, count, _, s => (count, s)
  | left + 1, _, data, s =>
    match i2c_touchkey_read env KEYCODE_REG data 4 s with
    | (ret, data1, s1) =>
      if ret < 0 then (ret, s1)
      else
        let data2 := (data1.set 0 80).set 3 1
        match i2c_touchkey_write env data2 4 s1 with
        | (count1, s2) =>
          match i2c_touchkey_read env KEYCODE_REG data2 6 (msleep env 100 s2) with
          | (_, data3, s3) =>
            if (data3.getD 5 0) &&& 128 ≠ 0 then (count1, s3)
            else touchkey_autocalibration_loop env left count1 data3 s3

/-- Source function `touchkey_autocalibration`. -/
def touchkey_autocalibration (env : Env) (s : State) : Int × State :=
  touchkey_autocalibration_loop env 3 0 [0, 0, 0, 0, 0, 0] s

/-- The loop `for (i = 1; i < touchkey_count; ++i) input_report_key(..., touchkey_keycode[i], 0)`
of `sec_touchkey_early_suspend`. -/
def release_keys (env : Env) (s : State) : State :=
  ((touchkey_keycode env).drop 1).foldl (fun st code => emit (Ev.input_report_key code 0) st) s

/-- Source function `sec_touchkey_early_suspend`.  In this model no work item is running
while the function runs, so `cancel_work_sync` returns whether `touchkey_work` was queued. -/
def sec_touchkey_early_suspend (env : Env) (s : State) : State :=
  let s : State := disable_irq s
  let ret := s.touchkey_work_queued
  let s : State := emit Ev.cancel_work_sync { s with touchkey_work_queued := false }
  let s : State := if ret then enable_irq s else s
  let s : State := release_keys env s
  let s : State := { s with touchkey_enable := 0 }
  let s : State := set_touchkey_debug 83 s
  if s.touchkey_enable < 0 then s
  else
    let s : State := emit (Ev.gpio_direction_input Gpio.TOUCH_INT) s
    let s : State := touchkey_led_ldo_on env false s
    let s : State := touchkey_ldo_on env false s
    { s with screen_on := 0 }

/-- The statements of `sec_touchkey_late_resume` from `gpio_direction_output` to
`screen_on = 1`. -/
def late_resume_pins (env : Env) (s : State) : State :=
  let s : State := emit (Ev.gpio_direction_output Gpio.TOUCH_EN 1) s
  let s : State := emit (Ev.gpio_direction_output Gpio.TOUCH_SDA_28V 1) s
  let s : State := emit (Ev.gpio_direction_output Gpio.TOUCH_SCL_28V 1) s
  let s : State := emit (Ev.gpio_direction_output Gpio.TOUCH_INT 1) s
  let s : State := emit Ev.irq_set_irq_type s
  let s : State := emit (Ev.s3c_gpio_cfgpin Gpio.TOUCH_INT) s
  let s : State := emit (Ev.s3c_gpio_setpull Gpio.TOUCH_INT) s
  let s : State := { s with touchkey_enable := 1 }
  let s : State :=
    if env.CONFIG_TARGET_LOCALE_NAATT then
      msleep env 200 (touchkey_autocalibration env (msleep env 50 s)).2
    else s
  { s with screen_on := 1 }

/-- The block `if (led_on) { ... }` of `sec_touchkey_late_resume`. -/
def late_resume_notification (s : State) : State :=
  if s.led_on ≠ 0 then
    let s : State :=
      if s.notification_timeout > 0 ∧ s.notification_renew then
        { s with notification_timer := del_timer s.notification_timer }
      else s
    let s : State := if s.led_wake_lock then wake_unlock s else s
    { s with led_on := 0 }
  else s

/-- The statements of `sec_touchkey_late_resume` from "ensure the light is ON" to
`enable_irq`. -/
def late_resume_backlight (env : Env) (s : State) : State :=
  let s : State :=
    if s.led_timeout ≠ BL_ALWAYS_OFF then
      change_touch_key_led_voltage env s.led_brightness
        (enable_touchkey_backlights env (touchkey_led_ldo_on env true s))
    else disable_touchkey_backlights env s
  let s : State :=
    if s.led_timeout > 0 then
      let expires := jiffies_add s.jiffies (env.msecs_to_jiffies (uint32 s.led_timeout))
      { s with led_timer := mod_timer s.led_timer expires }
    else s
  let s : State :=
    if s.breathing_enabled ∨ s.blinking_enabled then
      { s with breathing_timer := del_timer s.breathing_timer }
    else s
  enable_irq s

/-- Source function `sec_touchkey_late_resume`; `none` when `down` never returns.  The
path through `if (touchkey_enable < 0) return 0;` returns without `up`. -/
def sec_touchkey_late_resume (env : Env) (s : State) : Option State :=
  let s : State := set_touchkey_debug 82 s
  match down s with
  | none => none
  | some s =>
    let s : State := touchkey_ldo_on env true s
    if s.touchkey_enable < 0 then some s
    else
      some (up (late_resume_backlight env (late_resume_notification (late_resume_pins env s))))

/-! ## Probe -/

def ENOMEM : Int := 12
def EBUSY : Int := 16

/-- Results of the kernel services `i2c_touchkey_probe` calls. -/
structure ProbeEnv where
  /-- Whether `kzalloc` returns memory. -/
  kzalloc : Bool
  /-- Whether `input_allocate_device` returns a device. -/
  input_allocate_device : Bool
  /-- Return value of `input_register_device`. -/
  input_register_device : Int
  /-- Return value of `request_irq`. -/
  request_irq : Int

/-- Source function `get_touchkey_module_version`; `char` is unsigned on this platform. -/
def get_touchkey_module_version (env : Env) (s : State) : Int × State :=
  match i2c_touchkey_read env KEYCODE_REG [0, 0, 0] 3 s with
  | (ret, data, s1) => if ret < 0 then (ret, s1) else (((data.getD 2 0 : Nat) : Int), s1)

/-- The end of `i2c_touchkey_probe`, from `touchkey_led_ldo_on(1)` on.  `misc_register` and
`sysfs_create_group` only log their failures; `setup_timer` leaves the four timers not
pending and `wake_lock_init` leaves the wake-lock inactive. -/
def i2c_touchkey_probe_finish (env : Env) (s : State) : Int × State :=
  let s : State := touchkey_led_ldo_on env true s
  let r : Int × State :=
    if env.CONFIG_TARGET_LOCALE_NAATT then touchkey_autocalibration env (msleep env 100 s)
    else (0, s)
  if env.CONFIG_TARGET_LOCALE_NAATT ∧ r.1 < 0 then (r.1, r.2)
  else
    let s : State := set_touchkey_debug 75 r.2
    let s : State :=
      { s with
        led_timer := ⟨false, s.led_timer.expires⟩
        notification_timer := ⟨false, s.notification_timer.expires⟩
        breathing_timer := ⟨false, s.breathing_timer.expires⟩
        polling_timer := ⟨false, s.polling_timer.expires⟩
        led_wake_lock := false }
    let s : State := if s.led_timeout ≠ BL_ALWAYS_ON then disable_touchkey_backlights env s else s
    (0, s)

/-- Source function `i2c_touchkey_probe`: return value and state. -/
def i2c_touchkey_probe (env : Env) (k : ProbeEnv) (s : State) : Int × State :=
  if !k.kzalloc then (-ENOMEM, { s with touchkey_driver := false })
  else
    let s : State := { s with touchkey_driver := true }
    if !k.input_allocate_device then (-ENOMEM, s)
    else if k.input_register_device ≠ 0 then (k.input_register_device, s)
    else
      let s : State := touchkey_ldo_on env true s
      let s : State := msleep env 50 s
      let s : State := { s with touchkey_enable := 1 }
      match get_touchkey_module_version env s with
      | (module_version, s) =>
        if module_version < 0 then (-ENODEV, { s with touchkey_probe := false })
        else if k.request_irq ≠ 0 then (-EBUSY, s)
        else
          let s : State := emit Ev.register_early_suspend (emit Ev.request_irq s)
          i2c_touchkey_probe_finish env s

/-! ## Other control-plane setters -/

/-- Source function `notification_enabled_write`: `sscanf` stores into
`notification_enabled` when it parses an `int`. -/
def notification_enabled_write (data : Option Int) (s : State) : State :=
  match data with
  | none => s
  | some d => { s with notification_enabled := d }

/-- Source function `led_timeout_write`: `sscanf` stores into `led_timeout` when it parses
an `int`; the LED regulator is switched in either case. -/
def led_timeout_write (env : Env) (data : Option Int) (s : State) : State :=
  let s : State :=
    match data with
    | none => s
    | some d => { s with led_timeout := d }
  if s.led_timeout = BL_ALWAYS_OFF then touchkey_led_ldo_on env false s
  else touchkey_led_ldo_on env true s

/-- Source function `notification_timeout_write`.  The argument `ret` is the result of
`sscanf` and `d0 d1 d2` the contents of `data[]` afterwards (indeterminate where `sscanf`
stored nothing). -/
def notification_timeout_write (ret : Int) (d0 d1 d2 : Nat) (size : Int) (s : State) :
    Int × State :=
  if ret < 0 ∨ ret > 3 then (-EINVAL, s)
  else
    let s : State := { s with notification_timeout := int32 d0 }
    let s : State :=
      if d1 = 0 ∨ d1 = 1 then
        { s with notification_persistent := (if d1 ≠ 0 then true else false) }
      else s
    let s : State :=
      if d2 = 0 ∨ d2 = 1 then { s with notification_renew := (if d2 ≠ 0 then true else false) }
      else s
    (size, s)

/-- Source function `led_fadeout_write`, with `data` as in `enable_breathing_write`. -/
def led_fadeout_write (data : Option Nat) (size : Int) (s : State) : Int × State :=
  match data with
  | none => (-EINVAL, s)
  | some d =>
    if d > 1 then (-EINVAL, s)
    else (size, { s with fade_out := (if d ≠ 0 then true else false) })

/-- Source function `check_battery_write`; `data` holds the two stored values, `none` when
`sscanf` did not return 2. -/
def check_battery_write (data : Option (Nat × Nat)) (size : Int) (s : State) : Int × State :=
  match data with
  | none => (-EINVAL, s)
  | some d => (size, { s with batt_limit := d.1, polling_interval := d.2 })

/-- Source function `blinking_config_write`; `data` holds the two stored values, `none`
when `sscanf` did not return 2. -/
def blinking_config_write (data : Option Blinking) (size : Int) (s : State) : Int × State :=
  match data with
  | none => (-EINVAL, s)
  | some d => (size, { s with blink := d })

/-- Source function `brightness_control`; `data` is the parsed `int`, `none` when `sscanf`
did not return 1. -/
def brightness_control (env : Env) (data : Option Int) (s : State) : State :=
  match data with
  | none => s
  | some d => { change_touch_key_led_voltage env d s with led_brightness := d }

/-- Source function `enable_bln_charging`, which the charger driver calls. -/
def enable_bln_charging (status : Int) (s : State) : State :=
  if s.notification_enabled_charging then
    if status > 0 then
      { s with prev_notification_enabled := s.notification_enabled, notification_enabled := 1 }
    else { s with notification_enabled := s.prev_notification_enabled }
  else s

/-- Source function `notification_enabled_charging_write`.  The argument `ret` is the result
of `sscanf` and `data` the contents of the local `data` afterwards (indeterminate where
`sscanf` stored nothing). -/
def notification_enabled_charging_write (ret : Int) (data : Nat) (size : Int) (s : State) :
    Int × State :=
  if ret < 0 ∨ ret > 1 then (-EINVAL, s)
  else
    let s : State := { s with notification_enabled_charging := (if data ≠ 0 then true else false) }
    let s : State :=
      if s.notification_enabled_charging ∧ (s.charging_status = 1 ∨ s.charging_status = 4) then
        { s with prev_notification_enabled := s.notification_enabled, notification_enabled := 1 }
      else s
    (size, s)

/-- Source function `blink_control_write`; `data` is the parsed `unsigned int`, `none` when
`sscanf` did not return 1.  The variable `bln_blinking_enabled` it assigns is read by
`blink_control_read` only and is not part of `State`. -/
def blink_control_write (env : Env) (data : Option Nat) (size : Int) (s : State) :
    Int × State :=
  match data with
  | none => (-EINVAL, s)
  | some d =>
    if d = 1 then (size, disable_touchkey_backlights env s)
    else if d = 0 then (size, enable_touchkey_backlights env s)
    else (size, s)

/-! ## Firmware update and diagnostic attributes -/

/-- Source function `init_hw`. -/
def init_hw (env : Env) (s : State) : State :=
  let s : State := emit (Ev.gpio_direction_output Gpio.TOUCH_EN 1) s
  let s : State := msleep env 200 s
  let s : State := emit (Ev.s3c_gpio_setpull Gpio.TOUCH_INT) s
  let s : State := emit Ev.irq_set_irq_type s
  emit (Ev.s3c_gpio_cfgpin Gpio.TOUCH_INT) s

/-- The loop `while (retry--)` of `touchkey_update_func` and the two statements after it.
The firmware programmer `ISSP_main` is outside this file: `issp n` is what its n-th call in
this run returns. -/
def touchkey_update_loop (env : Env) (issp : Nat → Int) : Nat → Nat → State → State
  | 0, _, s => { s with touchkey_update_status := -1 }
  | retry + 1, n, s =>
    let s : State := emit (Ev.ISSP_main (issp n)) s
    if issp n = 0 then
      let s : State := enable_irq (init_hw env s)
      { s with touchkey_enable := 1, touchkey_update_status := 0 }
    else
      let s : State :=
        if env.CONFIG_TARGET_LOCALE_NAATT then
          init_hw env (msleep env 300 (touchkey_ldo_on env false s))
        else s
      touchkey_update_loop env issp retry (n + 1) s

/-- Source function `touchkey_update_func`, the work item queued by `touch_update_write`.
The bytes read under `CONFIG_TARGET_LOCALE_NAATT` are only logged. -/
def touchkey_update_func (env : Env) (issp : Nat → Int) (s : State) : State :=
  let s : State := { s with touch_update_work_queued := false }
  let s : State :=
    if env.CONFIG_TARGET_LOCALE_NAATT then (i2c_touchkey_read env KEYCODE_REG [0, 0, 0] 3 s).2.2
    else s
  let s : State := { s with touchkey_update_status := 1 }
  let s : State := { s with touchkey_enable := 0 }
  touchkey_update_loop env issp 10 0 s

/-- Source function `touch_update_write`; `buf0` is the first byte written. -/
def touch_update_write (buf0 : Nat) (s : State) : State :=
  if buf0 = 83 then { disable_irq s with touch_update_work_queued := true }
  else s

/-- The loop `while (retry--)` of `set_touchkey_update_show`: the value of `retry` when the
loop is left, and the state. -/
def set_touchkey_update_loop (issp : Nat → Int) : Nat → Nat → State → Int × State
  | 0, _, s => (-1, s)
  | retry + 1, n, s =>
    let s : State := emit (Ev.ISSP_main (issp n)) s
    if issp n = 0 then ((retry : Int), { s with touchkey_update_status := 0 })
    else set_touchkey_update_loop issp retry (n + 1) s

/-- Source function `set_touchkey_update_show`. -/
def set_touchkey_update_show (env : Env) (issp : Nat → Int) (s : State) : State :=
  let s : State := { s with touchkey_update_status := 1 }
  match set_touchkey_update_loop issp 3 0 s with
  | (retry, s) =>
    if retry ≤ 0 then
      let s : State := msleep env 300 (touchkey_ldo_on env false s)
      { s with touchkey_update_status := -1 }
    else init_hw env s

/-- Source functions `touch_version_read` and `set_touchkey_firm_version_read_show`, which
have the same body. -/
def touch_version_read (env : Env) (s : State) : State :=
  (i2c_touchkey_read env KEYCODE_REG [0, 0, 0] 3 (init_hw env s)).2.2

/-- Source function `touch_led_control`: the low byte of the parsed `int` is written to the
bus.  The variables `touchkey_led_status` and `touchled_cmd_reversed` it assigns are read
nowhere and are not part of `State`. -/
def touch_led_control (env : Env) (data : Option Int) (s : State) : State :=
  match data with
  | none => s
  | some d => (i2c_touchkey_write env [uint32 d % 256] 1 s).2

/-- Source function `touch_sensitivity_control`. -/
def touch_sensitivity_control (env : Env) (s : State) : State :=
  (i2c_touchkey_write env [64] 1 s).2

/-- The read-only attributes `touchkey_menu_show`, `touchkey_back_show`,
`touchkey_home_show`, `touchkey_search_show`, `touchkey_raw_data0_show` to
`touchkey_raw_data3_show`, `touchkey_idac0_show` to `touchkey_idac3_show` and
`touchkey_threshold_show`: each is one `i2c_touchkey_read(KEYCODE_REG, data, len)` whose
result goes to a variable that is not part of `State`.  `data` is the buffer before the
read. -/
def touchkey_show (env : Env) (data : List Nat) (len : Nat) (s : State) : State :=
  (i2c_touchkey_read env KEYCODE_REG data len s).2.2

/-- Source function `set_touchkey_autocal_testmode`, which exists under
`CONFIG_TARGET_LOCALE_NAATT` only. -/
def set_touchkey_autocal_testmode (env : Env) (data : Option Int) (s : State) : State :=
  if env.CONFIG_TARGET_LOCALE_NAATT then
    match data with
    | none => s
    | some on_off =>
      if on_off = 1 then (i2c_touchkey_write env [64] 1 s).2
      else
        let s : State := msleep env 50 (touchkey_ldo_on env false s)
        let s : State := msleep env 50 (touchkey_ldo_on env true s)
        let s : State := msleep env 50 (init_hw env s)
        (touchkey_autocalibration env s).2
  else s

/-! ## Entry points after probe -/

/-- The four timers of the driver. -/
inductive TimerId where
  | led_timer
  | notification_timer
  | breathing_timer
  | polling_timer
deriving DecidableEq, Repr

/-- The ways the kernel, user space and the battery driver act on the driver after probe.
A timer expiry only clears the pending flag and schedules work; the work items may run at
any later point.  Left out are the attribute `_read` functions, `touch_version_write`,
`touchkey_enable_disable`, `touchkey_update_open` and `touchkey_update_release`, which change
nothing, `touchkey_firmware_update`, which nothing in this file calls, and `touchkey_exit`,
after which no entry point runs. -/
inductive Op where
  | led_status_write (data : Option Nat)
  | touchkey_interrupt
  | touchkey_work_func
  | timer_expires (t : TimerId)
  | bl_off
  | notification_off
  | breathing_timer_action
  | polling_timer_action
  | sec_touchkey_early_suspend
  | sec_touchkey_late_resume
  | enable_breathing_write (data : Option Nat)
  | enable_blinking_write (data : Option Nat)
  | breathing_config_write (data : Option Breathing)
  | blinking_config_write (data : Option Blinking)
  | notification_enabled_write (data : Option Int)
  | notification_timeout_write (ret : Int) (d0 d1 d2 : Nat)
  | led_timeout_write (data : Option Int)
  | led_fadeout_write (data : Option Nat)
  | check_battery_write (data : Option (Nat × Nat))
  | brightness_control (data : Option Int)
  | touch_update_write (buf0 : Nat)
  | touchkey_update_func (issp : Nat → Int)
  | set_touchkey_update_show (issp : Nat → Int)
  | touch_version_read
  | touch_led_control (data : Option Int)
  | touch_sensitivity_control
  | touchkey_show (data : List Nat) (len : Nat)
  | set_touchkey_autocal_testmode (data : Option Int)
  | blink_control_write (data : Option Nat)
  | notification_enabled_charging_write (ret : Int) (data : Nat)
  | enable_bln_charging (status : Int)
  | time_passes (jiffies : Nat)
  | battery_update (batt_status charging_status : Nat)

/-- A timer fires: it is no longer pending. -/
def timer_expires (t : TimerId) (s : State) : State :=
  match t with
  | TimerId.led_timer => { s with led_timer := del_timer s.led_timer }
  | TimerId.notification_timer => { s with notification_timer := del_timer s.notification_timer }
  | TimerId.breathing_timer => { s with breathing_timer := del_timer s.breathing_timer }
  | TimerId.polling_timer => { s with polling_timer := del_timer s.polling_timer }

/-- One entry point run to completion; `none` when it never returns (`down` on a taken
semaphore) or reads `touchkey_keycode` out of bounds. -/
def step (env : Env) (op : Op) (s : State) : Option State :=
  match op with
  | Op.led_status_write data => led_status_write env data s
  | Op.touchkey_interrupt => some (touchkey_interrupt s)
  | Op.touchkey_work_func => touchkey_work_func env { s with touchkey_work_queued := false }
  | Op.timer_expires t => some (timer_expires t s)
  | Op.bl_off => some (bl_off env s)
  | Op.notification_off => some (notification_off env s)
  | Op.breathing_timer_action => some (breathing_timer_action env s)
  | Op.polling_timer_action => some (polling_timer_action env s)
  | Op.sec_touchkey_early_suspend => some (sec_touchkey_early_suspend env s)
  | Op.sec_touchkey_late_resume => sec_touchkey_late_resume env s
  | Op.enable_breathing_write data => some (enable_breathing_write data 0 s).2
  | Op.enable_blinking_write data => some (enable_blinking_write data 0 s).2
  | Op.breathing_config_write data => some (breathing_config_write data 0 s).2
  | Op.blinking_config_write data => some (blinking_config_write data 0 s).2
  | Op.notification_enabled_write data => some (notification_enabled_write data s)
  | Op.notification_timeout_write ret d0 d1 d2 =>
    some (notification_timeout_write ret d0 d1 d2 0 s).2
  | Op.led_timeout_write data => some (led_timeout_write env data s)
  | Op.led_fadeout_write data => some (led_fadeout_write data 0 s).2
  | Op.check_battery_write data => some (check_battery_write data 0 s).2
  | Op.brightness_control data => some (brightness_control env data s)
  | Op.touch_update_write buf0 => some (touch_update_write buf0 s)
  | Op.touchkey_update_func issp => some (touchkey_update_func env issp s)
  | Op.set_touchkey_update_show issp => some (set_touchkey_update_show env issp s)
  | Op.touch_version_read => some (touch_version_read env s)
  | Op.touch_led_control data => some (touch_led_control env data s)
  | Op.touch_sensitivity_control => some (touch_sensitivity_control env s)
  | Op.touchkey_show data len => some (touchkey_show env data len s)
  | Op.set_touchkey_autocal_testmode data => some (set_touchkey_autocal_testmode env data s)
  | Op.blink_control_write data => some (blink_control_write env data 0 s).2
  | Op.notification_enabled_charging_write ret data =>
    some (notification_enabled_charging_write ret data 0 s).2
  | Op.enable_bln_charging status => some (enable_bln_charging status s)
  | Op.time_passes j => some { s with jiffies := jiffies_add s.jiffies j }
  | Op.battery_update b c => some { s with batt_status := b, charging_status := c }

/-- A sequence of entry points, each run to completion before the next starts. -/
def run (env : Env) : List Op → State → Option State
  | [], s => some s
  | op :: ops, s =>
    match step env op s with
    | none => none
    | some s1 => run env ops s1

/-- States the driver can be in after a successful probe followed by any sequence of entry
points. -/
def Reachable (env : Env) (s : State) : Prop :=
  ∃ (k : ProbeEnv) (s0 : State) (ops : List Op),
    i2c_touchkey_probe env k init_state = (0, s0) ∧ run env ops s0 = some s

/-! ## Frames -/

/-- The state `s` with the fields that calls into the bus, the regulators and the clock
change replaced by the given values. -/
def hw_put (t : List Ev) (x j : Nat) (r1 r2 : Bool) (u : Int) (s : State) : State :=
  { s with trace := t, xfers := x, jiffies := j, touch_regulator := r1,
           touch_led_regulator := r2, touch_led_uV := u }

/-- The state `s2` differs from `s1` at most in trace, transfer counter, clock, the two
regulators and the LED voltage. -/
def HwStep (s1 s2 : State) : Prop :=
  ∃ t x j r1 r2 u, s2 = hw_put t x j r1 r2 u s1

/-- The frame relation of an erasing function `er`: `s2` agrees with `s1` on everything
`er` keeps. -/
def Frame (er : State → State) (s1 s2 : State) : Prop := er s2 = er s1

/-- Erases what the effect generator changes: the hardware fields of `hw_put`, the phase
(`breathe_in`, `breathe_volt`, `blink_on`) and the Effect timer. -/
def eff_erase (s : State) : State :=
  { hw_put [] 0 0 false false 0 s with
    breathe_in := false, breathe_volt := 0, blink_on := false, breathing_timer := ⟨false, 0⟩ }

/-- Erases what powering the LED on or off changes: everything `eff_erase` erases, the
wake-lock, `touchkey_enable` and `led_on`. -/
def act_erase (s : State) : State :=
  { eff_erase s with led_wake_lock := false, touchkey_enable := 0, led_on := 0 }

/-- The statements of `case ENABLE_BL:` from the wake-lock to `led_on = 1`. -/
def led_enable_power (env : Env) (s : State) : State :=
  let s : State := if !s.led_wake_lock then wake_lock s else s
  let s : State :=
    if s.screen_on = 0 then
      let s : State := touchkey_led_ldo_on env true (touchkey_ldo_on env true s)
      { s with touchkey_enable := 1 }
    else s
  let s : State := enable_touchkey_backlights env s
  { s with led_on := 1 }

/-- The statements of `case ENABLE_BL:` under the comment "start breathing timer". -/
def led_enable_effect (env : Env) (s : State) : State :=
  if s.breathing_enabled ∨ s.blinking_enabled then
    start_breathing_timer env (reset_breathing env s)
  else change_touch_key_led_voltage env BLN_VOLT s

/-- The statements of `case ENABLE_BL:` from "See if a timeout value has been set" on. -/
def led_enable_timers (env : Env) (s : State) : State :=
  if s.notification_timeout > 0 then
    let s : State := { s with notification_count := (s.notification_count + 1) % 4294967296 }
    let s : State :=
      if s.notification_persistent ∧ (s.charging_status = 1 ∨ s.charging_status = 4) then
        let expires := jiffies_add s.jiffies (env.msecs_to_jiffies (uint32 (-1)))
        { s with notification_timer := mod_timer s.notification_timer expires }
      else if s.notification_renew ∨ s.notification_count < 2 then
        let expires :=
          jiffies_add s.jiffies (env.msecs_to_jiffies (uint32 s.notification_timeout))
        { s with notification_timer := mod_timer s.notification_timer expires }
      else s
    if s.polling_interval > 0 then start_polling_timer env s else s
  else s

/-- The statements of `case DISABLE_BL:` inside `if (led_on)` up to the regulators. -/
def led_disable_power (env : Env) (s : State) : State :=
  let s : State := disable_touchkey_backlights env s
  let s : State := { s with led_on := 0 }
  if s.screen_on = 0 then
    let s : State := touchkey_ldo_on env false (touchkey_led_ldo_on env false s)
    { s with touchkey_enable := 0 }
  else s

/-- The statements of `case DISABLE_BL:` inside `if (led_on)` from the timers on. -/
def led_disable_timers (s : State) : State :=
  let s : State :=
    if s.notification_timeout > 0 then
      { s with notification_timer := del_timer s.notification_timer }
    else s
  let s : State :=
    if s.breathing_enabled ∨ s.blinking_enabled then
      { s with breathing_timer := del_timer s.breathing_timer }
    else s
  if s.led_wake_lock then wake_unlock s else s

/-- Time passes: the clock advances by `d` jiffies. -/
def time_passes (d : Nat) (s : State) : State := { s with jiffies := jiffies_add s.jiffies d }

/-- A probed state configured for a notification with a 5000 ms timeout, not persistent, not
renewed. -/
def timeout_state : State :=
  { probed_state with
    notification_enabled := 1, notification_timeout := 5000, notification_renew := false }

/-- A probed state with notifications enabled, no notification timeout, and battery polling
every 500 ms with a limit of 20 percent while the battery is at 25 percent. -/
def polling_state : State :=
  { probed_state with
    notification_enabled := 1, batt_limit := 20, polling_interval := 500, batt_status := 25 }

/-- The statements of `case ENABLE_BL:` from the wake-lock to the regulators, before the
backlight command. -/
def led_enable_rails (env : Env) (s : State) : State :=
  let s : State := if !s.led_wake_lock then wake_lock s else s
  if s.screen_on = 0 then
    let s : State := touchkey_led_ldo_on env true (touchkey_ldo_on env true s)
    { s with touchkey_enable := 1 }
  else s

/-- The state `polling_state` with a notification timeout of 5000 ms. -/
def gated_state : State := { polling_state with notification_timeout := 5000 }

/-- Erases what the timer stage of Deactivate changes: the NotificationTimeout and Effect
timers, the wake-lock and the trace. -/
def tmr_erase (s : State) : State :=
  { s with notification_timer := ⟨false, 0⟩, breathing_timer := ⟨false, 0⟩,
           led_wake_lock := false, trace := [] }

/-- A probed state showing a notification that was armed while a timeout was configured,
the timeout having since been set to -1: `led_on = 1`, wake-lock held, NotificationTimeout
timer pending. -/
def lit_state : State :=
  { probed_state with
    led_on := 1, led_wake_lock := true, notification_enabled := 1,
    notification_timer := ⟨true, 100⟩ }

/-- The state right after `down(&enable_sem)` has returned. -/
def acquired (s : State) : State := emit Ev.down { s with enable_sem := s.enable_sem - 1 }

/-! ## The effect generator seen through its phase -/

/-- The phase of the breathing generator: `breathe_in` and `breathe_volt`. -/
structure Gen where
  breathe_in : Bool
  breathe_volt : Nat
deriving DecidableEq, Repr

/-- What one tick of the breathing branch of `breathing_timer_action` does: the values it
passes to `change_touch_key_led_voltage` (as `unsigned int`, before conversion to `int`),
the delay in ms it re-arms the Effect timer with, and the phase afterwards. -/
structure GenStep where
  volts : List Nat
  delay : Nat
  next : Gen
deriving DecidableEq, Repr

/-- One tick of the breathing branch of `breathing_timer_action`, read off `breathing_rise`
and `breathing_fall` (which calls `reset_breathing` when `breathe_volt <= breathe.min`). -/
def gen_step (b : Breathing) (g : Gen) : GenStep :=
  if g.breathe_in then
    if (g.breathe_volt + b.step_incr) % 4294967296 ≥ b.max then
      ⟨[g.breathe_volt], b.step_int, ⟨false, b.max⟩⟩
    else ⟨[g.breathe_volt], b.step_int, ⟨true, (g.breathe_volt + b.step_incr) % 4294967296⟩⟩
  else
    if uint32 ((g.breathe_volt : Int) - (b.step_incr : Int)) ≤ b.min then
      ⟨[g.breathe_volt, b.min], b.pause, ⟨true, b.min⟩⟩
    else
      ⟨[g.breathe_volt], b.step_int,
        ⟨false, uint32 ((g.breathe_volt : Int) - (b.step_incr : Int))⟩⟩

/-- The phase of the generator in a state. -/
def gen_of (s : State) : Gen := ⟨s.breathe_in, s.breathe_volt⟩

/-- The phase after `n` ticks. -/
def gen_run (b : Breathing) : Nat → Gen → Gen
  | 0, g => g
  | n + 1, g => gen_run b n (gen_step b g).next

/-- The values passed to `change_touch_key_led_voltage` during `n` ticks, in order. -/
def gen_volts (b : Breathing) : Nat → Gen → List Nat
  | 0, _ => []
  | n + 1, g => (gen_step b g).volts ++ gen_volts b n (gen_step b g).next

/-- The delays, in ms, with which `n` successive ticks re-arm the Effect timer. -/
def gen_delays (b : Breathing) : Nat → Gen → List Nat
  | 0, _ => []
  | n + 1, g => (gen_step b g).delay :: gen_delays b n (gen_step b g).next

/-- The regulator call `change_touch_key_led_voltage` makes for the `unsigned int` value
`v`: the value is converted to `int` and multiplied by 1000. -/
def set_voltage_ev (v : Nat) : Ev :=
  Ev.regulator_set_voltage Regulator.touch_led (int32 (int32 v * 1000)) (int32 (int32 v * 1000))

/-- The state after `n` runs of `breathing_timer_action`. -/
def breathing_ticks (env : Env) : Nat → State → State
  | 0, s => s
  | n + 1, s => breathing_ticks env n (breathing_timer_action env s)

/-- The voltages, in microvolt, programmed into the LED regulator along a trace. -/
def rail_uV : List Ev → List Int
  | [] => []
  | Ev.regulator_set_voltage Regulator.touch_led u _ :: t => u :: rail_uV t
  | _ :: t => rail_uV t

/-- The default breathing configuration `{2500, 3300, 50, 100, 700}`. -/
def default_breathing : Breathing :=
  ⟨BREATHING_MIN_VOLT, BREATHING_MAX_VOLT, BREATHING_STEP_INCR, BREATHING_STEP_INT,
    BREATHING_PAUSE⟩

/-- A probed state configured as in the end-to-end scenario: notifications enabled,
breathing enabled with the default configuration, timeout 10000 ms, not persistent,
renewed; no timer armed. -/
def scenario_state : State :=
  { probed_state with
    notification_enabled := 1, breathing_enabled := true, notification_timeout := 10000,
    notification_persistent := false, notification_renew := true }

/-- A write to one of the two effect toggles, with what `sscanf` parsed. -/
inductive EffectWrite where
  | breathing_enabled (data : Option Nat)
  | blinking_enabled (data : Option Nat)

/-- The state after one write to an effect toggle. -/
def effect_write (w : EffectWrite) (s : State) : State :=
  match w with
  | EffectWrite.breathing_enabled d => (enable_breathing_write d 0 s).2
  | EffectWrite.blinking_enabled d => (enable_blinking_write d 0 s).2

/-- The state after a sequence of writes to the effect toggles. -/
def effect_writes : List EffectWrite → State → State
  | [], s => s
  | w :: ws, s => effect_writes ws (effect_write w s)

/-- The voltages, in mV, of one breathing cycle with the default configuration: 2500 up to
3250 in steps of 50, then 3300 down to 2550, then 2500. -/
def default_cycle : List Nat :=
  (List.range 16).map (fun k => 2500 + 50 * k) ++ (List.range 16).map (fun k => 3300 - 50 * k)
    ++ [2500]

/-- A probed state with breathing enabled and a notification displayed. -/
def breathing_state : State := { probed_state with breathing_enabled := true, led_on := 1 }

/-- A breathing configuration with positive 32-bit values and `min < max` whose step is
larger than `min`: `{100, 3300, 3000, 100, 700}`. -/
def wide_step_breathing : Breathing := ⟨100, 3300, 3000, 100, 700⟩

/-- The state `breathing_state` after `breathing_config_write` has stored
`wide_step_breathing`. -/
def wide_step_state : State :=
  (breathing_config_write (some wide_step_breathing) 0 breathing_state).2

/-- The statements of `sec_touchkey_early_suspend` up to `set_touchkey_debug('S')`: the
interrupt is disabled, queued key work is cancelled, the keys are released and
`touchkey_enable` is cleared. -/
def early_suspend_quiesce (env : Env) (s : State) : State :=
  let s : State := disable_irq s
  let ret := s.touchkey_work_queued
  let s : State := emit Ev.cancel_work_sync { s with touchkey_work_queued := false }
  let s : State := if ret then enable_irq s else s
  let s : State := release_keys env s
  let s : State := { s with touchkey_enable := 0 }
  set_touchkey_debug 83 s

/-- The statements of `sec_touchkey_early_suspend` from `if (touchkey_enable < 0)` on. -/
def early_suspend_power (env : Env) (s : State) : State :=
  if s.touchkey_enable < 0 then s
  else
    let s : State := emit (Ev.gpio_direction_input Gpio.TOUCH_INT) s
    let s : State := touchkey_led_ldo_on env false s
    let s : State := touchkey_ldo_on env false s
    { s with screen_on := 0 }

/-- Erases what the key pipeline and the power-state transitions change besides the LED
state: the hardware fields of `hw_put`, the debug ring, the interrupt depth, the queued flag
of the key work, `touchkey_enable` and `screen_on`. -/
def pm_erase (s : State) : State :=
  { hw_put [] 0 0 false false 0 s with
    touchkey_debug_count := 0, touchkey_debug := [], irq_depth := 0,
    touchkey_work_queued := false, touchkey_enable := 0, screen_on := 0 }

/-- The state `lit_state` with both regulators enabled. -/
def lit_powered_state : State :=
  { lit_state with touch_regulator := true, touch_led_regulator := true }

/-- Keeps `touchkey_enable` and the count of `enable_sem` and erases everything else. -/
def gate_erase (s : State) : State :=
  { init_state with touchkey_enable := s.touchkey_enable, enable_sem := s.enable_sem }

/-- Erases what `touchkey_work_func` changes: the hardware fields of `hw_put`, the debug
ring, the interrupt depth, the queued flag of the key work and the KeyBacklight timer. -/
def key_erase (s : State) : State :=
  { hw_put [] 0 0 false false 0 s with
    touchkey_debug_count := 0, touchkey_debug := [], irq_depth := 0,
    touchkey_work_queued := false, led_timer := ⟨false, 0⟩ }

/-- The invariant behind the gate: `touchkey_enable` is 0 or 1 and `enable_sem` is free. -/
def GateInv (s : State) : Prop :=
  (s.touchkey_enable = 0 ∨ s.touchkey_enable = 1) ∧ s.enable_sem = 1

/-- Events other than the two operations on `enable_sem`. -/
def Ev.not_gate : Ev → Bool
  | Ev.down => false
  | Ev.up => false
  | _ => true

/-- Kernel services that all succeed during probe. -/
def sample_probe_env : ProbeEnv := ⟨true, true, 0, 0⟩

/-- The state in which probe leaves the driver, in the sample environment with a working
bus. -/
def booted_state : State :=
  (i2c_touchkey_probe (sample_env (fun _ => 1) 0 0) sample_probe_env init_state).2

/-- The statements of `sec_touchkey_late_resume` from `gpio_direction_output` to
`touchkey_enable = 1`. -/
def late_resume_gpio (s : State) : State :=
  let s : State := emit (Ev.gpio_direction_output Gpio.TOUCH_EN 1) s
  let s : State := emit (Ev.gpio_direction_output Gpio.TOUCH_SDA_28V 1) s
  let s : State := emit (Ev.gpio_direction_output Gpio.TOUCH_SCL_28V 1) s
  let s : State := emit (Ev.gpio_direction_output Gpio.TOUCH_INT 1) s
  let s : State := emit Ev.irq_set_irq_type s
  let s : State := emit (Ev.s3c_gpio_cfgpin Gpio.TOUCH_INT) s
  let s : State := emit (Ev.s3c_gpio_setpull Gpio.TOUCH_INT) s
  { s with touchkey_enable := 1 }

/-- The block of `sec_touchkey_late_resume` under `CONFIG_TARGET_LOCALE_NAATT`. -/
def late_resume_calibrate (env : Env) (s : State) : State :=
  if env.CONFIG_TARGET_LOCALE_NAATT then
    msleep env 200 (touchkey_autocalibration env (msleep env 50 s)).2
  else s

/-- The statements of `i2c_touchkey_probe` from `touchkey_driver` being allocated to
`touchkey_enable = 1`. -/
def probe_power (env : Env) (s : State) : State :=
  let s : State := { s with touchkey_driver := true }
  let s : State := touchkey_ldo_on env true s
  let s : State := msleep env 50 s
  { s with touchkey_enable := 1 }

/-- The statements of `i2c_touchkey_probe` after `get_touchkey_module_version`, whose result
and state are `r`. -/
def probe_tail (env : Env) (k : ProbeEnv) (r : Int × State) : Int × State :=
  if r.1 < 0 then (-ENODEV, { r.2 with touchkey_probe := false })
  else if k.request_irq ≠ 0 then (-EBUSY, r.2)
  else i2c_touchkey_probe_finish env (emit Ev.register_early_suspend (emit Ev.request_irq r.2))

/-- The statements of `notification_off` from `touchkey_enable = 0` on. -/
def notification_off_release (s : State) : State :=
  let s : State := { s with touchkey_enable := 0, led_on := 0, notification_count := 0 }
  if s.led_wake_lock then wake_unlock s else s

/-- A notification with a 5000 ms timeout arrives while the display is on, then the display
goes off: notifications are enabled, the timeout is configured, Activate runs,
`sec_touchkey_early_suspend` runs. -/
def notify_then_suspend : List Op :=
  [Op.notification_enabled_write (some 1), Op.notification_timeout_write 3 5000 0 1,
    Op.led_status_write (some ENABLE_BL), Op.sec_touchkey_early_suspend]

/-- One step of the ramp of `led_fadeout`: the rail is set to `v` mV, then 50 ms pass. -/
def fade_step (env : Env) (s : State) (v : Int) : State :=
  msleep env 50 (change_touch_key_led_voltage env v s)

/-- The voltages of the fade-out ramp as the specification describes them: `b`, `b - 50`,
`b - 100`, ... in `floor((b - 2500) / 50) + 1` steps when `b >= 2500`, none otherwise. -/
def fade_volts (b : Int) : List Int :=
  if b ≥ 2500 then
    (List.range (((b - 2500) / 50).toNat + 1)).map (fun (k : Nat) => b - 50 * (k : Int))
  else []

/-- A blinking notification that is dismissed during its dark phase and followed by a second
one: notifications and blinking are enabled, Activate runs, one effect tick runs, Deactivate
runs, Activate runs again. -/
def blink_twice : List Op :=
  [Op.notification_enabled_write (some 1), Op.enable_blinking_write (some 1),
    Op.led_status_write (some ENABLE_BL), Op.breathing_timer_action,
    Op.led_status_write (some DISABLE_BL), Op.led_status_write (some ENABLE_BL)]

/-- The statements `ret = cancel_work_sync(&touchkey_work); if (ret) enable_irq(...)` of
`sec_touchkey_early_suspend`. -/
def cancel_key_work (s : State) : State :=
  let ret := s.touchkey_work_queued
  let s : State := emit Ev.cancel_work_sync { s with touchkey_work_queued := false }
  if ret then enable_irq s else s

/-- Keeps the disable depth of the interrupt and the queued flag of the key work and erases
everything else. -/
def irq_erase (s : State) : State :=
  { init_state with irq_depth := s.irq_depth, touchkey_work_queued := s.touchkey_work_queued }

/-- A probed state with the key interrupt taken and its work item queued: depth 1. -/
def key_pending_state : State := touchkey_interrupt probed_state

/-- Calls that switch a regulator or set its voltage. -/
def Ev.is_regulator : Ev → Bool
  | Ev.regulator_enable _ => true
  | Ev.regulator_force_disable _ => true
  | Ev.regulator_set_voltage _ _ _ => true
  | _ => false

/-- Whether every regulator call among the events `l` is made while `enable_sem` is held by
the code that emits `l`; `n` is the number of its `down`s not yet followed by an `up`. -/
def regs_under_sem : Nat → List Ev → Bool
  | _, [] => true
  | n, Ev.down :: l => regs_under_sem (n + 1) l
  | n, Ev.up :: l => regs_under_sem (n - 1) l
  | n, e :: l => (!e.is_regulator || decide (0 < n)) && regs_under_sem n l

/-- Keeps `led_on` and the wake-lock and erases everything else. -/
def led_erase (s : State) : State :=
  { init_state with led_on := s.led_on, led_wake_lock := s.led_wake_lock }

/-- The wake-lock is held exactly when `led_on` is 1. -/
def LedInv (s : State) : Prop := s.led_wake_lock = true ↔ s.led_on = 1

/-- States the driver can be in at any time: the static initial values, or the state one run
of `i2c_touchkey_probe` leaves (whether it succeeds or fails), followed by any sequence of
entry points. -/
def Started (env : Env) (s : State) : Prop :=
  ∃ (s0 : State) (ops : List Op),
    (s0 = init_state ∨ ∃ k : ProbeEnv, s0 = (i2c_touchkey_probe env k init_state).2) ∧
    run env ops s0 = some s

/-- A notification with a 5000 ms timeout arrives while the display is on: notifications are
enabled, the timeout is configured, Activate runs. -/
def notify_with_timeout : List Op :=
  [Op.notification_enabled_write (some 1), Op.notification_timeout_write 3 5000 0 1,
    Op.led_status_write (some ENABLE_BL)]

/-- The NotificationTimeout timer runs out: 5000 ms pass, the timer fires, its work runs. -/
def timeout_fires : List Op :=
  [Op.time_passes 1000, Op.timer_expires TimerId.notification_timer, Op.notification_off]

/-- The sample environment in which every byte read from the bus is 1: the frame of a press
of key 1 (`KEY_MENU`), with the touch surface idle. -/
def press_env : Env := sample_env (fun _ => 1) 1 0

/-- The state in which a successful probe leaves the driver in `press_env`. -/
def press_booted_state : State := (i2c_touchkey_probe press_env sample_probe_env init_state).2

/-- The state of `press_env` after a notification with a 5000 ms timeout has been shown. -/
def notified_state : State :=
  (run press_env notify_with_timeout press_booted_state).getD init_state

/-- A probed state with `led_brightness = 2600`. -/
def dim_state : State := { probed_state with led_brightness := 2600 }

theorem not_ready_eq_false_iff (s : State) : touchkey_not_ready s = false ↔ ready s := by
  unfold touchkey_not_ready ready
  cases s.touchkey_driver <;> cases s.touchkey_probe <;> simp

theorem not_ready_of_not (s : State)
    (h : s.touchkey_driver = false ∨ s.touchkey_enable ≠ 1 ∨ s.touchkey_probe = false) :
    touchkey_not_ready s = true := by
  unfold touchkey_not_ready
  rcases h with h | h | h <;> simp [h]

theorem i2c_transfer_fst (env : Env) (rd : Bool) (val : List Nat) (len : Nat) (s : State) :
    (i2c_transfer env rd val len s).1 = env.i2c_transfer s.xfers := rfl

theorem i2c_touchkey_loop_zero (env : Env) (rd : Bool) (len : Nat) (err : Int) (val : List Nat)
    (s : State) : i2c_touchkey_loop env rd len 0 err val s = (err, val, s) := rfl

/-- One iteration of the transport loop. -/
theorem i2c_touchkey_loop_succ (env : Env) (rd : Bool) (len retry : Nat) (err : Int)
    (val : List Nat) (s : State) :
    i2c_touchkey_loop env rd len (retry + 1) err val s =
      if env.i2c_transfer s.xfers ≥ 0 then
        (0, (i2c_transfer env rd val len s).2.1, (i2c_transfer env rd val len s).2.2)
      else
        i2c_touchkey_loop env rd len retry (env.i2c_transfer s.xfers)
          (i2c_transfer env rd val len s).2.1 (mdelay env 10 (i2c_transfer env rd val len s).2.2) :=
  rfl

theorem i2c_transfer_xfers (env : Env) (rd : Bool) (val : List Nat) (len : Nat) (s : State) :
    (i2c_transfer env rd val len s).2.2.xfers = s.xfers + 1 := rfl

theorem mdelay_xfers (env : Env) (ms : Nat) (s : State) : (mdelay env ms s).xfers = s.xfers := rfl

/-! ## Bus transport: claims -/

/-- C1: when the driver handle is absent, or `touchkey_enable != 1`, or `touchkey_probe` is
false, `i2c_touchkey_read` and `i2c_touchkey_write` return `-ENODEV` and leave the state,
which includes the transfer counter and the trace of bus calls, exactly as it was. -/
theorem C1_not_ready_no_transfer (env : Env) (reg : Nat) (val : List Nat) (len : Nat) (s : State)
    (h : s.touchkey_driver = false ∨ s.touchkey_enable ≠ 1 ∨ s.touchkey_probe = false) :
    i2c_touchkey_read env reg val len s = (-ENODEV, val, s) ∧
    i2c_touchkey_write env val len s = (-ENODEV, s) ∧
    (i2c_touchkey_read env reg val len s).2.2.xfers = s.xfers ∧
    (i2c_touchkey_write env val len s).2.xfers = s.xfers ∧
    (i2c_touchkey_read env reg val len s).2.2.trace = s.trace ∧
    (i2c_touchkey_write env val len s).2.trace = s.trace := by
  have hn := not_ready_of_not s h
  simp [i2c_touchkey_read, i2c_touchkey_write, hn]

theorem C1_not_ready_no_transfer_witness :
    (init_state.touchkey_driver = false ∨ init_state.touchkey_enable ≠ 1 ∨
        init_state.touchkey_probe = false) ∧
    i2c_touchkey_read (sample_env (fun _ => 1) 0 0) 0 [0, 0, 0] 3 init_state
      = (-ENODEV, [0, 0, 0], init_state) ∧
    i2c_touchkey_write (sample_env (fun _ => 1) 0 0) [1] 1 init_state = (-ENODEV, init_state) :=
  ⟨Or.inl rfl,
    (C1_not_ready_no_transfer (sample_env (fun _ => 1) 0 0) 0 [0, 0, 0] 3 init_state
      (Or.inl rfl)).1,
    (C1_not_ready_no_transfer (sample_env (fun _ => 1) 0 0) 0 [1] 1 init_state
      (Or.inl rfl)).2.1⟩

/-- C2, as stated, fails: on a ready device whose bus fails every transfer, the write and the
read each make two transfer attempts, not three. -/
theorem C2_counterexample :
    ready probed_state ∧ (∀ n, (sample_env (fun _ => -5) 0 0).i2c_transfer n < 0) ∧
    (i2c_touchkey_write (sample_env (fun _ => -5) 0 0) [1] 1 probed_state).2.xfers
      = probed_state.xfers + 2 ∧
    (i2c_touchkey_write (sample_env (fun _ => -5) 0 0) [1] 1 probed_state).2.xfers
      ≠ probed_state.xfers + 3 ∧
    (i2c_touchkey_read (sample_env (fun _ => -5) 0 0) 0 [0, 0, 0] 3 probed_state).2.2.xfers
      ≠ probed_state.xfers + 3 := by
  refine ⟨⟨rfl, rfl, rfl⟩, fun _ => by simp [sample_env], by decide, by decide, by decide⟩

/-- C2 amended: on a ready device whose bus fails every transfer, `i2c_touchkey_read` and
`i2c_touchkey_write` each make exactly 2 transfer attempts (the first plus 1 retry) and
return the error code of the last failed transfer. -/
theorem C2_two_attempts_then_error (env : Env) (reg : Nat) (val : List Nat) (len : Nat)
    (s : State) (hr : ready s) (hf : ∀ n, env.i2c_transfer n < 0) :
    (i2c_touchkey_read env reg val len s).1 = env.i2c_transfer (s.xfers + 1) ∧
    (i2c_touchkey_read env reg val len s).2.2.xfers = s.xfers + 2 ∧
    (i2c_touchkey_write env val len s).1 = env.i2c_transfer (s.xfers + 1) ∧
    (i2c_touchkey_write env val len s).2.xfers = s.xfers + 2 := by
  have hn := (not_ready_eq_false_iff s).mpr hr
  have h0 : ¬ env.i2c_transfer s.xfers ≥ 0 := not_le.mpr (hf _)
  have h1 : ¬ env.i2c_transfer (s.xfers + 1) ≥ 0 := not_le.mpr (hf _)
  simp only [i2c_touchkey_read, i2c_touchkey_write, hn, i2c_touchkey_loop_succ,
    i2c_touchkey_loop_zero, mdelay_xfers, i2c_transfer_xfers, h0, h1, if_false,
    Bool.false_eq_true]
  exact ⟨trivial, trivial, trivial, trivial⟩

theorem C2_two_attempts_then_error_witness :
    ready probed_state ∧
    (i2c_touchkey_write (sample_env (fun _ => -5) 0 0) [1] 1 probed_state).1 = -5 ∧
    (i2c_touchkey_write (sample_env (fun _ => -5) 0 0) [1] 1 probed_state).2.xfers = 2 :=
  ⟨⟨rfl, rfl, rfl⟩,
    (C2_two_attempts_then_error (sample_env (fun _ => -5) 0 0) 0 [1] 1 probed_state
      ⟨rfl, rfl, rfl⟩ (fun _ => by simp [sample_env])).2.2.1,
    (C2_two_attempts_then_error (sample_env (fun _ => -5) 0 0) 0 [1] 1 probed_state
      ⟨rfl, rfl, rfl⟩ (fun _ => by simp [sample_env])).2.2.2⟩

/-- C3: on a ready device whose bus fails the first two transfers and would succeed on a
third, `i2c_touchkey_write` returns the negative code of the second transfer, not 0, and
makes only two transfers: the third attempt never takes place. -/
theorem C3_third_attempt_never_decides (env : Env) (val : List Nat) (len : Nat) (s : State)
    (hr : ready s) (h0 : env.i2c_transfer s.xfers < 0) (h1 : env.i2c_transfer (s.xfers + 1) < 0)
    (_h2 : env.i2c_transfer (s.xfers + 2) ≥ 0) :
    (i2c_touchkey_write env val len s).1 < 0 ∧
    (i2c_touchkey_write env val len s).1 ≠ 0 ∧
    (i2c_touchkey_write env val len s).1 = env.i2c_transfer (s.xfers + 1) ∧
    (i2c_touchkey_write env val len s).2.xfers = s.xfers + 2 := by
  have hn := (not_ready_eq_false_iff s).mpr hr
  have h0' : ¬ env.i2c_transfer s.xfers ≥ 0 := not_le.mpr h0
  have h1' : ¬ env.i2c_transfer (s.xfers + 1) ≥ 0 := not_le.mpr h1
  have e : (i2c_touchkey_write env val len s).1 = env.i2c_transfer (s.xfers + 1) ∧
      (i2c_touchkey_write env val len s).2.xfers = s.xfers + 2 := by
    simp only [i2c_touchkey_write, hn, i2c_touchkey_loop_succ, i2c_touchkey_loop_zero,
      mdelay_xfers, i2c_transfer_xfers, h0', h1', if_false, Bool.false_eq_true]
    exact ⟨trivial, trivial⟩
  refine ⟨?_, ?_, e.1, e.2⟩
  · rw [e.1]; exact h1
  · rw [e.1]; exact ne_of_lt h1

theorem C3_third_attempt_never_decides_witness :
    ready probed_state ∧
    (i2c_touchkey_write (sample_env (fun n => if n < 2 then -5 else 1) 0 0) [1] 1
      probed_state).1 < 0 ∧
    (i2c_touchkey_write (sample_env (fun n => if n < 2 then -5 else 1) 0 0) [1] 1
      probed_state).2.xfers = probed_state.xfers + 2 :=
  ⟨⟨rfl, rfl, rfl⟩,
    (C3_third_attempt_never_decides (sample_env (fun n => if n < 2 then -5 else 1) 0 0) [1] 1
      probed_state ⟨rfl, rfl, rfl⟩ (by decide) (by decide) (by decide)).1,
    (C3_third_attempt_never_decides (sample_env (fun n => if n < 2 then -5 else 1) 0 0) [1] 1
      probed_state ⟨rfl, rfl, rfl⟩ (by decide) (by decide) (by decide)).2.2.2⟩

/-- C4, as stated, fails: on a ready device a transfer that reports 0 messages transferred,
fewer than the one requested, makes both `i2c_touchkey_write` and `i2c_touchkey_read`
return success (0). -/
theorem C4_counterexample :
    ready probed_state ∧
    (sample_env (fun _ => 0) 0 0).i2c_transfer probed_state.xfers < 1 ∧
    (i2c_touchkey_write (sample_env (fun _ => 0) 0 0) [1] 1 probed_state).1 = 0 ∧
    (i2c_touchkey_read (sample_env (fun _ => 0) 0 0) 0 [0, 0, 0] 3 probed_state).1 = 0 := by
  refine ⟨⟨rfl, rfl, rfl⟩, by decide, by decide, by decide⟩

/-- C4 amended: on a ready device `i2c_touchkey_read` and `i2c_touchkey_write` return
success (0) exactly when the first transfer, or after a negative first result the second
transfer, returns a non-negative value; a count of 0 messages counts as success, and only
negative results are treated as failures. -/
theorem C4_success_iff_nonnegative (env : Env) (reg : Nat) (val : List Nat) (len : Nat)
    (s : State) (hr : ready s) :
    ((i2c_touchkey_read env reg val len s).1 = 0 ↔
      (env.i2c_transfer s.xfers ≥ 0 ∨
        (env.i2c_transfer s.xfers < 0 ∧ env.i2c_transfer (s.xfers + 1) ≥ 0))) ∧
    ((i2c_touchkey_write env val len s).1 = 0 ↔
      (env.i2c_transfer s.xfers ≥ 0 ∨
        (env.i2c_transfer s.xfers < 0 ∧ env.i2c_transfer (s.xfers + 1) ≥ 0))) := by
  have hn := (not_ready_eq_false_iff s).mpr hr
  simp only [i2c_touchkey_read, i2c_touchkey_write, hn, i2c_touchkey_loop_succ,
    i2c_touchkey_loop_zero, mdelay_xfers, i2c_transfer_xfers, if_false, Bool.false_eq_true]
  by_cases h0 : env.i2c_transfer s.xfers ≥ 0
  · simp [h0]
  · by_cases h1 : env.i2c_transfer (s.xfers + 1) ≥ 0
    · have h0' : env.i2c_transfer s.xfers < 0 := not_le.mp h0
      simp [h0, h1, h0']
    · have h1' : env.i2c_transfer (s.xfers + 1) ≠ 0 := by omega
      simp only [h0, h1, if_false, false_or, and_false, iff_false]
      exact ⟨h1', h1'⟩

theorem C4_success_iff_nonnegative_witness :
    ready probed_state ∧
    ((i2c_touchkey_write (sample_env (fun _ => 0) 0 0) [1] 1 probed_state).1 = 0 ↔
      ((sample_env (fun _ => 0) 0 0).i2c_transfer probed_state.xfers ≥ 0 ∨
        ((sample_env (fun _ => 0) 0 0).i2c_transfer probed_state.xfers < 0 ∧
          (sample_env (fun _ => 0) 0 0).i2c_transfer (probed_state.xfers + 1) ≥ 0))) :=
  ⟨⟨rfl, rfl, rfl⟩,
    (C4_success_iff_nonnegative (sample_env (fun _ => 0) 0 0) 0 [1] 1 probed_state
      ⟨rfl, rfl, rfl⟩).2⟩

/-! ## Traces: lemmas -/

theorem input_reports_append (a b : List Ev) :
    input_reports (a ++ b) = input_reports a ++ input_reports b := by
  induction a with
  | nil => rfl
  | cons e t ih => cases e <;> simp [input_reports, ih]

theorem irq_enables_append (a b : List Ev) :
    irq_enables (a ++ b) = irq_enables a + irq_enables b := by
  induction a with
  | nil => simp [irq_enables]
  | cons e t ih => cases e <;> simp [irq_enables, ih]; omega

theorem input_reports_quiet (l : List Ev) (h : ∀ e ∈ l, Ev.is_quiet e = true) :
    input_reports l = [] := by
  induction l with
  | nil => rfl
  | cons e t ih =>
    have he := h e (List.mem_cons_self _ _)
    have ht := ih (fun x hx => h x (List.mem_cons_of_mem _ hx))
    cases e <;> simp_all [input_reports, Ev.is_quiet]

theorem irq_enables_quiet (l : List Ev) (h : ∀ e ∈ l, Ev.is_quiet e = true) :
    irq_enables l = 0 := by
  induction l with
  | nil => rfl
  | cons e t ih =>
    have he := h e (List.mem_cons_self _ _)
    have ht := ih (fun x hx => h x (List.mem_cons_of_mem _ hx))
    cases e <;> simp_all [irq_enables, Ev.is_quiet]

theorem not_led_action_of_bus_read (e : Ev) (h : Ev.is_bus_of true e = true) :
    Ev.is_led_action e = false := by
  cases e with
  | i2c_transfer flags len buf ret =>
    have hf : flags = 1 := by simpa [Ev.is_bus_of, I2C_M_RD] using h
    subst hf
    rfl
  | mdelay ms => rfl
  | _ => simp [Ev.is_bus_of] at h

theorem led_actions_bus_read (l : List Ev) (h : ∀ e ∈ l, Ev.is_bus_of true e = true) :
    led_actions l = [] := by
  unfold led_actions
  rw [List.filter_eq_nil_iff]
  intro e he
  simp [not_led_action_of_bus_read e (h e he)]

theorem is_quiet_of_is_bus_of (rd : Bool) (e : Ev) (h : Ev.is_bus_of rd e = true) :
    Ev.is_quiet e = true := by
  cases e <;> simp_all [Ev.is_bus_of, Ev.is_quiet]

theorem TraceExt.refl (p : Ev → Bool) (s : State) : TraceExt p s s :=
  ⟨[], by simp, by simp⟩

theorem TraceExt.of_trace_eq (p : Ev → Bool) (s1 s2 : State) (h : s2.trace = s1.trace) :
    TraceExt p s1 s2 :=
  ⟨[], by simp [h], by simp⟩

theorem TraceExt.trans {p : Ev → Bool} {s1 s2 s3 : State} (h12 : TraceExt p s1 s2)
    (h23 : TraceExt p s2 s3) : TraceExt p s1 s3 := by
  obtain ⟨l1, e1, p1⟩ := h12
  obtain ⟨l2, e2, p2⟩ := h23
  refine ⟨l1 ++ l2, by rw [e2, e1, List.append_assoc], ?_⟩
  intro e he
  rcases List.mem_append.mp he with h | h
  · exact p1 e h
  · exact p2 e h

theorem TraceExt.mono {p q : Ev → Bool} {s1 s2 : State} (hpq : ∀ e, p e = true → q e = true)
    (h : TraceExt p s1 s2) : TraceExt q s1 s2 := by
  obtain ⟨l, e, hl⟩ := h
  exact ⟨l, e, fun x hx => hpq x (hl x hx)⟩

theorem TraceExt.emit (p : Ev → Bool) (e : Ev) (s : State) (h : p e = true) :
    TraceExt p s (emit e s) :=
  ⟨[e], rfl, by simpa using h⟩

theorem TraceExt.input_reports_eq {s1 s2 : State} (h : TraceExt Ev.is_quiet s1 s2) :
    input_reports s2.trace = input_reports s1.trace := by
  obtain ⟨l, e, hl⟩ := h
  rw [e, input_reports_append, input_reports_quiet l hl, List.append_nil]

theorem TraceExt.irq_enables_eq {s1 s2 : State} (h : TraceExt Ev.is_quiet s1 s2) :
    irq_enables s2.trace = irq_enables s1.trace := by
  obtain ⟨l, e, hl⟩ := h
  rw [e, irq_enables_append, irq_enables_quiet l hl, Nat.add_zero]

theorem TraceExt.led_actions_eq {s1 s2 : State} (h : TraceExt (Ev.is_bus_of true) s1 s2) :
    led_actions s2.trace = led_actions s1.trace := by
  obtain ⟨l, e, hl⟩ := h
  have := led_actions_bus_read l hl
  unfold led_actions at this ⊢
  rw [e, List.filter_append, this, List.append_nil]

/-! ## Bus transport and work function: frame lemmas -/

theorem i2c_transfer_trace_ext (env : Env) (rd : Bool) (val : List Nat) (len : Nat) (s : State) :
    TraceExt (Ev.is_bus_of rd) s (i2c_transfer env rd val len s).2.2 := by
  refine ⟨[Ev.i2c_transfer (if rd then I2C_M_RD else I2C_M_WR) len _ _], rfl, ?_⟩
  intro e he
  rw [List.mem_singleton] at he
  subst he
  simp [Ev.is_bus_of]

theorem mdelay_trace_ext (env : Env) (rd : Bool) (ms : Nat) (s : State) :
    TraceExt (Ev.is_bus_of rd) s (mdelay env ms s) :=
  ⟨[Ev.mdelay ms], rfl, by simp [Ev.is_bus_of]⟩

theorem i2c_touchkey_loop_trace_ext (env : Env) (rd : Bool) (len retry : Nat) :
    ∀ (err : Int) (val : List Nat) (s : State),
      TraceExt (Ev.is_bus_of rd) s (i2c_touchkey_loop env rd len retry err val s).2.2 := by
  induction retry with
  | zero => intro err val s; exact TraceExt.refl _ _
  | succ n ih =>
    intro err val s
    rw [i2c_touchkey_loop_succ]
    split_ifs
    · exact i2c_transfer_trace_ext env rd val len s
    · exact ((i2c_transfer_trace_ext env rd val len s).trans
        (mdelay_trace_ext env rd 10 _)).trans (ih _ _ _)

theorem i2c_touchkey_loop_bus_erase (env : Env) (rd : Bool) (len retry : Nat) :
    ∀ (err : Int) (val : List Nat) (s : State),
      bus_erase (i2c_touchkey_loop env rd len retry err val s).2.2 = bus_erase s := by
  induction retry with
  | zero => intro err val s; rfl
  | succ n ih =>
    intro err val s
    rw [i2c_touchkey_loop_succ]
    split_ifs
    · rfl
    · rw [ih]; rfl

theorem i2c_touchkey_read_trace_ext (env : Env) (reg : Nat) (val : List Nat) (len : Nat)
    (s : State) : TraceExt (Ev.is_bus_of true) s (i2c_touchkey_read env reg val len s).2.2 := by
  unfold i2c_touchkey_read
  split_ifs
  · exact TraceExt.refl _ _
  · exact i2c_touchkey_loop_trace_ext env true len 2 0 val s

theorem i2c_touchkey_read_bus_erase (env : Env) (reg : Nat) (val : List Nat) (len : Nat)
    (s : State) : bus_erase (i2c_touchkey_read env reg val len s).2.2 = bus_erase s := by
  unfold i2c_touchkey_read
  split_ifs
  · rfl
  · exact i2c_touchkey_loop_bus_erase env true len 2 0 val s

theorem i2c_touchkey_write_trace_ext (env : Env) (val : List Nat) (len : Nat) (s : State) :
    TraceExt (Ev.is_bus_of false) s (i2c_touchkey_write env val len s).2 := by
  unfold i2c_touchkey_write
  split_ifs
  · exact TraceExt.refl _ _
  · exact i2c_touchkey_loop_trace_ext env false len 2 0 val s

/-- One iteration of the read loop of the work function. -/
theorem touchkey_read_retry_succ (env : Env) (retry : Nat) (ret : Int) (data : List Nat)
    (s : State) :
    touchkey_read_retry env (retry + 1) ret data s =
      if (i2c_touchkey_read env KEYCODE_REG data 3 s).1 = 0 then
        i2c_touchkey_read env KEYCODE_REG data 3 s
      else
        touchkey_read_retry env retry (i2c_touchkey_read env KEYCODE_REG data 3 s).1
          (i2c_touchkey_read env KEYCODE_REG data 3 s).2.1
          (i2c_touchkey_read env KEYCODE_REG data 3 s).2.2 := by
  rfl

theorem touchkey_read_retry_trace_ext (env : Env) (retry : Nat) :
    ∀ (ret : Int) (data : List Nat) (s : State),
      TraceExt (Ev.is_bus_of true) s (touchkey_read_retry env retry ret data s).2.2 := by
  induction retry with
  | zero => intro ret data s; exact TraceExt.refl _ _
  | succ n ih =>
    intro ret data s
    rw [touchkey_read_retry_succ]
    split_ifs
    · exact i2c_touchkey_read_trace_ext env _ data 3 s
    · exact (i2c_touchkey_read_trace_ext env _ data 3 s).trans (ih _ _ _)

theorem touchkey_read_retry_bus_erase (env : Env) (retry : Nat) :
    ∀ (ret : Int) (data : List Nat) (s : State),
      bus_erase (touchkey_read_retry env retry ret data s).2.2 = bus_erase s := by
  induction retry with
  | zero => intro ret data s; rfl
  | succ n ih =>
    intro ret data s
    rw [touchkey_read_retry_succ]
    split_ifs
    · exact i2c_touchkey_read_bus_erase env _ data 3 s
    · rw [ih]; exact i2c_touchkey_read_bus_erase env _ data 3 s

/-- The result code of a read of the bus transport is 0 or negative. -/
theorem i2c_touchkey_read_nonpos (env : Env) (reg : Nat) (val : List Nat) (len : Nat)
    (s : State) : (i2c_touchkey_read env reg val len s).1 ≤ 0 := by
  unfold i2c_touchkey_read
  split_ifs
  · simp [ENODEV]
  · simp only [i2c_touchkey_loop_succ, i2c_touchkey_loop_zero]
    split_ifs <;> simp; omega

/-- After the read loop of the work function, entered with `retry = 3`, the result code is 0
or negative. -/
theorem touchkey_read_retry_nonpos (env : Env) (data : List Nat) (s : State) :
    (touchkey_read_retry env 3 0 data s).1 ≤ 0 := by
  simp only [touchkey_read_retry_succ]
  split_ifs with h1 h2 h3
  · exact le_of_eq h1
  · exact le_of_eq h2
  · exact le_of_eq h3
  · exact i2c_touchkey_read_nonpos env KEYCODE_REG _ _ _

/-! ## Work function: lemmas -/

theorem change_touch_key_led_voltage_quiet (env : Env) (v : Int) (s : State) :
    TraceExt Ev.is_quiet s (change_touch_key_led_voltage env v s) := by
  unfold change_touch_key_led_voltage
  split_ifs
  · exact TraceExt.refl _ _
  · exact ⟨[_], rfl, by simp [Ev.is_quiet]⟩

theorem enable_touchkey_backlights_quiet (env : Env) (s : State) :
    TraceExt Ev.is_quiet s (enable_touchkey_backlights env s) :=
  (i2c_touchkey_write_trace_ext env [1] 1 s).mono (is_quiet_of_is_bus_of false)

theorem touchkey_work_backlight_quiet (env : Env) (s : State) :
    TraceExt Ev.is_quiet s (touchkey_work_backlight env s) := by
  unfold touchkey_work_backlight
  split_ifs
  · exact (change_touch_key_led_voltage_quiet env _ s).trans
      (enable_touchkey_backlights_quiet env _)
  · exact TraceExt.refl _ _

theorem touchkey_work_timer_trace (env : Env) (s : State) :
    (touchkey_work_timer env s).trace = s.trace := by
  unfold touchkey_work_timer
  split_ifs <;> rfl

/-- The common tail of `touchkey_work_func` on a frame with a valid key index: backlight,
timer, debug mark, `enable_irq`.  Its trace is the one before, quiet events, and one
`enable_irq` at the end. -/
theorem touchkey_work_tail_trace (env : Env) (s : State) :
    ∃ l, (enable_irq (set_touchkey_debug 65
          (touchkey_work_timer env (touchkey_work_backlight env s)))).trace
        = s.trace ++ l ++ [Ev.enable_irq] ∧ ∀ e ∈ l, Ev.is_quiet e = true := by
  obtain ⟨l, hl, hq⟩ := touchkey_work_backlight_quiet env s
  refine ⟨l, ?_, hq⟩
  show (touchkey_work_timer env (touchkey_work_backlight env s)).trace ++ [Ev.enable_irq] = _
  rw [touchkey_work_timer_trace, hl]

theorem touchkey_work_func_of_read (env : Env) (s s1 : State) (data : List Nat)
    (hread : touchkey_read_retry env 3 0 [0, 0, 0] (set_touchkey_debug 97 s) = (0, data, s1)) :
    touchkey_work_func env s = touchkey_work_decode env data s1 := by
  unfold touchkey_work_func
  simp only [hread]
  simp

theorem touchkey_count_eq (env : Env) :
    touchkey_count env = ((touchkey_keycode env).length : Int) := rfl

theorem touchkey_keycode_at_valid (env : Env) (i : Nat) (h : i < (touchkey_keycode env).length) :
    touchkey_keycode_at env (i : Int) = some ((touchkey_keycode env).getD i 0) := by
  unfold touchkey_keycode_at
  have h2 : (0 : Int) ≤ (i : Int) ∧ (i : Int) < touchkey_count env := by
    rw [touchkey_count_eq]; omega
  rw [if_pos h2]
  simp [List.getD_eq_getElem?_getD, List.getElem?_eq_getElem h]

/-- Decoding a frame whose key index is 0 or not below `touchkey_count`. -/
theorem touchkey_work_decode_invalid (env : Env) (b : Nat) (rest : List Nat) (s1 : State)
    (h : b &&& 7 = 0 ∨ (touchkey_keycode env).length ≤ b &&& 7) :
    touchkey_work_decode env (b :: rest) s1 = some (enable_irq (set_touchkey_debug b s1)) := by
  unfold touchkey_work_decode
  have hc : ((b &&& 7 : Nat) : Int) ≤ 0 ∨ ((b &&& 7 : Nat) : Int) ≥ touchkey_count env := by
    rw [touchkey_count_eq]; omega
  simp only [List.getD_cons_zero, KEYCODE_BIT]
  rw [if_pos hc]

/-- Decoding a frame with a valid key index: either the event is held back (touch surface
active and a press), or it is reported and synced; the common tail follows. -/
theorem touchkey_work_decode_valid (env : Env) (b : Nat) (rest : List Nat) (s1 : State)
    (hlo : 1 ≤ b &&& 7) (hhi : b &&& 7 < (touchkey_keycode env).length) :
    touchkey_work_decode env (b :: rest) s1 =
      if b &&& 8 = 0 then
        if env.get_tsp_status ≠ 0 then
          some (enable_irq (set_touchkey_debug 65 (touchkey_work_timer env
            (touchkey_work_backlight env (set_touchkey_debug 80 (set_touchkey_debug b s1))))))
        else
          some (enable_irq (set_touchkey_debug 65 (touchkey_work_timer env
            (touchkey_work_backlight env (emit Ev.input_sync
              (emit (Ev.input_report_key ((touchkey_keycode env).getD (b &&& 7) 0) 1)
                (set_touchkey_debug 80 (set_touchkey_debug b s1))))))))
      else
        some (enable_irq (set_touchkey_debug 65 (touchkey_work_timer env
          (touchkey_work_backlight env (emit Ev.input_sync
            (emit (Ev.input_report_key ((touchkey_keycode env).getD (b &&& 7) 0) 0)
              (set_touchkey_debug b s1))))))) := by
  unfold touchkey_work_decode
  have hc : ¬ (((b &&& 7 : Nat) : Int) ≤ 0 ∨ ((b &&& 7 : Nat) : Int) ≥ touchkey_count env) := by
    rw [touchkey_count_eq]; omega
  simp only [List.getD_cons_zero, KEYCODE_BIT, UPDOWN_EVENT_BIT]
  rw [if_neg hc, touchkey_keycode_at_valid env _ hhi]
  by_cases h8 : b &&& 8 = 0
  · by_cases ht : env.get_tsp_status = 0
    · simp [h8, ht]
    · simp [h8, ht]
  · simp [h8]

theorem touchkey_work_decode_head (env : Env) (data : List Nat) (s1 : State) :
    touchkey_work_decode env data s1 = touchkey_work_decode env [data.getD 0 0] s1 := by
  unfold touchkey_work_decode
  simp only [List.getD_cons_zero]

theorem touchkey_work_tail_input_reports (env : Env) (s : State) :
    input_reports (enable_irq (set_touchkey_debug 65
      (touchkey_work_timer env (touchkey_work_backlight env s)))).trace
      = input_reports s.trace := by
  obtain ⟨l, hl, hq⟩ := touchkey_work_tail_trace env s
  rw [hl, input_reports_append, input_reports_append, input_reports_quiet l hq]
  simp [input_reports]

theorem touchkey_work_tail_irq_enables (env : Env) (s : State) :
    irq_enables (enable_irq (set_touchkey_debug 65
      (touchkey_work_timer env (touchkey_work_backlight env s)))).trace
      = irq_enables s.trace + 1 := by
  obtain ⟨l, hl, hq⟩ := touchkey_work_tail_trace env s
  rw [hl, irq_enables_append, irq_enables_append, irq_enables_quiet l hq]
  simp [irq_enables]

theorem touchkey_work_tail_last (env : Env) (s : State) :
    (enable_irq (set_touchkey_debug 65
      (touchkey_work_timer env (touchkey_work_backlight env s)))).trace.getLast?
      = some Ev.enable_irq := by
  obtain ⟨l, hl, _⟩ := touchkey_work_tail_trace env s
  rw [hl]
  simp

/-- The read phase of the work function leaves the key events, the `enable_irq` count and
the LED actions of the trace as they were, and changes only trace, transfer counter and
clock. -/
theorem touchkey_work_read_frame (env : Env) (s s1 : State) (ret : Int) (data : List Nat)
    (hread : touchkey_read_retry env 3 0 [0, 0, 0] (set_touchkey_debug 97 s) = (ret, data, s1)) :
    input_reports s1.trace = input_reports s.trace ∧
    irq_enables s1.trace = irq_enables s.trace ∧
    led_actions s1.trace = led_actions s.trace ∧
    bus_erase s1 = bus_erase (set_touchkey_debug 97 s) := by
  have hs1 : (touchkey_read_retry env 3 0 [0, 0, 0] (set_touchkey_debug 97 s)).2.2 = s1 := by
    rw [hread]
  have hext := touchkey_read_retry_trace_ext env 3 0 [0, 0, 0] (set_touchkey_debug 97 s)
  have hfr := touchkey_read_retry_bus_erase env 3 0 [0, 0, 0] (set_touchkey_debug 97 s)
  rw [hs1] at hext hfr
  have hq := hext.mono (is_quiet_of_is_bus_of true)
  exact ⟨hq.input_reports_eq, hq.irq_enables_eq, hext.led_actions_eq, hfr⟩

/-- Every decode ends with `enable_irq`, called once, and delivers either no key event or
one event whose key is read from `touchkey_keycode` at an index in `1..touchkey_count-1`. -/
theorem touchkey_work_decode_total (env : Env) (data : List Nat) (s1 : State) :
    ∃ s', touchkey_work_decode env data s1 = some s' ∧
      irq_enables s'.trace = irq_enables s1.trace + 1 ∧
      (input_reports s'.trace = input_reports s1.trace ∨
        ∃ i v, 1 ≤ i ∧ i < (touchkey_keycode env).length ∧
          input_reports s'.trace
            = input_reports s1.trace ++ [((touchkey_keycode env).getD i 0, v)]) := by
  rw [touchkey_work_decode_head]
  generalize data.getD 0 0 = b
  by_cases hv : b &&& 7 = 0 ∨ (touchkey_keycode env).length ≤ b &&& 7
  · refine ⟨_, touchkey_work_decode_invalid env b [] s1 hv, ?_, Or.inl ?_⟩
    · show irq_enables (s1.trace ++ [Ev.enable_irq]) = _
      simp [irq_enables_append, irq_enables]
    · show input_reports (s1.trace ++ [Ev.enable_irq]) = _
      simp [input_reports_append, input_reports]
  · have hlo : 1 ≤ b &&& 7 := by omega
    have hhi : b &&& 7 < (touchkey_keycode env).length := by omega
    rw [touchkey_work_decode_valid env b [] s1 hlo hhi]
    split_ifs
    · exact ⟨_, rfl, touchkey_work_tail_irq_enables env _,
        Or.inl (touchkey_work_tail_input_reports env _)⟩
    · refine ⟨_, rfl, ?_, Or.inr ⟨b &&& 7, 1, hlo, hhi, ?_⟩⟩
      · rw [touchkey_work_tail_irq_enables]
        show irq_enables (s1.trace ++ [_] ++ [_]) + 1 = _
        simp [irq_enables_append, irq_enables]
      · rw [touchkey_work_tail_input_reports]
        show input_reports (s1.trace ++ [_] ++ [_]) = _
        simp [input_reports_append, input_reports]
    · refine ⟨_, rfl, ?_, Or.inr ⟨b &&& 7, 0, hlo, hhi, ?_⟩⟩
      · rw [touchkey_work_tail_irq_enables]
        show irq_enables (s1.trace ++ [_] ++ [_]) + 1 = _
        simp [irq_enables_append, irq_enables]
      · rw [touchkey_work_tail_input_reports]
        show input_reports (s1.trace ++ [_] ++ [_]) = _
        simp [input_reports_append, input_reports]

/-! ## Key event pipeline: claims -/

/-- C5: after a successful read of a status frame with byte 0 = `b`, with the touch surface
inactive and `1 <= (b & 0x07) < touchkey_count`, `touchkey_work_func` reports exactly one
input event: key `touchkey_keycode[b & 0x07]`, with state 1 when `(b & 0x08) == 0` and state
0 otherwise. -/
theorem C5_valid_key_reported (env : Env) (s s1 : State) (b : Nat) (rest : List Nat)
    (hread : touchkey_read_retry env 3 0 [0, 0, 0] (set_touchkey_debug 97 s)
      = (0, b :: rest, s1))
    (htsp : env.get_tsp_status = 0)
    (hlo : 1 ≤ b &&& 7) (hhi : ((b &&& 7 : Nat) : Int) < touchkey_count env) :
    ∃ s', touchkey_work_func env s = some s' ∧
      b &&& 7 < (touchkey_keycode env).length ∧
      input_reports s'.trace = input_reports s.trace ++
        [((touchkey_keycode env).getD (b &&& 7) 0, if b &&& 8 = 0 then 1 else 0)] := by
  have hhi' : b &&& 7 < (touchkey_keycode env).length := by
    rw [touchkey_count_eq] at hhi; omega
  obtain ⟨hin, -, -, -⟩ := touchkey_work_read_frame env s s1 0 (b :: rest) hread
  rw [touchkey_work_func_of_read env s s1 _ hread,
    touchkey_work_decode_valid env b rest s1 hlo hhi']
  by_cases h8 : b &&& 8 = 0
  · rw [if_pos h8, if_neg (by simp [htsp]), if_pos h8]
    refine ⟨_, rfl, hhi', ?_⟩
    rw [touchkey_work_tail_input_reports, ← hin]
    show input_reports (s1.trace ++ [_] ++ [_]) = _
    simp [input_reports_append, input_reports]
  · rw [if_neg h8, if_neg h8]
    refine ⟨_, rfl, hhi', ?_⟩
    rw [touchkey_work_tail_input_reports, ← hin]
    show input_reports (s1.trace ++ [_] ++ [_]) = _
    simp [input_reports_append, input_reports]

theorem C5_valid_key_reported_witness :
    ∃ s', touchkey_work_func (sample_env (fun _ => 1) 10 0) probed_state = some s' ∧
      10 &&& 7 < (touchkey_keycode (sample_env (fun _ => 1) 10 0)).length ∧
      input_reports s'.trace = input_reports probed_state.trace ++
        [((touchkey_keycode (sample_env (fun _ => 1) 10 0)).getD (10 &&& 7) 0,
          if 10 &&& 8 = 0 then 1 else 0)] :=
  C5_valid_key_reported (sample_env (fun _ => 1) 10 0) probed_state
    (touchkey_read_retry (sample_env (fun _ => 1) 10 0) 3 0 [0, 0, 0]
      (set_touchkey_debug 97 probed_state)).2.2 10 [10, 10]
    (by rfl) (by rfl) (by decide) (by decide)

/-- C6: after a successful read of a status byte `b` with `(b & 0x07) == 0` or
`(b & 0x07) >= touchkey_count`, `touchkey_work_func` reports no input event, performs no LED
action (no bus write, no regulator call) and leaves the LED regulator, its voltage and the
KeyBacklight timer as they were.  Consequently, on every run, `touchkey_keycode` is never
read outside its bounds (the result is never `none`) and a reported key is always read at an
index in `1..touchkey_count-1`. -/
theorem C6_invalid_index_rejected (env : Env) (s : State) :
    (∀ (s1 : State) (b : Nat) (rest : List Nat),
      touchkey_read_retry env 3 0 [0, 0, 0] (set_touchkey_debug 97 s) = (0, b :: rest, s1) →
      (b &&& 7 = 0 ∨ ((b &&& 7 : Nat) : Int) ≥ touchkey_count env) →
      ∃ s', touchkey_work_func env s = some s' ∧
        input_reports s'.trace = input_reports s.trace ∧
        led_actions s'.trace = led_actions s.trace ∧
        s'.touch_led_regulator = s.touch_led_regulator ∧
        s'.touch_led_uV = s.touch_led_uV ∧
        s'.led_timer = s.led_timer) ∧
    (∃ s', touchkey_work_func env s = some s' ∧
      (input_reports s'.trace = input_reports s.trace ∨
        ∃ (i : Nat) (v : Int), 1 ≤ i ∧ (i : Int) < touchkey_count env ∧
          input_reports s'.trace
            = input_reports s.trace ++ [((touchkey_keycode env).getD i 0, v)])) := by
  constructor
  · intro s1 b rest hread hinv
    have hinv' : b &&& 7 = 0 ∨ (touchkey_keycode env).length ≤ b &&& 7 := by
      rw [touchkey_count_eq] at hinv; omega
    obtain ⟨hin, -, hled, hfr⟩ := touchkey_work_read_frame env s s1 0 (b :: rest) hread
    rw [touchkey_work_func_of_read env s s1 _ hread,
      touchkey_work_decode_invalid env b rest s1 hinv']
    refine ⟨_, rfl, ?_, ?_, ?_, ?_, ?_⟩
    · rw [← hin]
      show input_reports (s1.trace ++ [Ev.enable_irq]) = _
      simp [input_reports_append, input_reports]
    · rw [← hled]
      show led_actions (s1.trace ++ [Ev.enable_irq]) = _
      simp [led_actions, List.filter_append, Ev.is_led_action]
    · have hf := congrArg State.touch_led_regulator hfr
      exact hf
    · have hf := congrArg State.touch_led_uV hfr
      exact hf
    · have hf := congrArg State.led_timer hfr
      exact hf
  · have hread : touchkey_read_retry env 3 0 [0, 0, 0] (set_touchkey_debug 97 s)
        = ((touchkey_read_retry env 3 0 [0, 0, 0] (set_touchkey_debug 97 s)).1,
           (touchkey_read_retry env 3 0 [0, 0, 0] (set_touchkey_debug 97 s)).2.1,
           (touchkey_read_retry env 3 0 [0, 0, 0] (set_touchkey_debug 97 s)).2.2) := rfl
    obtain ⟨hin, -, -, -⟩ := touchkey_work_read_frame env s _ _ _ hread
    unfold touchkey_work_func
    simp only []
    split_ifs
    · refine ⟨_, rfl, Or.inl ?_⟩
      rw [← hin]
      show input_reports (_ ++ [Ev.enable_irq]) = _
      simp [input_reports_append, input_reports]
    · obtain ⟨s', hs', -, hrep⟩ := touchkey_work_decode_total env
        (touchkey_read_retry env 3 0 [0, 0, 0] (set_touchkey_debug 97 s)).2.1
        (touchkey_read_retry env 3 0 [0, 0, 0] (set_touchkey_debug 97 s)).2.2
      refine ⟨s', hs', ?_⟩
      rw [hin] at hrep
      rcases hrep with h | ⟨i, v, h1, h2, h3⟩
      · exact Or.inl h
      · exact Or.inr ⟨i, v, h1, by rw [touchkey_count_eq]; exact_mod_cast h2, h3⟩

theorem C6_invalid_index_rejected_witness :
    ∃ s', touchkey_work_func (sample_env (fun _ => 1) 3 0) probed_state = some s' ∧
      input_reports s'.trace = input_reports probed_state.trace ∧
      led_actions s'.trace = led_actions probed_state.trace ∧
      s'.touch_led_regulator = probed_state.touch_led_regulator ∧
      s'.touch_led_uV = probed_state.touch_led_uV ∧
      s'.led_timer = probed_state.led_timer :=
  (C6_invalid_index_rejected (sample_env (fun _ => 1) 3 0) probed_state).1
    (touchkey_read_retry (sample_env (fun _ => 1) 3 0) 3 0 [0, 0, 0]
      (set_touchkey_debug 97 probed_state)).2.2 3 [3, 3] (by rfl) (by decide)

/-- C7: for every bus outcome, status byte, touch-surface status and backlight
configuration, one execution of `touchkey_work_func` returns and calls `enable_irq` exactly
once. -/
theorem C7_enable_irq_exactly_once (env : Env) (s : State) :
    ∃ s', touchkey_work_func env s = some s' ∧
      irq_enables s'.trace = irq_enables s.trace + 1 := by
  have hread : touchkey_read_retry env 3 0 [0, 0, 0] (set_touchkey_debug 97 s)
      = ((touchkey_read_retry env 3 0 [0, 0, 0] (set_touchkey_debug 97 s)).1,
         (touchkey_read_retry env 3 0 [0, 0, 0] (set_touchkey_debug 97 s)).2.1,
         (touchkey_read_retry env 3 0 [0, 0, 0] (set_touchkey_debug 97 s)).2.2) := rfl
  obtain ⟨-, hirq, -, -⟩ := touchkey_work_read_frame env s _ _ _ hread
  unfold touchkey_work_func
  simp only []
  split_ifs
  · refine ⟨_, rfl, ?_⟩
    rw [← hirq]
    show irq_enables (_ ++ [Ev.enable_irq]) = _
    simp [irq_enables_append, irq_enables]
  · obtain ⟨s', hs', hcount, -⟩ := touchkey_work_decode_total env
      (touchkey_read_retry env 3 0 [0, 0, 0] (set_touchkey_debug 97 s)).2.1
      (touchkey_read_retry env 3 0 [0, 0, 0] (set_touchkey_debug 97 s)).2.2
    exact ⟨s', hs', by rw [hcount, hirq]⟩

/-- C8: for a valid key index, when `get_tsp_status()` reports the touch surface active and
the decoded event is a press, `touchkey_work_func` delivers no event to the input sink, and
`enable_irq` is still called, once, as the last action. -/
theorem C8_press_suppressed_irq_rearmed (env : Env) (s s1 : State) (b : Nat) (rest : List Nat)
    (hread : touchkey_read_retry env 3 0 [0, 0, 0] (set_touchkey_debug 97 s)
      = (0, b :: rest, s1))
    (htsp : env.get_tsp_status ≠ 0) (hpress : b &&& 8 = 0)
    (hlo : 1 ≤ b &&& 7) (hhi : ((b &&& 7 : Nat) : Int) < touchkey_count env) :
    ∃ s', touchkey_work_func env s = some s' ∧
      input_reports s'.trace = input_reports s.trace ∧
      irq_enables s'.trace = irq_enables s.trace + 1 ∧
      s'.trace.getLast? = some Ev.enable_irq := by
  have hhi' : b &&& 7 < (touchkey_keycode env).length := by
    rw [touchkey_count_eq] at hhi; omega
  obtain ⟨hin, hirq, -, -⟩ := touchkey_work_read_frame env s s1 0 (b :: rest) hread
  rw [touchkey_work_func_of_read env s s1 _ hread,
    touchkey_work_decode_valid env b rest s1 hlo hhi', if_pos hpress, if_pos htsp]
  refine ⟨_, rfl, ?_, ?_, touchkey_work_tail_last env _⟩
  · rw [touchkey_work_tail_input_reports, ← hin]; rfl
  · rw [touchkey_work_tail_irq_enables, ← hirq]; rfl

theorem C8_press_suppressed_irq_rearmed_witness :
    ∃ s', touchkey_work_func (sample_env (fun _ => 1) 1 1) probed_state = some s' ∧
      input_reports s'.trace = input_reports probed_state.trace ∧
      irq_enables s'.trace = irq_enables probed_state.trace + 1 ∧
      s'.trace.getLast? = some Ev.enable_irq :=
  C8_press_suppressed_irq_rearmed (sample_env (fun _ => 1) 1 1) probed_state
    (touchkey_read_retry (sample_env (fun _ => 1) 1 1) 3 0 [0, 0, 0]
      (set_touchkey_debug 97 probed_state)).2.2 1 [1, 1]
    (by rfl) (by decide) (by decide) (by decide) (by decide)

/-- C9, as stated, fails: with the touch surface active and a release frame (byte 0 = 9:
key index 1, bit 0x08 set), `touchkey_work_func` delivers the release of `KEY_MENU` to the
input sink. -/
theorem C9_counterexample :
    (sample_env (fun _ => 1) 9 1).get_tsp_status ≠ 0 ∧ 9 &&& 8 ≠ 0 ∧ 9 &&& 7 = 1 ∧
    (touchkey_work_func (sample_env (fun _ => 1) 9 1) probed_state).map
        (fun s' => input_reports s'.trace) = some [(KEY_MENU, 0)] ∧
    input_reports probed_state.trace = [] := by
  refine ⟨by decide, by decide, by decide, by rfl, by rfl⟩

/-- C9 amended: for a valid key index, when the decoded event is a release (bit 0x08 of
byte 0 set), `touchkey_work_func` delivers exactly one event, the release of
`touchkey_keycode[b & 0x07]`, to the input sink, whatever `get_tsp_status()` reports; only
presses are held back while the touch surface is active. -/
theorem C9_release_always_delivered (env : Env) (s s1 : State) (b : Nat) (rest : List Nat)
    (hread : touchkey_read_retry env 3 0 [0, 0, 0] (set_touchkey_debug 97 s)
      = (0, b :: rest, s1))
    (hrel : b &&& 8 ≠ 0)
    (hlo : 1 ≤ b &&& 7) (hhi : ((b &&& 7 : Nat) : Int) < touchkey_count env) :
    ∃ s', touchkey_work_func env s = some s' ∧
      input_reports s'.trace
        = input_reports s.trace ++ [((touchkey_keycode env).getD (b &&& 7) 0, 0)] := by
  have hhi' : b &&& 7 < (touchkey_keycode env).length := by
    rw [touchkey_count_eq] at hhi; omega
  obtain ⟨hin, -, -, -⟩ := touchkey_work_read_frame env s s1 0 (b :: rest) hread
  rw [touchkey_work_func_of_read env s s1 _ hread,
    touchkey_work_decode_valid env b rest s1 hlo hhi', if_neg hrel]
  refine ⟨_, rfl, ?_⟩
  rw [touchkey_work_tail_input_reports, ← hin]
  show input_reports (s1.trace ++ [_] ++ [_]) = _
  simp [input_reports_append, input_reports]

theorem C9_release_always_delivered_witness :
    ∃ s', touchkey_work_func (sample_env (fun _ => 1) 9 1) probed_state = some s' ∧
      input_reports s'.trace = input_reports probed_state.trace ++
        [((touchkey_keycode (sample_env (fun _ => 1) 9 1)).getD (9 &&& 7) 0, 0)] :=
  C9_release_always_delivered (sample_env (fun _ => 1) 9 1) probed_state
    (touchkey_read_retry (sample_env (fun _ => 1) 9 1) 3 0 [0, 0, 0]
      (set_touchkey_debug 97 probed_state)).2.2 9 [9, 9]
    (by rfl) (by decide) (by decide) (by decide)

/-! ## Notification LED control: claims -/

/-- C10: in every state with `notification_enabled <= 0`, writing 1 (`ENABLE_BL`) through
`led_status_write` returns with the whole state unchanged: `led_on`, the wake-lock,
`touchkey_enable`, both regulators, the rail voltage, `notification_count`, the effect phase,
all four timers, and the trace, so no backlight-on command is sent. -/
theorem C10_activate_disabled_noop (env : Env) (s : State) (h : s.notification_enabled ≤ 0) :
    led_status_write env (some ENABLE_BL) s = some s := by
  have h' : ¬ s.notification_enabled > 0 := not_lt.mpr h
  simp only [led_status_write, led_status_write_enable, if_true, if_neg h']

theorem C10_activate_disabled_noop_witness :
    init_state.notification_enabled ≤ 0 ∧
    led_status_write (sample_env (fun _ => 1) 0 0) (some ENABLE_BL) init_state
      = some init_state :=
  ⟨by decide, C10_activate_disabled_noop (sample_env (fun _ => 1) 0 0) init_state (by decide)⟩

/-! ## Frames: lemmas -/

theorem HwStep.same (s : State) : HwStep s s :=
  ⟨s.trace, s.xfers, s.jiffies, s.touch_regulator, s.touch_led_regulator, s.touch_led_uV, rfl⟩

theorem HwStep.seq {s1 s2 s3 : State} (h12 : HwStep s1 s2) (h23 : HwStep s2 s3) :
    HwStep s1 s3 := by
  obtain ⟨t, x, j, r1, r2, u, e1⟩ := h12
  obtain ⟨t', x', j', r1', r2', u', e2⟩ := h23
  exact ⟨t', x', j', r1', r2', u', by rw [e2, e1]; rfl⟩

/-- A field that `hw_put` does not touch is the same after a hardware step. -/
theorem HwStep.field {α : Type} (f : State → α) {s1 s2 : State} (h : HwStep s1 s2)
    (hf : ∀ t x j r1 r2 u s, f (hw_put t x j r1 r2 u s) = f s) : f s2 = f s1 := by
  obtain ⟨t, x, j, r1, r2, u, e⟩ := h
  rw [e, hf]

theorem HwStep.of_bus_erase {s1 s2 : State} (h : bus_erase s2 = bus_erase s1) :
    HwStep s1 s2 := by
  refine ⟨s2.trace, s2.xfers, s2.jiffies, s2.touch_regulator, s2.touch_led_regulator,
    s2.touch_led_uV, ?_⟩
  have e : s2 = hw_put s2.trace s2.xfers s2.jiffies s2.touch_regulator s2.touch_led_regulator
      s2.touch_led_uV (bus_erase s2) := rfl
  rw [h] at e
  exact e

theorem emit_hw (e : Ev) (s : State) : HwStep s (emit e s) :=
  ⟨_, _, _, _, _, _, rfl⟩

theorem mdelay_hw (env : Env) (ms : Nat) (s : State) : HwStep s (mdelay env ms s) :=
  ⟨_, _, _, _, _, _, rfl⟩

theorem msleep_hw (env : Env) (ms : Nat) (s : State) : HwStep s (msleep env ms s) :=
  ⟨_, _, _, _, _, _, rfl⟩

theorem touchkey_led_ldo_on_hw (env : Env) (b : Bool) (s : State) :
    HwStep s (touchkey_led_ldo_on env b s) := by
  unfold touchkey_led_ldo_on
  split_ifs
  · exact HwStep.same s
  · exact ⟨_, _, _, _, _, _, rfl⟩
  · exact HwStep.same s
  · exact ⟨_, _, _, _, _, _, rfl⟩
  · exact HwStep.same s

theorem touchkey_ldo_on_hw (env : Env) (b : Bool) (s : State) :
    HwStep s (touchkey_ldo_on env b s) := by
  unfold touchkey_ldo_on
  split_ifs
  · exact HwStep.same s
  · exact ⟨_, _, _, _, _, _, rfl⟩
  · exact HwStep.same s
  · exact ⟨_, _, _, _, _, _, rfl⟩
  · exact HwStep.same s

theorem change_touch_key_led_voltage_hw (env : Env) (v : Int) (s : State) :
    HwStep s (change_touch_key_led_voltage env v s) := by
  unfold change_touch_key_led_voltage
  split_ifs
  · exact HwStep.same s
  · exact ⟨_, _, _, _, _, _, rfl⟩

theorem i2c_touchkey_write_bus_erase (env : Env) (val : List Nat) (len : Nat) (s : State) :
    bus_erase (i2c_touchkey_write env val len s).2 = bus_erase s := by
  unfold i2c_touchkey_write
  split_ifs
  · rfl
  · exact i2c_touchkey_loop_bus_erase env false len 2 0 val s

theorem i2c_touchkey_write_hw (env : Env) (val : List Nat) (len : Nat) (s : State) :
    HwStep s (i2c_touchkey_write env val len s).2 :=
  HwStep.of_bus_erase (i2c_touchkey_write_bus_erase env val len s)

theorem i2c_touchkey_read_hw (env : Env) (reg : Nat) (val : List Nat) (len : Nat) (s : State) :
    HwStep s (i2c_touchkey_read env reg val len s).2.2 :=
  HwStep.of_bus_erase (i2c_touchkey_read_bus_erase env reg val len s)

theorem enable_touchkey_backlights_hw (env : Env) (s : State) :
    HwStep s (enable_touchkey_backlights env s) :=
  i2c_touchkey_write_hw env [1] 1 s

theorem disable_touchkey_backlights_hw (env : Env) (s : State) :
    HwStep s (disable_touchkey_backlights env s) :=
  i2c_touchkey_write_hw env [2] 1 s

theorem led_fadeout_loop_hw (env : Env) (fuel : Nat) :
    ∀ (i : Int) (s : State), HwStep s (led_fadeout_loop env fuel i s) := by
  induction fuel with
  | zero => intro i s; exact HwStep.same s
  | succ n ih =>
    intro i s
    unfold led_fadeout_loop
    split_ifs
    · exact ((change_touch_key_led_voltage_hw env i s).seq (msleep_hw env 50 _)).seq
        (ih _ _)
    · exact HwStep.same s

theorem led_fadeout_hw (env : Env) (s : State) : HwStep s (led_fadeout env s) :=
  (led_fadeout_loop_hw env _ _ s).seq (disable_touchkey_backlights_hw env _)

theorem touchkey_autocalibration_loop_hw (env : Env) (left : Nat) :
    ∀ (count : Int) (data : List Nat) (s : State),
      HwStep s (touchkey_autocalibration_loop env left count data s).2 := by
  induction left with
  | zero => intro count data s; exact HwStep.same s
  | succ n ih =>
    intro count data s
    unfold touchkey_autocalibration_loop
    simp only []
    split_ifs
    · exact i2c_touchkey_read_hw env _ data 4 s
    · exact (((i2c_touchkey_read_hw env KEYCODE_REG data 4 s).seq
        (i2c_touchkey_write_hw env _ 4 _)).seq (msleep_hw env 100 _)).seq
        (i2c_touchkey_read_hw env KEYCODE_REG _ 6 _)
    · exact ((((i2c_touchkey_read_hw env KEYCODE_REG data 4 s).seq
        (i2c_touchkey_write_hw env _ 4 _)).seq (msleep_hw env 100 _)).seq
        (i2c_touchkey_read_hw env KEYCODE_REG _ 6 _)).seq (ih _ _ _)

theorem touchkey_autocalibration_hw (env : Env) (s : State) :
    HwStep s (touchkey_autocalibration env s).2 :=
  touchkey_autocalibration_loop_hw env 3 0 _ s

/-! ## Notification LED control: stages -/

theorem led_status_write_enable_eq (env : Env) (s : State) :
    led_status_write_enable env s =
      if s.notification_enabled > 0 then
        led_enable_timers env (led_enable_effect env (led_enable_power env s))
      else s := rfl

theorem led_status_write_disable_eq (env : Env) (s : State) :
    led_status_write_disable env s =
      if s.led_on ≠ 0 then led_disable_timers (led_disable_power env s) else s := rfl

theorem Frame.stay (er : State → State) (s : State) : Frame er s s := rfl

theorem Frame.comp {er : State → State} {a b c : State} (h12 : Frame er a b)
    (h23 : Frame er b c) : Frame er a c := by
  unfold Frame at *
  rw [h23, h12]

/-- A field that `er` keeps is the same on both sides of a frame. -/
theorem Frame.keeps {α : Type} {er : State → State} (f : State → α) {s1 s2 : State}
    (h : Frame er s1 s2) (hf : ∀ s, f (er s) = f s) : f s2 = f s1 := by
  unfold Frame at h
  rw [← hf s2, h, hf]

theorem HwStep.frame_eff {s1 s2 : State} (h : HwStep s1 s2) : Frame eff_erase s1 s2 := by
  obtain ⟨t, x, j, r1, r2, u, e⟩ := h
  rw [e]
  rfl

theorem Frame.eff_to_act {s1 s2 : State} (h : Frame eff_erase s1 s2) :
    Frame act_erase s1 s2 := by
  unfold Frame at *
  unfold act_erase
  rw [h]

theorem HwStep.frame_act {s1 s2 : State} (h : HwStep s1 s2) : Frame act_erase s1 s2 :=
  h.frame_eff.eff_to_act

theorem reset_breathing_frame (env : Env) (s : State) :
    Frame eff_erase s (reset_breathing env s) := by
  unfold reset_breathing
  simp only []
  split_ifs
  · exact Frame.comp (b := { s with breathe_in := true, breathe_volt := s.breathe.min }) rfl
      (change_touch_key_led_voltage_hw env _ _).frame_eff
  · exact Frame.comp (b := { s with breathe_in := true, breathe_volt := s.breathe.min }) rfl
      (change_touch_key_led_voltage_hw env _ _).frame_eff
  · rfl

theorem start_breathing_timer_frame (env : Env) (s : State) :
    Frame eff_erase s (start_breathing_timer env s) := rfl

theorem led_enable_effect_frame (env : Env) (s : State) :
    Frame eff_erase s (led_enable_effect env s) := by
  unfold led_enable_effect
  split_ifs
  · exact (reset_breathing_frame env s).comp (start_breathing_timer_frame env _)
  · exact (change_touch_key_led_voltage_hw env _ s).frame_eff

theorem led_enable_power_frame (env : Env) (s : State) :
    Frame act_erase s (led_enable_power env s) := by
  have h1 : Frame act_erase s (if !s.led_wake_lock then wake_lock s else s) := by
    split_ifs
    · rfl
    · rfl
  have h2 : ∀ t : State, Frame act_erase t
      (if t.screen_on = 0 then
        { touchkey_led_ldo_on env true (touchkey_ldo_on env true t) with touchkey_enable := 1 }
      else t) := by
    intro t
    split_ifs
    · exact Frame.comp (b := touchkey_led_ldo_on env true (touchkey_ldo_on env true t))
        ((touchkey_ldo_on_hw env true t).seq (touchkey_led_ldo_on_hw env true _)).frame_act rfl
    · rfl
  have h3 : ∀ t : State, Frame act_erase t { enable_touchkey_backlights env t with led_on := 1 } :=
    fun t => Frame.comp (b := enable_touchkey_backlights env t)
      (enable_touchkey_backlights_hw env t).frame_act rfl
  exact (h1.comp (h2 _)).comp (h3 _)

/-- The timer stage of Activate written as one update of the state. -/
theorem led_enable_timers_eq (env : Env) (s : State) :
    led_enable_timers env s =
      { s with
        notification_count :=
          if s.notification_timeout > 0 then (s.notification_count + 1) % 4294967296
          else s.notification_count
        notification_timer :=
          if s.notification_timeout > 0 then
            if s.notification_persistent ∧ (s.charging_status = 1 ∨ s.charging_status = 4) then
              ⟨true, jiffies_add s.jiffies (env.msecs_to_jiffies (uint32 (-1)))⟩
            else if s.notification_renew ∨ (s.notification_count + 1) % 4294967296 < 2 then
              ⟨true, jiffies_add s.jiffies (env.msecs_to_jiffies (uint32 s.notification_timeout))⟩
            else s.notification_timer
          else s.notification_timer
        polling_timer :=
          if s.notification_timeout > 0 ∧ s.polling_interval > 0 then
            ⟨true, jiffies_add s.jiffies (env.msecs_to_jiffies 10)⟩
          else s.polling_timer } := by
  unfold led_enable_timers
  by_cases h1 : s.notification_timeout > 0
  · by_cases h2 : s.notification_persistent ∧ (s.charging_status = 1 ∨ s.charging_status = 4)
    · by_cases h4 : s.polling_interval > 0
      · simp only [h1, h2, h4, if_true, and_self, true_and]
        all_goals rfl
      · simp only [h1, h2, h4, if_true, if_false, and_self, true_and, and_false]
        all_goals rfl
    · by_cases h3 : s.notification_renew ∨ (s.notification_count + 1) % 4294967296 < 2
      · by_cases h4 : s.polling_interval > 0
        · simp only [h1, h2, h3, h4, if_true, if_false, and_self, true_and]
          all_goals rfl
        · simp only [h1, h2, h3, h4, if_true, if_false, and_self, true_and, and_false]
          all_goals rfl
      · by_cases h4 : s.polling_interval > 0
        · simp only [h1, h2, h3, h4, if_true, if_false, and_self, true_and]
          all_goals rfl
        · simp only [h1, h2, h3, h4, if_true, if_false, and_self, true_and, and_false]
  · simp only [h1, if_false, false_and]

/-! ## Notification LED control: Activate -/

/-- The state between the power and effect stages of Activate and its timer stage agrees
with the state before on everything but the fields `act_erase` erases. -/
theorem led_enable_mid_frame (env : Env) (s : State) :
    Frame act_erase s (led_enable_effect env (led_enable_power env s)) :=
  (led_enable_power_frame env s).comp (led_enable_effect_frame env _).eff_to_act

theorem led_status_write_activate (env : Env) (s : State) (hen : s.notification_enabled > 0) :
    led_status_write env (some ENABLE_BL) s =
      some (led_enable_timers env (led_enable_effect env (led_enable_power env s))) := by
  simp only [led_status_write, if_true, led_status_write_enable_eq, if_pos hen]

/-- C11: when Activate runs with `notification_enabled > 0` and `notification_timeout > 0`,
`notification_count` is incremented by one (as an `unsigned int`); if
`notification_persistent` holds and `charging_status` is 1 or 4 the NotificationTimeout timer
is armed with the delay `msecs_to_jiffies(-1)`; otherwise it is armed for
`notification_timeout` ms exactly when `notification_renew` holds or the incremented count is
below 2, and is left untouched otherwise.  In particular, with renew false, persistent false,
timeout 5000 and count 0, the first Activate arms the timer and a second Activate, any time
later, does not re-arm it. -/
theorem C11_timeout_arming (env : Env) (s : State) (hen : s.notification_enabled > 0)
    (hto : s.notification_timeout > 0) :
    ∃ s', led_status_write env (some ENABLE_BL) s = some s' ∧
      s'.notification_count = (s.notification_count + 1) % 4294967296 ∧
      (s.notification_persistent = true ∧ (s.charging_status = 1 ∨ s.charging_status = 4) →
        s'.notification_timer
          = ⟨true, jiffies_add s'.jiffies (env.msecs_to_jiffies (uint32 (-1)))⟩) ∧
      (¬ (s.notification_persistent = true ∧ (s.charging_status = 1 ∨ s.charging_status = 4)) →
        (s.notification_renew = true ∨ (s.notification_count + 1) % 4294967296 < 2) →
        s'.notification_timer
          = ⟨true, jiffies_add s'.jiffies
              (env.msecs_to_jiffies (uint32 s.notification_timeout))⟩) ∧
      (¬ (s.notification_persistent = true ∧ (s.charging_status = 1 ∨ s.charging_status = 4)) →
        ¬ (s.notification_renew = true ∨ (s.notification_count + 1) % 4294967296 < 2) →
        s'.notification_timer = s.notification_timer) ∧
      (s.notification_renew = false → s.notification_persistent = false →
        s.notification_timeout = 5000 → s.notification_count = 0 →
        s'.notification_timer = ⟨true, jiffies_add s'.jiffies (env.msecs_to_jiffies 5000)⟩ ∧
        ∀ d, ∃ s'', led_status_write env (some ENABLE_BL) (time_passes d s') = some s'' ∧
          s''.notification_timer = s'.notification_timer ∧ s''.notification_count = 2) := by
  have hm := led_enable_mid_frame env s
  have e1 := hm.keeps State.notification_timeout (fun _ => rfl)
  have e2 := hm.keeps State.notification_count (fun _ => rfl)
  have e3 := hm.keeps State.notification_persistent (fun _ => rfl)
  have e4 := hm.keeps State.charging_status (fun _ => rfl)
  have e5 := hm.keeps State.notification_renew (fun _ => rfl)
  have e6 := hm.keeps State.notification_timer (fun _ => rfl)
  have e7 := hm.keeps State.notification_enabled (fun _ => rfl)
  have hto' : (led_enable_effect env (led_enable_power env s)).notification_timeout > 0 := by
    rw [e1]; exact hto
  have hcnt : (led_enable_timers env
      (led_enable_effect env (led_enable_power env s))).notification_count
        = (s.notification_count + 1) % 4294967296 := by
    rw [led_enable_timers_eq]
    show (if _ then _ else _) = _
    rw [if_pos hto', e2]
  have htim : (led_enable_timers env
      (led_enable_effect env (led_enable_power env s))).notification_timer
        = if s.notification_persistent = true ∧ (s.charging_status = 1 ∨ s.charging_status = 4)
          then ⟨true, jiffies_add (led_enable_effect env (led_enable_power env s)).jiffies
            (env.msecs_to_jiffies (uint32 (-1)))⟩
          else if s.notification_renew = true ∨ (s.notification_count + 1) % 4294967296 < 2 then
            ⟨true, jiffies_add (led_enable_effect env (led_enable_power env s)).jiffies
              (env.msecs_to_jiffies (uint32 s.notification_timeout))⟩
          else s.notification_timer := by
    rw [led_enable_timers_eq]
    show (if _ then _ else _) = _
    rw [if_pos hto', e1, e2, e3, e4, e5, e6]
  have hjif : (led_enable_timers env
      (led_enable_effect env (led_enable_power env s))).jiffies
        = (led_enable_effect env (led_enable_power env s)).jiffies := by
    rw [led_enable_timers_eq]
  have hcfg : ∀ t : State, Frame act_erase s t →
      (led_enable_timers env t).notification_enabled = s.notification_enabled ∧
      (led_enable_timers env t).notification_timeout = s.notification_timeout ∧
      (led_enable_timers env t).notification_persistent = s.notification_persistent ∧
      (led_enable_timers env t).notification_renew = s.notification_renew ∧
      (led_enable_timers env t).charging_status = s.charging_status := by
    intro t ht
    rw [led_enable_timers_eq]
    exact ⟨ht.keeps State.notification_enabled (fun _ => rfl),
      ht.keeps State.notification_timeout (fun _ => rfl),
      ht.keeps State.notification_persistent (fun _ => rfl),
      ht.keeps State.notification_renew (fun _ => rfl),
      ht.keeps State.charging_status (fun _ => rfl)⟩
  refine ⟨_, led_status_write_activate env s hen, hcnt, ?_, ?_, ?_, ?_⟩
  · intro hp
    rw [htim, if_pos hp, hjif]
  · intro hp hr
    rw [htim, if_neg hp, if_pos hr, hjif]
  · intro hp hr
    rw [htim, if_neg hp, if_neg hr]
  · intro hr hp ht hc
    have hp' : ¬ (s.notification_persistent = true ∧
        (s.charging_status = 1 ∨ s.charging_status = 4)) := by simp [hp]
    have hr1 : s.notification_renew = true ∨ (s.notification_count + 1) % 4294967296 < 2 := by
      right; rw [hc]; decide
    constructor
    · rw [htim, if_neg hp', if_pos hr1, hjif, ht]
      rfl
    · intro d
      obtain ⟨c1, c2, c3, c4, c5⟩ := hcfg _ hm
      generalize led_enable_timers env (led_enable_effect env (led_enable_power env s)) = s1
        at hcnt c1 c2 c3 c4 c5
      have hen1 : (time_passes d s1).notification_enabled > 0 := by
        show s1.notification_enabled > 0
        rw [c1]; exact hen
      have hm1 := led_enable_mid_frame env (time_passes d s1)
      have f1 := hm1.keeps State.notification_timeout (fun _ => rfl)
      have f2 := hm1.keeps State.notification_count (fun _ => rfl)
      have f3 := hm1.keeps State.notification_persistent (fun _ => rfl)
      have f5 := hm1.keeps State.notification_renew (fun _ => rfl)
      have f6 := hm1.keeps State.notification_timer (fun _ => rfl)
      have g1 : (time_passes d s1).notification_timeout = s1.notification_timeout := rfl
      have g2 : (time_passes d s1).notification_count = s1.notification_count := rfl
      have g3 : (time_passes d s1).notification_persistent = s1.notification_persistent := rfl
      have g5 : (time_passes d s1).notification_renew = s1.notification_renew := rfl
      have g6 : (time_passes d s1).notification_timer = s1.notification_timer := rfl
      rw [g1, c2] at f1
      rw [g2, hcnt, hc] at f2
      rw [g3, c3, hp] at f3
      rw [g5, c4, hr] at f5
      rw [g6] at f6
      refine ⟨_, led_status_write_activate env _ hen1, ?_, ?_⟩
      · rw [led_enable_timers_eq]
        show (if _ then _ else _) = _
        rw [f1, f2, f3, f5, f6, if_pos hto]
        simp
      · rw [led_enable_timers_eq]
        show (if _ then _ else _) = _
        rw [f1, f2, if_pos hto]

theorem C11_timeout_arming_witness :
    ∃ s', led_status_write (sample_env (fun _ => 1) 0 0) (some ENABLE_BL) timeout_state
        = some s' ∧ s'.notification_count = 1 ∧ s'.notification_timer.pending = true := by
  obtain ⟨s', h1, h2, -, h3, -, -⟩ :=
    C11_timeout_arming (sample_env (fun _ => 1) 0 0) timeout_state (by decide) (by decide)
  refine ⟨s', h1, by rw [h2]; rfl, ?_⟩
  rw [h3 (by decide) (by decide)]

/-! ## Traces of the hardware helpers -/

theorem TraceExt.any {p : Ev → Bool} {s1 s2 : State} (h : TraceExt p s1 s2) :
    TraceExt (fun _ => true) s1 s2 :=
  h.mono (fun _ _ => rfl)

theorem touchkey_led_ldo_on_trace_ext (env : Env) (b : Bool) (s : State) :
    TraceExt (fun _ => true) s (touchkey_led_ldo_on env b s) := by
  unfold touchkey_led_ldo_on
  split_ifs
  · exact TraceExt.refl _ _
  · exact ⟨[_], rfl, by simp⟩
  · exact TraceExt.refl _ _
  · exact ⟨[_], rfl, by simp⟩
  · exact TraceExt.refl _ _

theorem touchkey_ldo_on_trace_ext (env : Env) (b : Bool) (s : State) :
    TraceExt (fun _ => true) s (touchkey_ldo_on env b s) := by
  unfold touchkey_ldo_on
  split_ifs
  · exact TraceExt.refl _ _
  · exact ⟨[_], rfl, by simp⟩
  · exact TraceExt.refl _ _
  · exact ⟨[_], rfl, by simp⟩
  · exact TraceExt.refl _ _

theorem touchkey_led_ldo_on_xfers (env : Env) (b : Bool) (s : State) :
    (touchkey_led_ldo_on env b s).xfers = s.xfers := by
  unfold touchkey_led_ldo_on
  split_ifs <;> rfl

theorem touchkey_ldo_on_xfers (env : Env) (b : Bool) (s : State) :
    (touchkey_ldo_on env b s).xfers = s.xfers := by
  unfold touchkey_ldo_on
  split_ifs <;> rfl

/-- On a ready device the first event of a bus write is the transfer of the message. -/
theorem i2c_touchkey_write_first_event (env : Env) (val : List Nat) (len : Nat) (s : State)
    (hr : ready s) :
    ∃ l, (i2c_touchkey_write env val len s).2.trace
      = s.trace ++ Ev.i2c_transfer I2C_M_WR len (val.take len) (env.i2c_transfer s.xfers) :: l := by
  have hn := (not_ready_eq_false_iff s).mpr hr
  simp only [i2c_touchkey_write, hn, Bool.false_eq_true, if_false]
  rw [i2c_touchkey_loop_succ]
  split_ifs
  · exact ⟨[], rfl⟩
  · obtain ⟨l, hl, -⟩ := i2c_touchkey_loop_trace_ext env false len 1
      (env.i2c_transfer s.xfers) (i2c_transfer env false val len s).2.1
      (mdelay env 10 (i2c_transfer env false val len s).2.2)
    refine ⟨Ev.mdelay 10 :: l, ?_⟩
    rw [hl]
    show (s.trace ++ [_] ++ [_]) ++ l = _
    simp

/-! ## Notification LED control: the power stage of Activate -/

theorem led_enable_power_eq (env : Env) (s : State) :
    led_enable_power env s
      = { enable_touchkey_backlights env (led_enable_rails env s) with led_on := 1 } := rfl

theorem led_enable_rails_frame (env : Env) (s : State) :
    Frame act_erase s (led_enable_rails env s) := by
  have h1 : Frame act_erase s (if !s.led_wake_lock then wake_lock s else s) := by
    split_ifs
    · rfl
    · rfl
  have h2 : ∀ t : State, Frame act_erase t
      (if t.screen_on = 0 then
        { touchkey_led_ldo_on env true (touchkey_ldo_on env true t) with touchkey_enable := 1 }
      else t) := by
    intro t
    split_ifs
    · exact Frame.comp (b := touchkey_led_ldo_on env true (touchkey_ldo_on env true t))
        ((touchkey_ldo_on_hw env true t).seq (touchkey_led_ldo_on_hw env true _)).frame_act rfl
    · rfl
  exact h1.comp (h2 _)

theorem led_enable_rails_trace_ext (env : Env) (s : State) :
    TraceExt (fun _ => true) s (led_enable_rails env s) := by
  have h1 : TraceExt (fun _ => true) s (if !s.led_wake_lock then wake_lock s else s) := by
    split_ifs
    · exact ⟨[_], rfl, by simp⟩
    · exact TraceExt.refl _ _
  have h2 : ∀ t : State, TraceExt (fun _ => true) t
      (if t.screen_on = 0 then
        { touchkey_led_ldo_on env true (touchkey_ldo_on env true t) with touchkey_enable := 1 }
      else t) := by
    intro t
    split_ifs
    · exact (touchkey_ldo_on_trace_ext env true t).trans
        ((touchkey_led_ldo_on_trace_ext env true _).trans (TraceExt.of_trace_eq _ _ _ rfl))
    · exact TraceExt.refl _ _
  exact h1.trans (h2 _)

theorem led_enable_rails_xfers (env : Env) (s : State) :
    (led_enable_rails env s).xfers = s.xfers := by
  have h1 : (if !s.led_wake_lock then wake_lock s else s).xfers = s.xfers := by
    split_ifs <;> rfl
  have h2 : ∀ t : State,
      (if t.screen_on = 0 then
        { touchkey_led_ldo_on env true (touchkey_ldo_on env true t) with touchkey_enable := 1 }
      else t).xfers = t.xfers := by
    intro t
    split_ifs
    · show (touchkey_led_ldo_on env true (touchkey_ldo_on env true t)).xfers = _
      rw [touchkey_led_ldo_on_xfers, touchkey_ldo_on_xfers]
    · rfl
  exact (h2 _).trans h1

theorem led_enable_rails_wake_lock (env : Env) (s : State) :
    (led_enable_rails env s).led_wake_lock = true := by
  have h1 : (if !s.led_wake_lock then wake_lock s else s).led_wake_lock = true := by
    cases h : s.led_wake_lock
    · rfl
    · simpa using h
  have h2 : ∀ t : State,
      (if t.screen_on = 0 then
        { touchkey_led_ldo_on env true (touchkey_ldo_on env true t) with touchkey_enable := 1 }
      else t).led_wake_lock = t.led_wake_lock := by
    intro t
    split_ifs
    · exact ((touchkey_ldo_on_hw env true t).seq (touchkey_led_ldo_on_hw env true _)).field
        State.led_wake_lock (fun _ _ _ _ _ _ _ => rfl)
    · rfl
  exact (h2 _).trans h1

theorem led_enable_rails_touchkey_enable (env : Env) (s : State) :
    (led_enable_rails env s).touchkey_enable
      = if s.screen_on = 0 then 1 else s.touchkey_enable := by
  have h1 : (if !s.led_wake_lock then wake_lock s else s).screen_on = s.screen_on ∧
      (if !s.led_wake_lock then wake_lock s else s).touchkey_enable = s.touchkey_enable := by
    split_ifs <;> exact ⟨rfl, rfl⟩
  have h2 : ∀ t : State,
      (if t.screen_on = 0 then
        { touchkey_led_ldo_on env true (touchkey_ldo_on env true t) with touchkey_enable := 1 }
      else t).touchkey_enable = if t.screen_on = 0 then 1 else t.touchkey_enable := by
    intro t
    split_ifs <;> rfl
  exact (h2 _).trans (by rw [h1.1, h1.2])

/-- The transport is ready when the backlight command of Activate is issued, provided the
driver is present and probed and either key input is enabled or the screen is off. -/
theorem led_enable_rails_ready (env : Env) (s : State) (hd : s.touchkey_driver = true)
    (hp : s.touchkey_probe = true) (he : s.touchkey_enable = 1 ∨ s.screen_on = 0) :
    ready (led_enable_rails env s) := by
  have hf := led_enable_rails_frame env s
  refine ⟨(hf.keeps State.touchkey_driver (fun _ => rfl)).trans hd, ?_,
    (hf.keeps State.touchkey_probe (fun _ => rfl)).trans hp⟩
  rw [led_enable_rails_touchkey_enable]
  split_ifs with h
  · rfl
  · rcases he with he | he
    · exact he
    · exact absurd he h

theorem reset_breathing_trace_ext (env : Env) (s : State) :
    TraceExt (fun _ => true) s (reset_breathing env s) := by
  unfold reset_breathing
  simp only []
  split_ifs
  · exact (TraceExt.of_trace_eq _ s { s with breathe_in := true, breathe_volt := s.breathe.min }
      rfl).trans (change_touch_key_led_voltage_quiet env _ _).any
  · exact (TraceExt.of_trace_eq _ s { s with breathe_in := true, breathe_volt := s.breathe.min }
      rfl).trans (change_touch_key_led_voltage_quiet env _ _).any
  · exact TraceExt.of_trace_eq _ _ _ rfl

theorem led_enable_effect_trace_ext (env : Env) (s : State) :
    TraceExt (fun _ => true) s (led_enable_effect env s) := by
  unfold led_enable_effect
  split_ifs
  · exact (reset_breathing_trace_ext env s).trans (TraceExt.of_trace_eq _ _ _ rfl)
  · exact (change_touch_key_led_voltage_quiet env _ s).any

theorem led_enable_timers_trace (env : Env) (s : State) :
    (led_enable_timers env s).trace = s.trace := by
  rw [led_enable_timers_eq]

/-- After Activate on an enabled notification `led_on` is 1. -/
theorem led_activate_led_on (env : Env) (s : State) :
    (led_enable_timers env (led_enable_effect env (led_enable_power env s))).led_on = 1 := by
  rw [led_enable_timers_eq]
  show (led_enable_effect env (led_enable_power env s)).led_on = 1
  rw [(led_enable_effect_frame env _).keeps State.led_on (fun _ => rfl)]
  rfl

/-- Activate on an enabled notification puts the backlight-on command (one byte, 1) on the
bus when the transport is ready at that point. -/
theorem led_activate_command (env : Env) (s : State) (hd : s.touchkey_driver = true)
    (hp : s.touchkey_probe = true) (he : s.touchkey_enable = 1 ∨ s.screen_on = 0) :
    ∃ l, (led_enable_timers env (led_enable_effect env (led_enable_power env s))).trace
        = s.trace ++ l ∧
      Ev.i2c_transfer I2C_M_WR 1 [1] (env.i2c_transfer s.xfers) ∈ l := by
  obtain ⟨l0, h0, -⟩ := led_enable_rails_trace_ext env s
  obtain ⟨l1, h1⟩ := i2c_touchkey_write_first_event env [1] 1 (led_enable_rails env s)
    (led_enable_rails_ready env s hd hp he)
  obtain ⟨l2, h2, -⟩ := led_enable_effect_trace_ext env (led_enable_power env s)
  have hpow : (led_enable_power env s).trace
      = (i2c_touchkey_write env [1] 1 (led_enable_rails env s)).2.trace := rfl
  rw [led_enable_rails_xfers] at h1
  refine ⟨l0 ++ (Ev.i2c_transfer I2C_M_WR 1 [1] (env.i2c_transfer s.xfers) :: l1) ++ l2, ?_, ?_⟩
  · rw [led_enable_timers_trace, h2, hpow, h1, h0]
    simp
  · simp

theorem polling_timer_action_above (env : Env) (s : State) (h : ¬ s.batt_status ≤ s.batt_limit) :
    polling_timer_action env s =
      { s with polling_timer :=
          ⟨true, jiffies_add s.jiffies (env.msecs_to_jiffies s.polling_interval)⟩ } := by
  unfold polling_timer_action
  simp only [h, if_false]
  rfl

theorem polling_timer_action_below (env : Env) (s : State) (h : s.batt_status ≤ s.batt_limit) :
    polling_timer_action env s =
      { s with notification_timer :=
          ⟨true, jiffies_add s.jiffies (env.msecs_to_jiffies 10)⟩ } := by
  unfold polling_timer_action
  simp only [h, if_true]
  rfl

/-- C12, as stated, fails: with notifications enabled, a polling interval of 500 ms and no
notification timeout (`notification_timeout = -1`), Activate leaves the BatteryPoll timer
not armed. -/
theorem C12_counterexample :
    polling_state.notification_enabled > 0 ∧ polling_state.polling_interval > 0 ∧
    polling_state.polling_timer.pending = false ∧
    (led_status_write (sample_env (fun _ => 1) 0 0) (some ENABLE_BL) polling_state).map
      (fun s' => s'.polling_timer.pending) = some false := by
  refine ⟨by decide, by decide, rfl, by rfl⟩

/-- C12 amended: for every state with `notification_enabled > 0` and `polling_interval > 0`,
Activate arms the BatteryPoll timer (10 ms ahead) when `notification_timeout > 0`, and leaves
the BatteryPoll timer untouched when `notification_timeout <= 0`. -/
theorem C12_polling_armed_with_timeout (env : Env) (s : State)
    (hen : s.notification_enabled > 0) (hpi : s.polling_interval > 0) :
    ∃ s', led_status_write env (some ENABLE_BL) s = some s' ∧
      (s.notification_timeout > 0 →
        s'.polling_timer = ⟨true, jiffies_add s'.jiffies (env.msecs_to_jiffies 10)⟩) ∧
      (s.notification_timeout ≤ 0 → s'.polling_timer = s.polling_timer) := by
  have hm := led_enable_mid_frame env s
  have e1 := hm.keeps State.notification_timeout (fun _ => rfl)
  have e2 := hm.keeps State.polling_interval (fun _ => rfl)
  have e3 := hm.keeps State.polling_timer (fun _ => rfl)
  refine ⟨_, led_status_write_activate env s hen, ?_, ?_⟩
  · intro hto
    rw [led_enable_timers_eq]
    show (if _ then _ else _) = _
    rw [e1, e2, if_pos ⟨hto, hpi⟩]
  · intro hto
    rw [led_enable_timers_eq]
    show (if _ then _ else _) = _
    rw [e1, e2, e3, if_neg (fun h => absurd h.1 (not_lt.mpr hto))]

theorem C12_polling_armed_with_timeout_witness :
    ∃ s', led_status_write (sample_env (fun _ => 1) 0 0) (some ENABLE_BL) gated_state = some s' ∧
      s'.polling_timer.pending = true := by
  obtain ⟨s', h1, h2, -⟩ :=
    C12_polling_armed_with_timeout (sample_env (fun _ => 1) 0 0) gated_state (by decide)
      (by decide)
  exact ⟨s', h1, by rw [h2 (by decide)]⟩

/-- C13, as stated, fails: with `batt_limit = 20`, `polling_interval = 500`, notifications
enabled and `batt_status = 25`, Activate sets `led_on = 1` and puts the backlight-on command
on the bus at once. -/
theorem C13_counterexample :
    gated_state.batt_limit = 20 ∧ gated_state.polling_interval = 500 ∧
    gated_state.notification_enabled > 0 ∧ gated_state.batt_status = 25 ∧
    gated_state.led_on = 0 ∧
    (led_status_write (sample_env (fun _ => 1) 0 0) (some ENABLE_BL) gated_state).map
      (fun s' => (s'.led_on, led_actions s'.trace))
        = some (1, [Ev.i2c_transfer I2C_M_WR 1 [1] 1,
            Ev.regulator_set_voltage Regulator.touch_led 3000000 3000000]) := by
  refine ⟨rfl, rfl, by decide, rfl, rfl, by rfl⟩


/-! ## Notification LED control: Deactivate -/

theorem led_disable_timers_frame (s : State) : Frame tmr_erase s (led_disable_timers s) := by
  unfold led_disable_timers
  simp only []
  split_ifs <;> rfl

theorem led_disable_timers_notification_timer (s : State) :
    (led_disable_timers s).notification_timer =
      if s.notification_timeout > 0 then del_timer s.notification_timer
      else s.notification_timer := by
  unfold led_disable_timers
  simp only []
  split_ifs <;> rfl

theorem led_disable_timers_breathing_timer (s : State) :
    (led_disable_timers s).breathing_timer =
      if s.breathing_enabled ∨ s.blinking_enabled then del_timer s.breathing_timer
      else s.breathing_timer := by
  unfold led_disable_timers
  simp only []
  split_ifs <;> rfl

theorem led_disable_timers_wake_lock (s : State) :
    (led_disable_timers s).led_wake_lock = false := by
  have h : ∀ t : State, t.led_wake_lock = s.led_wake_lock →
      (if t.led_wake_lock then wake_unlock t else t).led_wake_lock = false := by
    intro t _
    cases h : t.led_wake_lock
    · simpa using h
    · rfl
  unfold led_disable_timers
  simp only []
  apply h
  split_ifs <;> rfl

theorem led_disable_timers_trace_ext (s : State) :
    TraceExt (fun _ => true) s (led_disable_timers s) := by
  unfold led_disable_timers
  simp only []
  split_ifs
  all_goals first
    | exact ⟨[Ev.wake_unlock], rfl, by simp⟩
    | exact TraceExt.of_trace_eq _ _ _ rfl

theorem led_disable_power_eq (env : Env) (s : State) :
    led_disable_power env s =
      if s.screen_on = 0 then
        { touchkey_ldo_on env false (touchkey_led_ldo_on env false
            { disable_touchkey_backlights env s with led_on := 0 }) with touchkey_enable := 0 }
      else { disable_touchkey_backlights env s with led_on := 0 } := by
  have hs : ({ disable_touchkey_backlights env s with led_on := 0 } : State).screen_on
      = s.screen_on :=
    (disable_touchkey_backlights_hw env s).field State.screen_on (fun _ _ _ _ _ _ _ => rfl)
  show (if ({ disable_touchkey_backlights env s with led_on := 0 } : State).screen_on = 0 then
        ({ touchkey_ldo_on env false (touchkey_led_ldo_on env false
            { disable_touchkey_backlights env s with led_on := 0 }) with
            touchkey_enable := 0 } : State)
      else { disable_touchkey_backlights env s with led_on := 0 }) = _
  rw [hs]

theorem led_disable_power_frame (env : Env) (s : State) :
    Frame act_erase s (led_disable_power env s) := by
  rw [led_disable_power_eq]
  have h0 : Frame act_erase s { disable_touchkey_backlights env s with led_on := 0 } :=
    Frame.comp (b := disable_touchkey_backlights env s)
      (disable_touchkey_backlights_hw env s).frame_act rfl
  split_ifs
  · exact h0.comp (Frame.comp
      (b := touchkey_ldo_on env false (touchkey_led_ldo_on env false
        { disable_touchkey_backlights env s with led_on := 0 }))
      ((touchkey_led_ldo_on_hw env false _).seq (touchkey_ldo_on_hw env false _)).frame_act
      rfl)
  · exact h0

theorem led_disable_power_led_on (env : Env) (s : State) :
    (led_disable_power env s).led_on = 0 := by
  rw [led_disable_power_eq]
  split_ifs
  · exact ((touchkey_led_ldo_on_hw env false _).seq (touchkey_ldo_on_hw env false _)).field
      State.led_on (fun _ _ _ _ _ _ _ => rfl)
  · rfl

theorem led_disable_power_touchkey_enable (env : Env) (s : State) :
    (led_disable_power env s).touchkey_enable
      = if s.screen_on = 0 then 0 else s.touchkey_enable := by
  rw [led_disable_power_eq]
  split_ifs
  · rfl
  · exact (disable_touchkey_backlights_hw env s).field State.touchkey_enable
      (fun _ _ _ _ _ _ _ => rfl)

theorem touchkey_ldo_on_off (env : Env) (s : State) :
    (env.regulator_get Regulator.touch = true →
      (touchkey_ldo_on env false s).touch_regulator = false) ∧
    (touchkey_ldo_on env false s).touch_led_regulator = s.touch_led_regulator := by
  unfold touchkey_ldo_on
  constructor
  · intro hg
    simp only [hg, Bool.false_eq_true, if_false, Bool.not_true]
    cases h : regulator_is_enabled Regulator.touch s
    · simpa [regulator_is_enabled] using h
    · rfl
  · split_ifs <;> rfl

theorem touchkey_led_ldo_on_off (env : Env) (s : State) :
    (env.regulator_get Regulator.touch_led = true →
      (touchkey_led_ldo_on env false s).touch_led_regulator = false) ∧
    (touchkey_led_ldo_on env false s).touch_regulator = s.touch_regulator := by
  unfold touchkey_led_ldo_on
  constructor
  · intro hg
    simp only [hg, Bool.false_eq_true, if_false, Bool.not_true]
    cases h : regulator_is_enabled Regulator.touch_led s
    · simpa [regulator_is_enabled] using h
    · rfl
  · split_ifs <;> rfl

theorem disable_touchkey_backlights_regulators (env : Env) (s : State) :
    (disable_touchkey_backlights env s).touch_regulator = s.touch_regulator ∧
    (disable_touchkey_backlights env s).touch_led_regulator = s.touch_led_regulator := by
  have h := i2c_touchkey_write_bus_erase env [2] 1 s
  have h1 := congrArg State.touch_regulator h
  have h2 := congrArg State.touch_led_regulator h
  exact ⟨h1, h2⟩

theorem led_disable_power_regulators (env : Env) (s : State) :
    (s.screen_on = 0 →
      (env.regulator_get Regulator.touch = true →
        (led_disable_power env s).touch_regulator = false) ∧
      (env.regulator_get Regulator.touch_led = true →
        (led_disable_power env s).touch_led_regulator = false)) ∧
    (s.screen_on ≠ 0 →
      (led_disable_power env s).touch_regulator = s.touch_regulator ∧
      (led_disable_power env s).touch_led_regulator = s.touch_led_regulator) := by
  rw [led_disable_power_eq]
  constructor
  · intro hs
    rw [if_pos hs]
    constructor
    · intro hg
      exact (touchkey_ldo_on_off env _).1 hg
    · intro hg
      show (touchkey_ldo_on env false _).touch_led_regulator = false
      rw [(touchkey_ldo_on_off env _).2]
      exact (touchkey_led_ldo_on_off env _).1 hg
  · intro hs
    rw [if_neg hs]
    exact disable_touchkey_backlights_regulators env s

theorem led_disable_power_trace (env : Env) (s : State) (hr : ready s) :
    ∃ l, (led_disable_power env s).trace
      = s.trace ++ Ev.i2c_transfer I2C_M_WR 1 [2] (env.i2c_transfer s.xfers) :: l := by
  obtain ⟨l1, h1⟩ := i2c_touchkey_write_first_event env [2] 1 s hr
  have h0 : ({ disable_touchkey_backlights env s with led_on := 0 } : State).trace
      = s.trace ++ Ev.i2c_transfer I2C_M_WR 1 [2] (env.i2c_transfer s.xfers) :: l1 := h1
  rw [led_disable_power_eq]
  split_ifs
  · obtain ⟨l2, h2, -⟩ := (touchkey_led_ldo_on_trace_ext env false
      { disable_touchkey_backlights env s with led_on := 0 }).trans
      (touchkey_ldo_on_trace_ext env false _)
    refine ⟨l1 ++ l2, ?_⟩
    show (touchkey_ldo_on env false _).trace = _
    rw [h2, h0]
    simp
  · exact ⟨l1, h0⟩

theorem down_eq (s : State) (h : s.enable_sem ≠ 0) : down s = some (acquired s) := by
  unfold down
  rw [if_neg h]
  rfl

theorem led_status_write_deactivate (env : Env) (s : State) (hsem : s.enable_sem ≠ 0) :
    led_status_write env (some DISABLE_BL) s =
      some (up (led_status_write_disable env (acquired s))) := by
  have h0 : ¬ (DISABLE_BL = ENABLE_BL) := by decide
  simp only [led_status_write, if_neg h0, if_true, down_eq s hsem]

theorem led_disable_power_trace_ext (env : Env) (s : State) :
    TraceExt (fun _ => true) s (led_disable_power env s) := by
  have h0 : TraceExt (fun _ => true) s { disable_touchkey_backlights env s with led_on := 0 } :=
    (i2c_touchkey_write_trace_ext env [2] 1 s).any.trans (TraceExt.of_trace_eq _ _ _ rfl)
  rw [led_disable_power_eq]
  split_ifs
  · exact h0.trans ((touchkey_led_ldo_on_trace_ext env false _).trans
      ((touchkey_ldo_on_trace_ext env false _).trans (TraceExt.of_trace_eq _ _ _ rfl)))
  · exact h0

/-- C14, as stated, fails.  Writing 2 to `led_status_write` is no Deactivate: the state,
with `led_on = 1`, is returned unchanged (`DISABLE_BL` is 0).  Writing 0 with
`notification_timeout = -1` leaves a pending NotificationTimeout timer pending.  Writing 0
while `touchkey_enable = 0` puts no backlight-off command on the bus. -/
theorem C14_counterexample :
    lit_state.led_on ≠ 0 ∧
    led_status_write (sample_env (fun _ => 1) 0 0) (some 2) lit_state = some lit_state ∧
    lit_state.notification_timer.pending = true ∧
    (led_status_write (sample_env (fun _ => 1) 0 0) (some 0) lit_state).map
      (fun s' => s'.notification_timer.pending) = some true ∧
    (led_status_write (sample_env (fun _ => 1) 0 0) (some 0)
        { lit_state with touchkey_enable := 0 }).map
      (fun s' => (s'.led_on, led_actions s'.trace)) = some (0, []) := by
  refine ⟨by decide, by rfl, rfl, by rfl, by rfl⟩

/-- What Deactivate (`led_status_write` with `DISABLE_BL`) does to a state with
`led_on != 0` when `enable_sem` is free. -/
theorem led_deactivate_effects (env : Env) (s : State) (hled : s.led_on ≠ 0)
    (hsem : s.enable_sem ≠ 0) :
    ∃ s', led_status_write env (some DISABLE_BL) s = some s' ∧
      s'.led_on = 0 ∧
      (ready s → ∃ l, s'.trace = s.trace ++ l ∧
        Ev.i2c_transfer I2C_M_WR 1 [2] (env.i2c_transfer s.xfers) ∈ l) ∧
      (s.screen_on = 0 → s'.touchkey_enable = 0 ∧
        (env.regulator_get Regulator.touch = true → s'.touch_regulator = false) ∧
        (env.regulator_get Regulator.touch_led = true → s'.touch_led_regulator = false)) ∧
      (s.screen_on ≠ 0 → s'.touchkey_enable = s.touchkey_enable ∧
        s'.touch_regulator = s.touch_regulator ∧
        s'.touch_led_regulator = s.touch_led_regulator) ∧
      (s.notification_timeout > 0 → s'.notification_timer.pending = false) ∧
      (s.notification_timeout ≤ 0 → s'.notification_timer = s.notification_timer) ∧
      (s.breathing_enabled = true ∨ s.blinking_enabled = true →
        s'.breathing_timer.pending = false) ∧
      s'.led_wake_lock = false ∧
      s'.enable_sem = s.enable_sem ∧
      (∃ l, s'.trace = s.trace ++ Ev.down :: l ++ [Ev.up]) := by
  have hla : (acquired s).led_on ≠ 0 := hled
  have hT := led_disable_timers_frame (led_disable_power env (acquired s))
  have hP := led_disable_power_frame env (acquired s)
  have hreg := led_disable_power_regulators env (acquired s)
  have hs' : led_status_write env (some DISABLE_BL) s
      = some (up (led_disable_timers (led_disable_power env (acquired s)))) := by
    rw [led_status_write_deactivate env s hsem, led_status_write_disable_eq, if_pos hla]
  have hnt : (led_disable_power env (acquired s)).notification_timeout
      = s.notification_timeout := hP.keeps State.notification_timeout (fun _ => rfl)
  have hntm : (led_disable_power env (acquired s)).notification_timer
      = s.notification_timer := hP.keeps State.notification_timer (fun _ => rfl)
  have hbe : (led_disable_power env (acquired s)).breathing_enabled = s.breathing_enabled :=
    hP.keeps State.breathing_enabled (fun _ => rfl)
  have hbl : (led_disable_power env (acquired s)).blinking_enabled = s.blinking_enabled :=
    hP.keeps State.blinking_enabled (fun _ => rfl)
  have hte : (led_disable_timers (led_disable_power env (acquired s))).touchkey_enable
      = (led_disable_power env (acquired s)).touchkey_enable :=
    hT.keeps State.touchkey_enable (fun _ => rfl)
  have hr1 : (led_disable_timers (led_disable_power env (acquired s))).touch_regulator
      = (led_disable_power env (acquired s)).touch_regulator :=
    hT.keeps State.touch_regulator (fun _ => rfl)
  have hr2 : (led_disable_timers (led_disable_power env (acquired s))).touch_led_regulator
      = (led_disable_power env (acquired s)).touch_led_regulator :=
    hT.keeps State.touch_led_regulator (fun _ => rfl)
  refine ⟨_, hs', ?_, ?_, ?_, ?_, ?_, ?_, ?_, ?_, ?_, ?_⟩
  · show (led_disable_timers (led_disable_power env (acquired s))).led_on = 0
    rw [hT.keeps State.led_on (fun _ => rfl), led_disable_power_led_on]
  · intro hr
    obtain ⟨l1, h1⟩ := led_disable_power_trace env (acquired s) hr
    have hx : (acquired s).xfers = s.xfers := rfl
    rw [hx] at h1
    obtain ⟨l2, h2, -⟩ := led_disable_timers_trace_ext (led_disable_power env (acquired s))
    refine ⟨Ev.down :: Ev.i2c_transfer I2C_M_WR 1 [2] (env.i2c_transfer s.xfers) :: l1
      ++ l2 ++ [Ev.up], ?_, by simp⟩
    show (led_disable_timers (led_disable_power env (acquired s))).trace ++ [Ev.up] = _
    rw [h2, h1]
    show (s.trace ++ [Ev.down] ++ _ :: l1) ++ l2 ++ [Ev.up] = _
    simp
  · intro hso
    refine ⟨?_, ?_, ?_⟩
    · show (led_disable_timers (led_disable_power env (acquired s))).touchkey_enable = 0
      rw [hte, led_disable_power_touchkey_enable]
      exact if_pos hso
    · intro hg
      show (led_disable_timers (led_disable_power env (acquired s))).touch_regulator = false
      rw [hr1]
      exact (hreg.1 hso).1 hg
    · intro hg
      show (led_disable_timers (led_disable_power env (acquired s))).touch_led_regulator = false
      rw [hr2]
      exact (hreg.1 hso).2 hg
  · intro hso
    refine ⟨?_, ?_, ?_⟩
    · show (led_disable_timers (led_disable_power env (acquired s))).touchkey_enable = _
      rw [hte, led_disable_power_touchkey_enable]
      exact if_neg hso
    · show (led_disable_timers (led_disable_power env (acquired s))).touch_regulator = _
      rw [hr1]
      exact (hreg.2 hso).1
    · show (led_disable_timers (led_disable_power env (acquired s))).touch_led_regulator = _
      rw [hr2]
      exact (hreg.2 hso).2
  · intro hto
    show (led_disable_timers (led_disable_power env (acquired s))).notification_timer.pending
      = false
    rw [led_disable_timers_notification_timer, hnt, if_pos hto]
    rfl
  · intro hto
    show (led_disable_timers (led_disable_power env (acquired s))).notification_timer = _
    rw [led_disable_timers_notification_timer, hnt, if_neg (not_lt.mpr hto), hntm]
  · intro hb
    show (led_disable_timers (led_disable_power env (acquired s))).breathing_timer.pending
      = false
    rw [led_disable_timers_breathing_timer, hbe, hbl, if_pos hb]
    rfl
  · exact led_disable_timers_wake_lock _
  · show (led_disable_timers (led_disable_power env (acquired s))).enable_sem + 1 = _
    rw [hT.keeps State.enable_sem (fun _ => rfl), hP.keeps State.enable_sem (fun _ => rfl)]
    show s.enable_sem - 1 + 1 = s.enable_sem
    omega
  · obtain ⟨l1, h1, -⟩ := led_disable_power_trace_ext env (acquired s)
    obtain ⟨l2, h2, -⟩ := led_disable_timers_trace_ext (led_disable_power env (acquired s))
    refine ⟨l1 ++ l2, ?_⟩
    show (led_disable_timers (led_disable_power env (acquired s))).trace ++ [Ev.up] = _
    rw [h2, h1]
    show (s.trace ++ [Ev.down] ++ l1) ++ l2 ++ [Ev.up] = _
    simp

/-- C14 amended: for every state with `led_on != 0` and `enable_sem` free, Deactivate is
`led_status_write` with 0 (`DISABLE_BL`; writing 2 changes nothing).  It calls
`disable_touchkey_backlights`, which puts the off command on the bus when the transport is
ready; sets `led_on = 0`; when `screen_on == 0` clears `touchkey_enable` and disables each of
the two regulators that is available, and otherwise leaves `touchkey_enable` and the
regulators alone; leaves the NotificationTimeout timer not pending when
`notification_timeout > 0` and untouched otherwise; leaves the Effect timer not pending
whenever breathing or blinking is enabled; leaves the wake-lock not held; and takes
`enable_sem` first and releases it last, so its count is as before. -/
theorem C14_deactivate_effects (env : Env) (s : State) (hled : s.led_on ≠ 0)
    (hsem : s.enable_sem ≠ 0) :
    led_status_write env (some 2) s = some s ∧
    ∃ s', led_status_write env (some DISABLE_BL) s = some s' ∧
      s'.led_on = 0 ∧
      (ready s → ∃ l, s'.trace = s.trace ++ l ∧
        Ev.i2c_transfer I2C_M_WR 1 [2] (env.i2c_transfer s.xfers) ∈ l) ∧
      (s.screen_on = 0 → s'.touchkey_enable = 0 ∧
        (env.regulator_get Regulator.touch = true → s'.touch_regulator = false) ∧
        (env.regulator_get Regulator.touch_led = true → s'.touch_led_regulator = false)) ∧
      (s.screen_on ≠ 0 → s'.touchkey_enable = s.touchkey_enable ∧
        s'.touch_regulator = s.touch_regulator ∧
        s'.touch_led_regulator = s.touch_led_regulator) ∧
      (s.notification_timeout > 0 → s'.notification_timer.pending = false) ∧
      (s.notification_timeout ≤ 0 → s'.notification_timer = s.notification_timer) ∧
      (s.breathing_enabled = true ∨ s.blinking_enabled = true →
        s'.breathing_timer.pending = false) ∧
      s'.led_wake_lock = false ∧
      s'.enable_sem = s.enable_sem ∧
      (∃ l, s'.trace = s.trace ++ Ev.down :: l ++ [Ev.up]) := by
  constructor
  · have h2 : ¬ (2 = ENABLE_BL) := by decide
    have h2' : ¬ (2 = DISABLE_BL) := by decide
    simp only [led_status_write, if_neg h2, if_neg h2']
  · exact led_deactivate_effects env s hled hsem

theorem C14_deactivate_effects_witness :
    ∃ s', led_status_write (sample_env (fun _ => 1) 0 0) (some DISABLE_BL) lit_state = some s' ∧
      s'.led_on = 0 ∧ s'.led_wake_lock = false ∧ s'.enable_sem = lit_state.enable_sem := by
  obtain ⟨-, s', h1, h2, -, -, -, -, -, -, h3, h4, -⟩ :=
    C14_deactivate_effects (sample_env (fun _ => 1) 0 0) lit_state (by decide) (by decide)
  exact ⟨s', h1, h2, h3, h4⟩

/-! ## Effect generator: one tick -/

theorem breathing_timer_action_frame (env : Env) (s : State) :
    Frame eff_erase s (breathing_timer_action env s) := by
  unfold breathing_timer_action
  split_ifs
  · unfold breathing_rise
    simp only []
    have h0 := (change_touch_key_led_voltage_hw env (int32 s.breathe_volt) s).frame_eff
    split_ifs
    · exact h0.comp rfl
    · exact h0.comp rfl
  · unfold breathing_fall
    simp only []
    have h0 := (change_touch_key_led_voltage_hw env (int32 s.breathe_volt) s).frame_eff
    split_ifs
    · refine h0.comp (Frame.comp (b := reset_breathing env
        { change_touch_key_led_voltage env (int32 s.breathe_volt) s with
          breathe_volt := uint32 (((change_touch_key_led_voltage env (int32 s.breathe_volt)
            s).breathe_volt : Int) - ((change_touch_key_led_voltage env (int32 s.breathe_volt)
            s).breathe.step_incr : Int)) }) ?_ rfl)
      exact Frame.comp (b := { change_touch_key_led_voltage env (int32 s.breathe_volt) s with
          breathe_volt := uint32 (((change_touch_key_led_voltage env (int32 s.breathe_volt)
            s).breathe_volt : Int) - ((change_touch_key_led_voltage env (int32 s.breathe_volt)
            s).breathe.step_incr : Int)) }) rfl (reset_breathing_frame env _)
    · exact h0.comp rfl
  · unfold blinking_tick
    split_ifs
    · exact (enable_touchkey_backlights_hw env s).frame_eff.comp rfl
    · exact (disable_touchkey_backlights_hw env s).frame_eff.comp rfl
  · rfl

theorem change_touch_key_led_voltage_eq (env : Env) (v : Int) (s : State)
    (hg : env.regulator_get Regulator.touch_led = true) :
    change_touch_key_led_voltage env v s =
      emit (Ev.regulator_set_voltage Regulator.touch_led (int32 (v * 1000)) (int32 (v * 1000)))
        { s with touch_led_uV := int32 (v * 1000) } := by
  unfold change_touch_key_led_voltage
  simp only [hg, Bool.not_true, Bool.false_eq_true, if_false]

theorem change_touch_key_led_voltage_proj (env : Env) (v : Int) (s : State)
    (hg : env.regulator_get Regulator.touch_led = true) :
    (change_touch_key_led_voltage env v s).trace
      = s.trace ++ [Ev.regulator_set_voltage Regulator.touch_led (int32 (v * 1000))
          (int32 (v * 1000))] ∧
    (change_touch_key_led_voltage env v s).jiffies = s.jiffies ∧
    (change_touch_key_led_voltage env v s).touch_led_uV = int32 (v * 1000) := by
  rw [change_touch_key_led_voltage_eq env v s hg]
  exact ⟨rfl, rfl, rfl⟩

theorem breathing_rise_proj (env : Env) (s : State)
    (hg : env.regulator_get Regulator.touch_led = true) :
    (breathing_rise env s).breathe_volt
      = (if (s.breathe_volt + s.breathe.step_incr) % 4294967296 ≥ s.breathe.max then s.breathe.max
         else (s.breathe_volt + s.breathe.step_incr) % 4294967296) ∧
    (breathing_rise env s).breathe_in
      = (if (s.breathe_volt + s.breathe.step_incr) % 4294967296 ≥ s.breathe.max then false
         else s.breathe_in) ∧
    (breathing_rise env s).breathing_timer
      = ⟨true, jiffies_add s.jiffies (env.msecs_to_jiffies s.breathe.step_int)⟩ ∧
    (breathing_rise env s).trace = s.trace ++ [set_voltage_ev s.breathe_volt] ∧
    (breathing_rise env s).jiffies = s.jiffies := by
  have hw := change_touch_key_led_voltage_hw env (int32 s.breathe_volt) s
  have f1 := hw.field State.breathe_volt (fun _ _ _ _ _ _ _ => rfl)
  have f2 := hw.field State.breathe (fun _ _ _ _ _ _ _ => rfl)
  have f3 := hw.field State.breathe_in (fun _ _ _ _ _ _ _ => rfl)
  obtain ⟨f4, f5, -⟩ := change_touch_key_led_voltage_proj env (int32 s.breathe_volt) s hg
  unfold breathing_rise
  generalize change_touch_key_led_voltage env (int32 s.breathe_volt) s = X at *
  simp only []
  rw [f1, f2]
  split_ifs with h1
  · exact ⟨rfl, rfl, by rw [← f5]; rfl, f4, f5⟩
  · exact ⟨rfl, f3, by rw [← f5]; rfl, f4, f5⟩

theorem reset_breathing_proj (env : Env) (t : State)
    (hg : env.regulator_get Regulator.touch_led = true) (hb : t.breathing_enabled = true) :
    (reset_breathing env t).breathe_in = true ∧
    (reset_breathing env t).breathe_volt = t.breathe.min ∧
    (reset_breathing env t).trace = t.trace ++ [set_voltage_ev t.breathe.min] ∧
    (reset_breathing env t).jiffies = t.jiffies ∧
    (reset_breathing env t).touch_led_uV = int32 (int32 t.breathe.min * 1000) := by
  unfold reset_breathing
  simp only []
  rw [if_pos hb, change_touch_key_led_voltage_eq env _ _ hg]
  exact ⟨rfl, rfl, rfl, rfl, rfl⟩

theorem breathing_fall_proj (env : Env) (s : State)
    (hg : env.regulator_get Regulator.touch_led = true) (hb : s.breathing_enabled = true) :
    (breathing_fall env s).breathe_volt
      = (if uint32 ((s.breathe_volt : Int) - (s.breathe.step_incr : Int)) ≤ s.breathe.min
         then s.breathe.min
         else uint32 ((s.breathe_volt : Int) - (s.breathe.step_incr : Int))) ∧
    (breathing_fall env s).breathe_in
      = (if uint32 ((s.breathe_volt : Int) - (s.breathe.step_incr : Int)) ≤ s.breathe.min
         then true else s.breathe_in) ∧
    (breathing_fall env s).breathing_timer
      = (if uint32 ((s.breathe_volt : Int) - (s.breathe.step_incr : Int)) ≤ s.breathe.min
         then ⟨true, jiffies_add s.jiffies (env.msecs_to_jiffies s.breathe.pause)⟩
         else ⟨true, jiffies_add s.jiffies (env.msecs_to_jiffies s.breathe.step_int)⟩) ∧
    (breathing_fall env s).trace
      = (if uint32 ((s.breathe_volt : Int) - (s.breathe.step_incr : Int)) ≤ s.breathe.min
         then s.trace ++ [set_voltage_ev s.breathe_volt, set_voltage_ev s.breathe.min]
         else s.trace ++ [set_voltage_ev s.breathe_volt]) ∧
    (breathing_fall env s).jiffies = s.jiffies := by
  have hw := change_touch_key_led_voltage_hw env (int32 s.breathe_volt) s
  have f1 := hw.field State.breathe_volt (fun _ _ _ _ _ _ _ => rfl)
  have f2 := hw.field State.breathe (fun _ _ _ _ _ _ _ => rfl)
  have f3 := hw.field State.breathe_in (fun _ _ _ _ _ _ _ => rfl)
  have f6 := hw.field State.breathing_enabled (fun _ _ _ _ _ _ _ => rfl)
  obtain ⟨f4, f5, -⟩ := change_touch_key_led_voltage_proj env (int32 s.breathe_volt) s hg
  unfold breathing_fall
  generalize change_touch_key_led_voltage env (int32 s.breathe_volt) s = X at *
  have hbX : ({ X with breathe_volt := uint32 ((X.breathe_volt : Int) - (X.breathe.step_incr : Int)) } : State).breathing_enabled
        = true := f6.trans hb
  obtain ⟨g1, g2, g3, g4, -⟩ := reset_breathing_proj env _ hg hbX
  have hR := reset_breathing_frame env ({ X with breathe_volt := uint32 ((X.breathe_volt : Int) - (X.breathe.step_incr : Int)) } : State)
  have g5 := hR.keeps State.breathe (fun _ => rfl)
  simp only [] at g2 g3 g4 g5 ⊢
  generalize reset_breathing env ({ X with breathe_volt := uint32 ((X.breathe_volt : Int) - (X.breathe.step_incr : Int)) } : State) = Y at *
  rw [f1, f2]
  rw [f2] at g2 g5
  split_ifs with h1
  · refine ⟨g2, g1, ?_, ?_, ?_⟩
    · show (⟨true, jiffies_add Y.jiffies (env.msecs_to_jiffies Y.breathe.pause)⟩ : Timer) = _
      rw [g4, g5]
      show (⟨true, jiffies_add X.jiffies _⟩ : Timer) = _
      rw [f5]
    · show Y.trace = _
      rw [g3]
      show X.trace ++ [set_voltage_ev X.breathe.min] = _
      rw [f4, f2]
      simp [set_voltage_ev]
    · show Y.jiffies = _
      rw [g4]
      exact f5
  · refine ⟨rfl, f3, ?_, f4, f5⟩
    show (⟨true, jiffies_add X.jiffies (env.msecs_to_jiffies s.breathe.step_int)⟩ : Timer) = _
    rw [f5]

/-- One tick of the breathing generator, projected on the phase, the Effect timer, the
trace and the clock. -/
theorem breathing_tick_gen (env : Env) (s : State)
    (hg : env.regulator_get Regulator.touch_led = true)
    (hb : s.breathing_enabled = true) (hl : s.led_on ≠ 0) :
    gen_of (breathing_timer_action env s) = (gen_step s.breathe (gen_of s)).next ∧
    (breathing_timer_action env s).breathing_timer
      = ⟨true, jiffies_add s.jiffies
          (env.msecs_to_jiffies (gen_step s.breathe (gen_of s)).delay)⟩ ∧
    (breathing_timer_action env s).trace
      = s.trace ++ (gen_step s.breathe (gen_of s)).volts.map set_voltage_ev ∧
    (breathing_timer_action env s).jiffies = s.jiffies := by
  have hc : s.breathing_enabled = true ∧ s.led_on ≠ 0 := ⟨hb, hl⟩
  unfold breathing_timer_action
  rw [if_pos hc]
  cases hin : s.breathe_in
  · obtain ⟨p1, p2, p3, p4, p5⟩ := breathing_fall_proj env s hg hb
    have hgen : gen_of s = ⟨false, s.breathe_volt⟩ := by unfold gen_of; rw [hin]
    rw [hgen]
    unfold gen_step
    simp only [Bool.false_eq_true, if_false]
    by_cases hv : uint32 ((s.breathe_volt : Int) - (s.breathe.step_incr : Int)) ≤ s.breathe.min
    · rw [if_pos hv] at p1 p2 p3 p4
      rw [if_pos hv]
      refine ⟨?_, p3, ?_, p5⟩
      · unfold gen_of; rw [p1, p2]
      · rw [p4]; rfl
    · rw [if_neg hv] at p1 p2 p3 p4
      rw [if_neg hv]
      refine ⟨?_, p3, ?_, p5⟩
      · unfold gen_of; rw [p1, p2, hin]
      · rw [p4]; rfl
  · obtain ⟨p1, p2, p3, p4, p5⟩ := breathing_rise_proj env s hg
    have hgen : gen_of s = ⟨true, s.breathe_volt⟩ := by unfold gen_of; rw [hin]
    rw [hgen]
    unfold gen_step
    simp only [if_true]
    by_cases hv : (s.breathe_volt + s.breathe.step_incr) % 4294967296 ≥ s.breathe.max
    · rw [if_pos hv] at p1 p2
      rw [if_pos hv]
      refine ⟨?_, p3, ?_, p5⟩
      · unfold gen_of; rw [p1, p2]
      · rw [p4]; rfl
    · rw [if_neg hv] at p1 p2
      rw [if_neg hv]
      refine ⟨?_, p3, ?_, p5⟩
      · unfold gen_of; rw [p1, p2, hin]
      · rw [p4]; rfl

/-- The generator view of `n` ticks: phase, trace and clock after them, with the context
(breathing enabled, LED on, configuration) unchanged. -/
theorem breathing_ticks_gen (env : Env) (hg : env.regulator_get Regulator.touch_led = true)
    (n : Nat) : ∀ (s : State), s.breathing_enabled = true → s.led_on ≠ 0 →
      gen_of (breathing_ticks env n s) = gen_run s.breathe n (gen_of s) ∧
      (breathing_ticks env n s).trace
        = s.trace ++ (gen_volts s.breathe n (gen_of s)).map set_voltage_ev ∧
      (breathing_ticks env n s).jiffies = s.jiffies ∧
      (breathing_ticks env n s).breathing_enabled = true ∧
      (breathing_ticks env n s).led_on = s.led_on ∧
      (breathing_ticks env n s).breathe = s.breathe := by
  induction n with
  | zero =>
    intro s hb _
    exact ⟨rfl, by simp [breathing_ticks, gen_volts], rfl, hb, rfl, rfl⟩
  | succ k ih =>
    intro s hb hl
    obtain ⟨t1, -, t3, t4⟩ := breathing_tick_gen env s hg hb hl
    have hf := breathing_timer_action_frame env s
    have b1 : (breathing_timer_action env s).breathing_enabled = true :=
      (hf.keeps State.breathing_enabled (fun _ => rfl)).trans hb
    have b2 : (breathing_timer_action env s).led_on = s.led_on :=
      hf.keeps State.led_on (fun _ => rfl)
    have b3 : (breathing_timer_action env s).breathe = s.breathe :=
      hf.keeps State.breathe (fun _ => rfl)
    obtain ⟨i1, i2, i3, i4, i5, i6⟩ := ih (breathing_timer_action env s) b1 (by rw [b2]; exact hl)
    refine ⟨?_, ?_, ?_, i4, ?_, ?_⟩
    · show gen_of (breathing_ticks env k (breathing_timer_action env s)) = _
      rw [i1, b3, t1]
      rfl
    · show (breathing_ticks env k (breathing_timer_action env s)).trace = _
      rw [i2, b3, t1, t3]
      simp [gen_volts]
    · show (breathing_ticks env k (breathing_timer_action env s)).jiffies = _
      rw [i3, t4]
    · show (breathing_ticks env k (breathing_timer_action env s)).led_on = _
      rw [i5, b2]
    · show (breathing_ticks env k (breathing_timer_action env s)).breathe = _
      rw [i6, b3]

/-- The Effect timer after tick `n + 1` is armed with the delay of that tick. -/
theorem breathing_ticks_timer (env : Env) (hg : env.regulator_get Regulator.touch_led = true)
    (n : Nat) (s : State) (hb : s.breathing_enabled = true) (hl : s.led_on ≠ 0) :
    (breathing_ticks env (n + 1) s).breathing_timer
      = ⟨true, jiffies_add s.jiffies (env.msecs_to_jiffies
          (gen_step s.breathe (gen_run s.breathe n (gen_of s))).delay)⟩ := by
  have hsplit : ∀ (k : Nat) (t : State),
      breathing_ticks env (k + 1) t = breathing_timer_action env (breathing_ticks env k t) := by
    intro k
    induction k with
    | zero => intro t; rfl
    | succ j ih => intro t; exact ih (breathing_timer_action env t)
  obtain ⟨i1, -, i3, i4, i5, i6⟩ := breathing_ticks_gen env hg n s hb hl
  obtain ⟨-, t2, -, -⟩ := breathing_tick_gen env (breathing_ticks env n s) hg i4
    (by rw [i5]; exact hl)
  rw [hsplit, t2, i1, i3, i6]

/-! ## End-to-end scenario -/

theorem led_enable_effect_breathing (env : Env) (p : State)
    (hg : env.regulator_get Regulator.touch_led = true) (hb : p.breathing_enabled = true) :
    (led_enable_effect env p).breathe_in = true ∧
    (led_enable_effect env p).breathe_volt = p.breathe.min ∧
    (led_enable_effect env p).touch_led_uV = int32 (int32 p.breathe.min * 1000) ∧
    (led_enable_effect env p).breathing_timer
      = ⟨true, jiffies_add (led_enable_effect env p).jiffies (env.msecs_to_jiffies 10)⟩ := by
  obtain ⟨g1, g2, -, -, g5⟩ := reset_breathing_proj env p hg hb
  unfold led_enable_effect
  rw [if_pos (Or.inl hb)]
  generalize reset_breathing env p = Y at *
  exact ⟨g1, g2, g5, rfl⟩

theorem led_enable_power_wake_lock (env : Env) (s : State) :
    (led_enable_power env s).led_wake_lock = true := by
  rw [led_enable_power_eq]
  show (enable_touchkey_backlights env (led_enable_rails env s)).led_wake_lock = true
  rw [(enable_touchkey_backlights_hw env _).field State.led_wake_lock
    (fun _ _ _ _ _ _ _ => rfl)]
  exact led_enable_rails_wake_lock env s

theorem breathing_ticks_frame (env : Env) (n : Nat) :
    ∀ s : State, Frame eff_erase s (breathing_ticks env n s) := by
  induction n with
  | zero => intro s; rfl
  | succ k ih =>
    intro s
    exact (breathing_timer_action_frame env s).comp (ih _)

/-- C15: end-to-end.  From a probed state with `notification_enabled = 1`, breathing enabled
with configuration `{2500, 3300, 50, 100, 700}`, `notification_timeout = 10000`, not
persistent, renewed, and the LED regulator available, Activate yields `led_on = 1` with the
backlight-on command on the bus, the wake-lock held, the rail programmed to 2500 mV, the
generator in its rising phase at 2500, the Effect timer armed and the NotificationTimeout
timer armed for 10000 ms.  The first two ticks of the effect program 2500 mV and 2550 mV,
each re-arming the Effect timer for 100 ms.  A Deactivate (`led_status_write` with
`DISABLE_BL`) issued after any number of ticks then yields `led_on = 0` with the Effect timer
and the NotificationTimeout timer not pending and the wake-lock released. -/
theorem C15_end_to_end (env : Env) (s : State)
    (hg : env.regulator_get Regulator.touch_led = true)
    (hd : s.touchkey_driver = true) (hpb : s.touchkey_probe = true)
    (hte : s.touchkey_enable = 1) (hsem : s.enable_sem ≠ 0)
    (hen : s.notification_enabled = 1) (hbr : s.breathing_enabled = true)
    (hcfg : s.breathe = default_breathing) (hto : s.notification_timeout = 10000)
    (hper : s.notification_persistent = false) (hren : s.notification_renew = true) :
    ∃ s1, led_status_write env (some ENABLE_BL) s = some s1 ∧
      s1.led_on = 1 ∧
      (∃ l, s1.trace = s.trace ++ l ∧
        Ev.i2c_transfer I2C_M_WR 1 [1] (env.i2c_transfer s.xfers) ∈ l) ∧
      s1.led_wake_lock = true ∧
      s1.touch_led_uV = 2500000 ∧
      s1.breathe_in = true ∧ s1.breathe_volt = 2500 ∧
      s1.breathing_timer = ⟨true, jiffies_add s1.jiffies (env.msecs_to_jiffies 10)⟩ ∧
      s1.notification_timer = ⟨true, jiffies_add s1.jiffies (env.msecs_to_jiffies 10000)⟩ ∧
      (breathing_ticks env 2 s1).trace
        = s1.trace ++ [Ev.regulator_set_voltage Regulator.touch_led 2500000 2500000,
            Ev.regulator_set_voltage Regulator.touch_led 2550000 2550000] ∧
      (breathing_ticks env 1 s1).breathing_timer
        = ⟨true, jiffies_add s1.jiffies (env.msecs_to_jiffies 100)⟩ ∧
      (breathing_ticks env 2 s1).breathing_timer
        = ⟨true, jiffies_add s1.jiffies (env.msecs_to_jiffies 100)⟩ ∧
      ∀ n, ∃ s2, led_status_write env (some DISABLE_BL) (breathing_ticks env n s1) = some s2 ∧
        s2.led_on = 0 ∧ s2.breathing_timer.pending = false ∧
        s2.notification_timer.pending = false ∧ s2.led_wake_lock = false := by
  have hen' : s.notification_enabled > 0 := by rw [hen]; decide
  have hP := led_enable_power_frame env s
  have hE := led_enable_effect_frame env (led_enable_power env s)
  have hM := led_enable_mid_frame env s
  have pb : (led_enable_power env s).breathing_enabled = true :=
    (hP.keeps State.breathing_enabled (fun _ => rfl)).trans hbr
  have pc : (led_enable_power env s).breathe = default_breathing :=
    (hP.keeps State.breathe (fun _ => rfl)).trans hcfg
  obtain ⟨e1, e2, e3, e4⟩ := led_enable_effect_breathing env (led_enable_power env s) hg pb
  rw [pc] at e2 e3
  have ew : (led_enable_effect env (led_enable_power env s)).led_wake_lock = true :=
    (hE.keeps State.led_wake_lock (fun _ => rfl)).trans (led_enable_power_wake_lock env s)
  have m1 := hM.keeps State.notification_timeout (fun _ => rfl)
  have m2 := hM.keeps State.notification_persistent (fun _ => rfl)
  have m3 := hM.keeps State.notification_renew (fun _ => rfl)
  have m4 := hM.keeps State.breathing_enabled (fun _ => rfl)
  have m5 := hM.keeps State.breathe (fun _ => rfl)
  have m6 := hM.keeps State.enable_sem (fun _ => rfl)
  have hact := led_status_write_activate env s hen'
  have hled := led_activate_led_on env s
  have hcmd := led_activate_command env s hd hpb (Or.inl hte)
  have htm := led_enable_timers_eq env (led_enable_effect env (led_enable_power env s))
  generalize led_enable_effect env (led_enable_power env s) = M at *
  have hnt : (led_enable_timers env M).notification_timer
      = ⟨true, jiffies_add M.jiffies (env.msecs_to_jiffies 10000)⟩ := by
    rw [htm]
    show (if _ then _ else _) = _
    rw [m1, m2, m3, hto, hper, hren]
    simp [uint32]
  have k1 : (led_enable_timers env M).led_wake_lock = true := by rw [htm]; exact ew
  have k2 : (led_enable_timers env M).touch_led_uV = 2500000 := by
    rw [htm]; exact e3.trans (by decide)
  have k3 : (led_enable_timers env M).breathe_in = true := by rw [htm]; exact e1
  have k4 : (led_enable_timers env M).breathe_volt = 2500 := by rw [htm]; exact e2
  have k5 : (led_enable_timers env M).breathing_timer
      = ⟨true, jiffies_add M.jiffies (env.msecs_to_jiffies 10)⟩ := by rw [htm]; exact e4
  have k6 : (led_enable_timers env M).jiffies = M.jiffies := by rw [htm]
  have k7 : (led_enable_timers env M).breathing_enabled = true := by
    rw [htm]; exact m4.trans hbr
  have k8 : (led_enable_timers env M).breathe = default_breathing := by
    rw [htm]; exact m5.trans hcfg
  have k9 : (led_enable_timers env M).enable_sem = s.enable_sem := by rw [htm]; exact m6
  have k10 : (led_enable_timers env M).notification_timeout = 10000 := by
    rw [htm]; exact m1.trans hto
  generalize led_enable_timers env M = s1 at *
  have hl1 : s1.led_on ≠ 0 := by rw [hled]; decide
  have hgen : gen_of s1 = ⟨true, 2500⟩ := by unfold gen_of; rw [k3, k4]
  obtain ⟨-, t2, -, -, -, -⟩ := breathing_ticks_gen env hg 2 s1 k7 hl1
  have tm1 := breathing_ticks_timer env hg 0 s1 k7 hl1
  have tm2 := breathing_ticks_timer env hg 1 s1 k7 hl1
  rw [k8, hgen] at t2 tm1 tm2
  refine ⟨s1, hact, hled, hcmd, k1, k2, k3, k4, ?_, ?_,
    t2, tm1, tm2, ?_⟩
  · rw [k5, k6]
  · rw [hnt, k6]
  · intro n
    have hF := breathing_ticks_frame env n s1
    have q1 : (breathing_ticks env n s1).led_on ≠ 0 := by
      rw [hF.keeps State.led_on (fun _ => rfl)]; exact hl1
    have q2 : (breathing_ticks env n s1).enable_sem ≠ 0 := by
      rw [hF.keeps State.enable_sem (fun _ => rfl), k9]; exact hsem
    have q3 : (breathing_ticks env n s1).notification_timeout > 0 := by
      rw [hF.keeps State.notification_timeout (fun _ => rfl), k10]; decide
    have q4 : (breathing_ticks env n s1).breathing_enabled = true := by
      rw [hF.keeps State.breathing_enabled (fun _ => rfl)]; exact k7
    obtain ⟨s2, d1, d2, -, -, -, d3, -, d4, d5, -, -⟩ :=
      led_deactivate_effects env (breathing_ticks env n s1) q1 q2
    exact ⟨s2, d1, d2, d4 (Or.inl q4), d3 q3, d5⟩

theorem C15_end_to_end_witness :
    ∃ s1, led_status_write (sample_env (fun _ => 1) 0 0) (some ENABLE_BL) scenario_state
        = some s1 ∧ s1.led_on = 1 ∧ s1.touch_led_uV = 2500000 ∧ s1.breathe_volt = 2500 := by
  obtain ⟨s1, h1, h2, -, -, h3, -, h4, -⟩ :=
    C15_end_to_end (sample_env (fun _ => 1) 0 0) scenario_state rfl rfl rfl rfl (by decide)
      rfl rfl rfl rfl rfl rfl
  exact ⟨s1, h1, h2, h3, h4⟩

/-! ## Effect toggles -/

theorem enable_breathing_write_ok (d : Nat) (size : Int) (s : State) (hd : d ≤ 1) :
    (enable_breathing_write (some d) size s).1 = size ∧
    (enable_breathing_write (some d) size s).2.breathing_enabled
      = (if d ≠ 0 then true else false) ∧
    (enable_breathing_write (some d) size s).2.blinking_enabled = false := by
  unfold enable_breathing_write
  simp only [if_neg (not_lt.mpr hd)]
  cases h : s.blinking_enabled <;> simp [h]

theorem enable_blinking_write_ok (d : Nat) (size : Int) (s : State) (hd : d ≤ 1) :
    (enable_blinking_write (some d) size s).1 = size ∧
    (enable_blinking_write (some d) size s).2.blinking_enabled
      = (if d ≠ 0 then true else false) ∧
    (enable_blinking_write (some d) size s).2.breathing_enabled = false := by
  unfold enable_blinking_write
  simp only [if_neg (not_lt.mpr hd)]
  cases h : s.breathing_enabled <;> simp [h]

theorem enable_breathing_write_rejected (d : Nat) (size : Int) (s : State) (hd : 1 < d) :
    enable_breathing_write (some d) size s = (-EINVAL, s) := by
  unfold enable_breathing_write
  simp only [if_pos hd]

theorem enable_blinking_write_rejected (d : Nat) (size : Int) (s : State) (hd : 1 < d) :
    enable_blinking_write (some d) size s = (-EINVAL, s) := by
  unfold enable_blinking_write
  simp only [if_pos hd]

/-- One write to an effect toggle keeps "not both enabled". -/
theorem effect_write_exclusive (w : EffectWrite) (s : State)
    (h : ¬ (s.breathing_enabled = true ∧ s.blinking_enabled = true)) :
    ¬ ((effect_write w s).breathing_enabled = true ∧
       (effect_write w s).blinking_enabled = true) := by
  cases w with
  | breathing_enabled data =>
    cases data with
    | none => exact h
    | some d =>
      by_cases hd : 1 < d
      · have e : effect_write (EffectWrite.breathing_enabled (some d)) s = s := by
          show (enable_breathing_write (some d) 0 s).2 = s
          rw [enable_breathing_write_rejected d 0 s hd]
        rw [e]
        exact h
      · obtain ⟨-, -, h3⟩ := enable_breathing_write_ok d 0 s (not_lt.mp hd)
        intro hb
        have h4 : (enable_breathing_write (some d) 0 s).2.blinking_enabled = true := hb.2
        rw [h3] at h4
        exact Bool.false_ne_true h4
  | blinking_enabled data =>
    cases data with
    | none => exact h
    | some d =>
      by_cases hd : 1 < d
      · have e : effect_write (EffectWrite.blinking_enabled (some d)) s = s := by
          show (enable_blinking_write (some d) 0 s).2 = s
          rw [enable_blinking_write_rejected d 0 s hd]
        rw [e]
        exact h
      · obtain ⟨-, -, h3⟩ := enable_blinking_write_ok d 0 s (not_lt.mp hd)
        intro hb
        have h4 : (enable_blinking_write (some d) 0 s).2.breathing_enabled = true := hb.1
        rw [h3] at h4
        exact Bool.false_ne_true h4

theorem effect_writes_exclusive (ws : List EffectWrite) :
    ∀ s : State, ¬ (s.breathing_enabled = true ∧ s.blinking_enabled = true) →
      ¬ ((effect_writes ws s).breathing_enabled = true ∧
         (effect_writes ws s).blinking_enabled = true) := by
  induction ws with
  | nil => intro s h; exact h
  | cons w ws ih => intro s h; exact ih _ (effect_write_exclusive w s h)

/-- C16: in every state reached from the initial state (both toggles false) through any
sequence of writes to `breathing_enabled` and `blinking_enabled`, the two are never both
true; a successful write of 1 to `breathing_enabled` while blinking is enabled leaves
breathing on and blinking off, and a successful write of 1 to `blinking_enabled` while
breathing is enabled leaves blinking on and breathing off. -/
theorem C16_effects_exclusive (ws : List EffectWrite) (size : Int) (s : State) :
    ¬ ((effect_writes ws init_state).breathing_enabled = true ∧
       (effect_writes ws init_state).blinking_enabled = true) ∧
    (s.blinking_enabled = true →
      (enable_breathing_write (some 1) size s).1 = size ∧
      (enable_breathing_write (some 1) size s).2.breathing_enabled = true ∧
      (enable_breathing_write (some 1) size s).2.blinking_enabled = false) ∧
    (s.breathing_enabled = true →
      (enable_blinking_write (some 1) size s).1 = size ∧
      (enable_blinking_write (some 1) size s).2.blinking_enabled = true ∧
      (enable_blinking_write (some 1) size s).2.breathing_enabled = false) := by
  refine ⟨effect_writes_exclusive ws init_state (by decide), ?_, ?_⟩
  · intro _
    exact enable_breathing_write_ok 1 size s (le_refl 1)
  · intro _
    exact enable_blinking_write_ok 1 size s (le_refl 1)

theorem C16_effects_exclusive_witness :
    (enable_breathing_write (some 1) 2 { init_state with blinking_enabled := true }).1 = 2 ∧
    (enable_breathing_write (some 1) 2
      { init_state with blinking_enabled := true }).2.breathing_enabled = true ∧
    (enable_breathing_write (some 1) 2
      { init_state with blinking_enabled := true }).2.blinking_enabled = false :=
  (C16_effects_exclusive [] 2 { init_state with blinking_enabled := true }).2.1 rfl

/-! ## Effect generator: the default cycle -/

theorem default_cycle_volts :
    gen_volts default_breathing 32 ⟨true, 2500⟩ = default_cycle := by decide

theorem default_cycle_twice :
    gen_volts default_breathing 64 ⟨true, 2500⟩ = default_cycle ++ default_cycle := by decide

theorem default_cycle_phase : gen_run default_breathing 32 ⟨true, 2500⟩ = ⟨true, 2500⟩ := by
  decide

theorem default_cycle_delays :
    ∀ k, k < 32 →
      (gen_step default_breathing (gen_run default_breathing k ⟨true, 2500⟩)).delay
        = if k < 31 then 100 else 700 := by
  decide

/-- C17: with breathing enabled, `led_on = 1`, the default configuration
`{2500, 3300, 50, 100, 700}` and the LED regulator available, starting from
`reset_breathing` the voltages `breathing_timer_action` programs over the 32 ticks of one
cycle are 2500, 2550, ..., 3250, 3300, 3250, ..., 2550, 2500; each of the first 31 ticks
re-arms the Effect timer for 100 ms and the 32nd, which returns to 2500, re-arms it for the
700 ms pause and leaves the generator in the rising phase at `breathe_volt = 2500`, the
phase it started from, so the next 32 ticks program the same voltages again. -/
theorem C17_default_cycle (env : Env) (s : State)
    (hg : env.regulator_get Regulator.touch_led = true)
    (hb : s.breathing_enabled = true) (hl : s.led_on = 1) (hcfg : s.breathe = default_breathing) :
    (reset_breathing env s).breathe_in = true ∧
    (reset_breathing env s).breathe_volt = 2500 ∧
    (breathing_ticks env 32 (reset_breathing env s)).trace
      = (reset_breathing env s).trace ++ default_cycle.map set_voltage_ev ∧
    (∀ k, k < 31 → (breathing_ticks env (k + 1) (reset_breathing env s)).breathing_timer
      = ⟨true, jiffies_add (reset_breathing env s).jiffies (env.msecs_to_jiffies 100)⟩) ∧
    (breathing_ticks env 32 (reset_breathing env s)).breathing_timer
      = ⟨true, jiffies_add (reset_breathing env s).jiffies (env.msecs_to_jiffies 700)⟩ ∧
    (breathing_ticks env 32 (reset_breathing env s)).breathe_in = true ∧
    (breathing_ticks env 32 (reset_breathing env s)).breathe_volt = 2500 ∧
    (breathing_ticks env 64 (reset_breathing env s)).trace
      = (reset_breathing env s).trace ++ (default_cycle ++ default_cycle).map set_voltage_ev := by
  obtain ⟨r1, r2, -, -, -⟩ := reset_breathing_proj env s hg hb
  have hF := reset_breathing_frame env s
  have r3 : (reset_breathing env s).breathing_enabled = true :=
    (hF.keeps State.breathing_enabled (fun _ => rfl)).trans hb
  have r4 : (reset_breathing env s).led_on ≠ 0 := by
    rw [hF.keeps State.led_on (fun _ => rfl), hl]; decide
  have r5 : (reset_breathing env s).breathe = default_breathing :=
    (hF.keeps State.breathe (fun _ => rfl)).trans hcfg
  rw [hcfg] at r2
  have r2' : (reset_breathing env s).breathe_volt = 2500 := r2
  generalize reset_breathing env s = s0 at *
  have hgen : gen_of s0 = ⟨true, 2500⟩ := by unfold gen_of; rw [r1, r2']
  obtain ⟨a1, a2, -, -, -, -⟩ := breathing_ticks_gen env hg 32 s0 r3 r4
  obtain ⟨-, b2, -, -, -, -⟩ := breathing_ticks_gen env hg 64 s0 r3 r4
  rw [r5, hgen] at a1 a2 b2
  rw [default_cycle_volts] at a2
  rw [default_cycle_twice] at b2
  rw [default_cycle_phase] at a1
  have htimer : ∀ k, k < 32 → (breathing_ticks env (k + 1) s0).breathing_timer
      = ⟨true, jiffies_add s0.jiffies (env.msecs_to_jiffies (if k < 31 then 100 else 700))⟩ := by
    intro k hk
    rw [breathing_ticks_timer env hg k s0 r3 r4, r5, hgen, default_cycle_delays k hk]
  refine ⟨r1, r2', a2, ?_, ?_, ?_, ?_, b2⟩
  · intro k hk
    rw [htimer k (by omega), if_pos hk]
  · rw [htimer 31 (by decide)]
    rfl
  · exact congrArg Gen.breathe_in a1
  · exact congrArg Gen.breathe_volt a1

theorem C17_default_cycle_witness :
    (breathing_ticks (sample_env (fun _ => 1) 0 0) 32
        (reset_breathing (sample_env (fun _ => 1) 0 0) breathing_state)).trace
      = (reset_breathing (sample_env (fun _ => 1) 0 0) breathing_state).trace
          ++ default_cycle.map set_voltage_ev :=
  (C17_default_cycle (sample_env (fun _ => 1) 0 0) breathing_state rfl rfl rfl rfl).2.2.1

/-- C18 fails on the code: with the configuration `{min = 100, max = 3300, step_incr = 3000,
step_int = 100, pause = 700}`, written through `breathing_config_write`, the ticks after
`reset_breathing` pass 100, 3100, 3300, 300 and then 4294964596 to
`change_touch_key_led_voltage`: in the falling phase `300 - 3000` wraps around as an
`unsigned int`, the result is not `<= min`, and the fifth tick programs it (as the `int`
-2700, i.e. -2700000 microvolt), outside `[100, 3300]`. -/
theorem C18_wraparound_leaves_range :
    wide_step_state.breathe = wide_step_breathing ∧
    wide_step_state.breathing_enabled = true ∧ wide_step_state.led_on = 1 ∧
    wide_step_breathing.min < wide_step_breathing.max ∧
    (breathing_ticks (sample_env (fun _ => 1) 0 0) 4
        (reset_breathing (sample_env (fun _ => 1) 0 0) wide_step_state)).breathe_volt
      = 4294964596 ∧
    (breathing_ticks (sample_env (fun _ => 1) 0 0) 5
        (reset_breathing (sample_env (fun _ => 1) 0 0) wide_step_state)).trace
      = (reset_breathing (sample_env (fun _ => 1) 0 0) wide_step_state).trace
          ++ [100, 3100, 3300, 300, 4294964596].map set_voltage_ev ∧
    ¬ (4294964596 ≤ wide_step_breathing.max) ∧
    int32 4294964596 = -2700 ∧
    set_voltage_ev 4294964596
      = Ev.regulator_set_voltage Regulator.touch_led (-2700000) (-2700000) := by
  refine ⟨rfl, rfl, rfl, by decide, by rfl, by rfl, by decide, by decide, by decide⟩

/-! ## Power-state transitions: early suspend -/

theorem sec_touchkey_early_suspend_eq (env : Env) (s : State) :
    sec_touchkey_early_suspend env s
      = early_suspend_power env (early_suspend_quiesce env s) := rfl

theorem HwStep.frame_pm {s1 s2 : State} (h : HwStep s1 s2) : Frame pm_erase s1 s2 := by
  obtain ⟨t, x, j, r1, r2, u, e⟩ := h
  rw [e]
  rfl

theorem release_keys_hw (env : Env) (s : State) : HwStep s (release_keys env s) := by
  unfold release_keys
  generalize (touchkey_keycode env).drop 1 = l
  induction l generalizing s with
  | nil => exact HwStep.same s
  | cons c t ih => exact (emit_hw _ s).seq (ih _)

theorem release_keys_regulators (env : Env) (s : State) :
    (release_keys env s).touch_led_regulator = s.touch_led_regulator ∧
    (release_keys env s).touch_regulator = s.touch_regulator := by
  unfold release_keys
  generalize (touchkey_keycode env).drop 1 = l
  induction l generalizing s with
  | nil => exact ⟨rfl, rfl⟩
  | cons c t ih => exact ih _

theorem early_suspend_quiesce_frame (env : Env) (s : State) :
    Frame pm_erase s (early_suspend_quiesce env s) := by
  have h1 : ∀ t : State, Frame pm_erase t (if t.touchkey_work_queued then
      enable_irq (emit Ev.cancel_work_sync { t with touchkey_work_queued := false })
      else emit Ev.cancel_work_sync { t with touchkey_work_queued := false }) := by
    intro t
    split_ifs <;> rfl
  have h0 : Frame pm_erase s (disable_irq s) := rfl
  have h2 : ∀ t : State, Frame pm_erase t
      (set_touchkey_debug 83 { release_keys env t with touchkey_enable := 0 }) :=
    fun t => Frame.comp (b := release_keys env t) (release_keys_hw env t).frame_pm rfl
  exact (h0.comp (h1 _)).comp (h2 _)

theorem early_suspend_quiesce_proj (env : Env) (s : State) :
    (early_suspend_quiesce env s).touchkey_enable = 0 ∧
    (early_suspend_quiesce env s).touch_led_regulator = s.touch_led_regulator ∧
    (early_suspend_quiesce env s).touch_regulator = s.touch_regulator := by
  have h1 : ∀ t : State, (if t.touchkey_work_queued then
      enable_irq (emit Ev.cancel_work_sync { t with touchkey_work_queued := false })
      else emit Ev.cancel_work_sync { t with touchkey_work_queued := false }).touch_led_regulator
        = t.touch_led_regulator ∧
      (if t.touchkey_work_queued then
      enable_irq (emit Ev.cancel_work_sync { t with touchkey_work_queued := false })
      else emit Ev.cancel_work_sync { t with touchkey_work_queued := false }).touch_regulator
        = t.touch_regulator := by
    intro t
    split_ifs <;> exact ⟨rfl, rfl⟩
  refine ⟨rfl, ?_, ?_⟩
  · exact (release_keys_regulators env _).1.trans (h1 (disable_irq s)).1
  · exact (release_keys_regulators env _).2.trans (h1 (disable_irq s)).2

theorem early_suspend_quiesce_trace_ext (env : Env) (s : State) :
    TraceExt (fun _ => true) s (early_suspend_quiesce env s) := by
  have h0 : TraceExt (fun _ => true) s (disable_irq s) := ⟨[_], rfl, by simp⟩
  have h1 : ∀ t : State, TraceExt (fun _ => true) t (if t.touchkey_work_queued then
      enable_irq (emit Ev.cancel_work_sync { t with touchkey_work_queued := false })
      else emit Ev.cancel_work_sync { t with touchkey_work_queued := false }) := by
    intro t
    split_ifs
    · exact ⟨[Ev.cancel_work_sync, Ev.enable_irq],
        by show t.trace ++ [_] ++ [_] = _; simp, by simp⟩
    · exact ⟨[_], rfl, by simp⟩
  have h2 : ∀ t : State, TraceExt (fun _ => true) t (release_keys env t) := by
    intro t
    unfold release_keys
    generalize (touchkey_keycode env).drop 1 = l
    induction l generalizing t with
    | nil => exact TraceExt.refl _ _
    | cons c r ih => exact (TraceExt.emit _ _ t rfl).trans (ih _)
  exact ((h0.trans (h1 _)).trans (h2 _)).trans (TraceExt.of_trace_eq _ _ _ rfl)

theorem early_suspend_power_eq (env : Env) (t : State) (h : t.touchkey_enable = 0) :
    early_suspend_power env t =
      { touchkey_ldo_on env false (touchkey_led_ldo_on env false
          (emit (Ev.gpio_direction_input Gpio.TOUCH_INT) t)) with screen_on := 0 } := by
  unfold early_suspend_power
  rw [if_neg (by rw [h]; decide)]

theorem touchkey_led_ldo_on_off_trace (env : Env) (s : State)
    (hg : env.regulator_get Regulator.touch_led = true) (he : s.touch_led_regulator = true) :
    (touchkey_led_ldo_on env false s).trace
      = s.trace ++ [Ev.regulator_force_disable Regulator.touch_led] := by
  unfold touchkey_led_ldo_on
  have he' : regulator_is_enabled Regulator.touch_led s = true := he
  simp only [hg, he', Bool.false_eq_true, if_false, Bool.not_true, if_true]
  rfl

/-- What `sec_touchkey_early_suspend` does to the LED regulator: it is off afterwards when
the regulator is available, with `led_on` as before. -/
theorem early_suspend_led_rail (env : Env) (s : State)
    (hg : env.regulator_get Regulator.touch_led = true) :
    (sec_touchkey_early_suspend env s).touch_led_regulator = false ∧
    (sec_touchkey_early_suspend env s).led_on = s.led_on ∧
    (s.touch_led_regulator = true →
      ∃ l, (sec_touchkey_early_suspend env s).trace = s.trace ++ l ∧
        Ev.regulator_force_disable Regulator.touch_led ∈ l) ∧
    (sec_touchkey_early_suspend env s).screen_on = 0 ∧
    (sec_touchkey_early_suspend env s).touchkey_enable = 0 := by
  obtain ⟨q1, q2, -⟩ := early_suspend_quiesce_proj env s
  have qF := early_suspend_quiesce_frame env s
  have q4 := qF.keeps State.led_on (fun _ => rfl)
  obtain ⟨l0, q5, -⟩ := early_suspend_quiesce_trace_ext env s
  rw [sec_touchkey_early_suspend_eq, early_suspend_power_eq env _ q1]
  generalize early_suspend_quiesce env s = t at *
  have hw := (emit_hw (Ev.gpio_direction_input Gpio.TOUCH_INT) t).seq
    ((touchkey_led_ldo_on_hw env false _).seq (touchkey_ldo_on_hw env false _))
  refine ⟨?_, ?_, ?_, rfl, ?_⟩
  · show (touchkey_ldo_on env false _).touch_led_regulator = false
    rw [(touchkey_ldo_on_off env _).2]
    exact (touchkey_led_ldo_on_off env _).1 hg
  · exact (hw.field State.led_on (fun _ _ _ _ _ _ _ => rfl)).trans q4
  · intro he
    have he' : (emit (Ev.gpio_direction_input Gpio.TOUCH_INT) t).touch_led_regulator = true :=
      q2.trans he
    have h1 := touchkey_led_ldo_on_off_trace env _ hg he'
    obtain ⟨l2, h2, -⟩ := touchkey_ldo_on_trace_ext env false
      (touchkey_led_ldo_on env false (emit (Ev.gpio_direction_input Gpio.TOUCH_INT) t))
    refine ⟨l0 ++ [Ev.gpio_direction_input Gpio.TOUCH_INT,
      Ev.regulator_force_disable Regulator.touch_led] ++ l2, ?_, by simp⟩
    show (touchkey_ldo_on env false _).trace = _
    rw [h2, h1]
    show (t.trace ++ [_]) ++ [_] ++ l2 = _
    rw [q5]
    simp
  · exact (hw.field State.touchkey_enable (fun _ _ _ _ _ _ _ => rfl)).trans q1

/-- C19, as stated, fails: on a state with `led_on = 1` and the LED regulator enabled,
`sec_touchkey_early_suspend` force-disables the `touch_led` regulator and leaves
`led_on = 1`. -/
theorem C19_counterexample :
    lit_powered_state.led_on ≠ 0 ∧ lit_powered_state.touch_led_regulator = true ∧
    (sec_touchkey_early_suspend (sample_env (fun _ => 1) 0 0)
      lit_powered_state).touch_led_regulator = false ∧
    (sec_touchkey_early_suspend (sample_env (fun _ => 1) 0 0) lit_powered_state).led_on = 1 ∧
    Ev.regulator_force_disable Regulator.touch_led ∈
      (sec_touchkey_early_suspend (sample_env (fun _ => 1) 0 0) lit_powered_state).trace := by
  refine ⟨by decide, rfl, by rfl, by rfl, by decide⟩

/-- C19 amended: for every state, whatever `led_on` is, `sec_touchkey_early_suspend` leaves
the `touch_led` regulator (when available) disabled, by `regulator_force_disable` if it was
enabled, and leaves `led_on` unchanged; so after a suspend with `led_on != 0` the LED rail
is off while `led_on` is still set. -/
theorem C19_suspend_powers_led_rail_down (env : Env) (s : State)
    (hg : env.regulator_get Regulator.touch_led = true) :
    (sec_touchkey_early_suspend env s).touch_led_regulator = false ∧
    (sec_touchkey_early_suspend env s).led_on = s.led_on ∧
    (s.touch_led_regulator = true →
      ∃ l, (sec_touchkey_early_suspend env s).trace = s.trace ++ l ∧
        Ev.regulator_force_disable Regulator.touch_led ∈ l) :=
  ⟨(early_suspend_led_rail env s hg).1, (early_suspend_led_rail env s hg).2.1,
    (early_suspend_led_rail env s hg).2.2.1⟩

theorem C19_suspend_powers_led_rail_down_witness :
    (sec_touchkey_early_suspend (sample_env (fun _ => 1) 0 0)
      lit_powered_state).touch_led_regulator = false ∧
    (sec_touchkey_early_suspend (sample_env (fun _ => 1) 0 0) lit_powered_state).led_on
      = lit_powered_state.led_on :=
  ⟨(C19_suspend_powers_led_rail_down (sample_env (fun _ => 1) 0 0) lit_powered_state rfl).1,
    (C19_suspend_powers_led_rail_down (sample_env (fun _ => 1) 0 0) lit_powered_state rfl).2.1⟩

/-! ## The gate invariant: frames of the entry points -/

theorem HwStep.frame_gate {s1 s2 : State} (h : HwStep s1 s2) : Frame gate_erase s1 s2 := by
  obtain ⟨t, x, j, r1, r2, u, e⟩ := h
  rw [e]
  rfl

theorem HwStep.frame_key {s1 s2 : State} (h : HwStep s1 s2) : Frame key_erase s1 s2 := by
  obtain ⟨t, x, j, r1, r2, u, e⟩ := h
  rw [e]
  rfl

theorem Frame.eff_to_gate {s1 s2 : State} (h : Frame eff_erase s1 s2) :
    Frame gate_erase s1 s2 :=
  h.keeps gate_erase (fun _ => rfl)

theorem Frame.tmr_to_gate {s1 s2 : State} (h : Frame tmr_erase s1 s2) :
    Frame gate_erase s1 s2 :=
  h.keeps gate_erase (fun _ => rfl)

theorem Frame.key_to_gate {s1 s2 : State} (h : Frame key_erase s1 s2) :
    Frame gate_erase s1 s2 :=
  h.keeps gate_erase (fun _ => rfl)

theorem Frame.gate_fields {s1 s2 : State} (h : Frame gate_erase s1 s2) :
    s2.touchkey_enable = s1.touchkey_enable ∧ s2.enable_sem = s1.enable_sem := by
  have h1 := congrArg State.touchkey_enable h
  have h2 := congrArg State.enable_sem h
  exact ⟨h1, h2⟩

theorem GateInv.of_frame {a b : State} (h : Frame gate_erase a b) (hi : GateInv a) :
    GateInv b := by
  obtain ⟨h1, h2⟩ := h.gate_fields
  unfold GateInv
  rw [h1, h2]
  exact hi

theorem GateInv.of_fields {s1 s2 : State} (he : s2.touchkey_enable = 0 ∨ s2.touchkey_enable = 1)
    (hs : s2.enable_sem = s1.enable_sem) (hi : GateInv s1) : GateInv s2 :=
  ⟨he, hs.trans hi.2⟩

theorem touchkey_work_backlight_hw (env : Env) (s : State) :
    HwStep s (touchkey_work_backlight env s) := by
  unfold touchkey_work_backlight
  split_ifs
  · exact (change_touch_key_led_voltage_hw env _ s).seq (enable_touchkey_backlights_hw env _)
  · exact HwStep.same s

theorem touchkey_work_timer_frame (env : Env) (s : State) :
    Frame key_erase s (touchkey_work_timer env s) := by
  unfold touchkey_work_timer
  split_ifs <;> rfl

theorem touchkey_work_tail_frame (env : Env) (s : State) :
    Frame key_erase s (enable_irq (set_touchkey_debug 65
      (touchkey_work_timer env (touchkey_work_backlight env s)))) :=
  Frame.comp (b := touchkey_work_timer env (touchkey_work_backlight env s))
    ((touchkey_work_backlight_hw env s).frame_key.comp (touchkey_work_timer_frame env _)) rfl

theorem set_touchkey_debug_key (b : Nat) (s : State) :
    Frame key_erase s (set_touchkey_debug b s) := rfl

theorem emit_key (e : Ev) (s : State) : Frame key_erase s (emit e s) := rfl

theorem touchkey_work_decode_frame (env : Env) (data : List Nat) (s1 : State) :
    ∃ s', touchkey_work_decode env data s1 = some s' ∧ Frame key_erase s1 s' := by
  rw [touchkey_work_decode_head]
  generalize data.getD 0 0 = b
  by_cases hv : b &&& 7 = 0 ∨ (touchkey_keycode env).length ≤ b &&& 7
  · exact ⟨_, touchkey_work_decode_invalid env b [] s1 hv, rfl⟩
  · have hlo : 1 ≤ b &&& 7 := by omega
    have hhi : b &&& 7 < (touchkey_keycode env).length := by omega
    rw [touchkey_work_decode_valid env b [] s1 hlo hhi]
    have hb := set_touchkey_debug_key b s1
    have hp := hb.comp (set_touchkey_debug_key 80 _)
    split_ifs
    · refine ⟨_, rfl, ?_⟩
      exact hp.comp (touchkey_work_tail_frame env _)
    · refine ⟨_, rfl, ?_⟩
      exact ((hp.comp (emit_key _ _)).comp (emit_key _ _)).comp
        (touchkey_work_tail_frame env _)
    · refine ⟨_, rfl, ?_⟩
      exact ((hb.comp (emit_key _ _)).comp (emit_key _ _)).comp
        (touchkey_work_tail_frame env _)

/-- The work function returns, and changes only what `key_erase` erases. -/
theorem touchkey_work_func_frame (env : Env) (s : State) :
    ∃ s', touchkey_work_func env s = some s' ∧ Frame key_erase s s' := by
  have hr : Frame key_erase s
      (touchkey_read_retry env 3 0 [0, 0, 0] (set_touchkey_debug 97 s)).2.2 :=
    Frame.comp (b := set_touchkey_debug 97 s) rfl
      (HwStep.of_bus_erase (touchkey_read_retry_bus_erase env 3 0 [0, 0, 0] _)).frame_key
  unfold touchkey_work_func
  simp only []
  split_ifs
  · exact ⟨_, rfl, hr.comp rfl⟩
  · obtain ⟨s', h1, h2⟩ := touchkey_work_decode_frame env
      (touchkey_read_retry env 3 0 [0, 0, 0] (set_touchkey_debug 97 s)).2.1
      (touchkey_read_retry env 3 0 [0, 0, 0] (set_touchkey_debug 97 s)).2.2
    exact ⟨s', h1, hr.comp h2⟩

theorem bl_off_hw (env : Env) (s : State) : HwStep s (bl_off env s) := by
  unfold bl_off
  split_ifs
  · exact HwStep.same s
  · exact led_fadeout_hw env s
  · exact disable_touchkey_backlights_hw env s

theorem polling_timer_action_gate (env : Env) (s : State) :
    Frame gate_erase s (polling_timer_action env s) := by
  unfold polling_timer_action
  simp only []
  split_ifs <;> rfl

theorem notification_off_gate (env : Env) (s : State) :
    ((notification_off env s).touchkey_enable = s.touchkey_enable ∨
      (notification_off env s).touchkey_enable = 0) ∧
    (notification_off env s).enable_sem = s.enable_sem := by
  unfold notification_off
  split_ifs with h
  · exact ⟨Or.inl rfl, rfl⟩
  · have hw := ((touchkey_led_ldo_on_hw env false s).seq
      (touchkey_ldo_on_hw env false _)).seq (disable_touchkey_backlights_hw env _)
    have hs := hw.field State.enable_sem (fun _ _ _ _ _ _ _ => rfl)
    simp only []
    generalize disable_touchkey_backlights env
      (touchkey_ldo_on env false (touchkey_led_ldo_on env false s)) = X at *
    split_ifs
    · exact ⟨Or.inr rfl, hs⟩
    · exact ⟨Or.inr rfl, hs⟩

theorem init_hw_hw (env : Env) (s : State) : HwStep s (init_hw env s) := by
  unfold init_hw
  exact ((((emit_hw _ s).seq (msleep_hw env 200 _)).seq (emit_hw _ _)).seq
    (emit_hw _ _)).seq (emit_hw _ _)

theorem touchkey_show_hw (env : Env) (data : List Nat) (len : Nat) (s : State) :
    HwStep s (touchkey_show env data len s) :=
  i2c_touchkey_read_hw env KEYCODE_REG data len s

theorem touch_version_read_hw (env : Env) (s : State) : HwStep s (touch_version_read env s) :=
  (init_hw_hw env s).seq (i2c_touchkey_read_hw env KEYCODE_REG [0, 0, 0] 3 _)

theorem touch_led_control_hw (env : Env) (data : Option Int) (s : State) :
    HwStep s (touch_led_control env data s) := by
  cases data with
  | none => exact HwStep.same s
  | some d => exact i2c_touchkey_write_hw env _ 1 s

theorem touch_sensitivity_control_hw (env : Env) (s : State) :
    HwStep s (touch_sensitivity_control env s) :=
  i2c_touchkey_write_hw env _ 1 s

theorem set_touchkey_autocal_testmode_hw (env : Env) (data : Option Int) (s : State) :
    HwStep s (set_touchkey_autocal_testmode env data s) := by
  unfold set_touchkey_autocal_testmode
  split_ifs
  · cases data with
    | none => exact HwStep.same s
    | some d =>
      simp only []
      split_ifs
      · exact i2c_touchkey_write_hw env _ 1 s
      · exact (((((((touchkey_ldo_on_hw env false s).seq (msleep_hw env 50 _)).seq
          (touchkey_ldo_on_hw env true _)).seq (msleep_hw env 50 _)).seq
          (init_hw_hw env _)).seq (msleep_hw env 50 _)).seq
          (touchkey_autocalibration_hw env _))
  · exact HwStep.same s

theorem touch_update_write_gate (buf0 : Nat) (s : State) :
    Frame gate_erase s (touch_update_write buf0 s) := by
  unfold touch_update_write
  split_ifs <;> rfl

theorem set_touchkey_update_loop_gate (issp : Nat → Int) (retry n : Nat) (s : State) :
    Frame gate_erase s (set_touchkey_update_loop issp retry n s).2 := by
  induction retry generalizing n s with
  | zero => rfl
  | succ k ih =>
    unfold set_touchkey_update_loop
    simp only []
    split_ifs
    · rfl
    · exact Frame.comp (b := emit (Ev.ISSP_main (issp n)) s) rfl (ih _ _)

theorem set_touchkey_update_show_gate (env : Env) (issp : Nat → Int) (s : State) :
    Frame gate_erase s (set_touchkey_update_show env issp s) := by
  unfold set_touchkey_update_show
  have h := set_touchkey_update_loop_gate issp 3 0 { s with touchkey_update_status := 1 }
  have h0 : Frame gate_erase s
      (set_touchkey_update_loop issp 3 0 { s with touchkey_update_status := 1 }).2 :=
    Frame.comp (b := { s with touchkey_update_status := 1 }) rfl h
  simp only []
  generalize (set_touchkey_update_loop issp 3 0 { s with touchkey_update_status := 1 }) = r at *
  obtain ⟨retry, t⟩ := r
  simp only []
  split_ifs
  · exact h0.comp (Frame.comp (b := msleep env 300 (touchkey_ldo_on env false t))
      ((touchkey_ldo_on_hw env false t).seq (msleep_hw env 300 _)).frame_gate rfl)
  · exact h0.comp (init_hw_hw env t).frame_gate

/-- The firmware update leaves `touchkey_enable` at 0 or 1 and does not touch the gate. -/
theorem touchkey_update_loop_gate (env : Env) (issp : Nat → Int) (retry n : Nat) (s : State) :
    ((touchkey_update_loop env issp retry n s).touchkey_enable = s.touchkey_enable ∨
      (touchkey_update_loop env issp retry n s).touchkey_enable = 1) ∧
    (touchkey_update_loop env issp retry n s).enable_sem = s.enable_sem := by
  induction retry generalizing n s with
  | zero => exact ⟨Or.inl rfl, rfl⟩
  | succ k ih =>
    unfold touchkey_update_loop
    simp only []
    split_ifs
    · refine ⟨Or.inr rfl, ?_⟩
      have h := ((emit_hw (Ev.ISSP_main (issp n)) s).seq (init_hw_hw env _)).frame_gate
      exact (Frame.comp (b := init_hw env (emit (Ev.ISSP_main (issp n)) s)) h
        rfl : Frame gate_erase s (enable_irq (init_hw env (emit (Ev.ISSP_main (issp n)) s)))).gate_fields.2
    · have h := ((((emit_hw (Ev.ISSP_main (issp n)) s).seq (touchkey_ldo_on_hw env false _)).seq
        (msleep_hw env 300 _)).seq (init_hw_hw env _)).frame_gate.gate_fields
      obtain ⟨i1, i2⟩ := ih (n + 1)
        (init_hw env (msleep env 300 (touchkey_ldo_on env false (emit (Ev.ISSP_main (issp n)) s))))
      rw [h.1] at i1
      rw [h.2] at i2
      exact ⟨i1, i2⟩
    · obtain ⟨i1, i2⟩ := ih (n + 1) (emit (Ev.ISSP_main (issp n)) s)
      exact ⟨i1, i2⟩

theorem touchkey_update_func_gate (env : Env) (issp : Nat → Int) (s : State) :
    ((touchkey_update_func env issp s).touchkey_enable = 0 ∨
      (touchkey_update_func env issp s).touchkey_enable = 1) ∧
    (touchkey_update_func env issp s).enable_sem = s.enable_sem := by
  unfold touchkey_update_func
  simp only []
  have hr : Frame gate_erase s (if env.CONFIG_TARGET_LOCALE_NAATT = true then
      (i2c_touchkey_read env KEYCODE_REG [0, 0, 0] 3
        { s with touch_update_work_queued := false }).2.2
      else { s with touch_update_work_queued := false }) := by
    split_ifs
    · exact Frame.comp (b := { s with touch_update_work_queued := false }) rfl
        (i2c_touchkey_read_hw env KEYCODE_REG [0, 0, 0] 3 _).frame_gate
    · rfl
  generalize (if env.CONFIG_TARGET_LOCALE_NAATT = true then
      (i2c_touchkey_read env KEYCODE_REG [0, 0, 0] 3
        { s with touch_update_work_queued := false }).2.2
      else { s with touch_update_work_queued := false }) = t at *
  obtain ⟨i1, i2⟩ := touchkey_update_loop_gate env issp 10 0
    { t with touchkey_update_status := 1, touchkey_enable := 0 }
  exact ⟨i1, i2.trans hr.gate_fields.2⟩

theorem Frame.act_enable_sem {s1 s2 : State} (h : Frame act_erase s1 s2) :
    s2.enable_sem = s1.enable_sem :=
  h.keeps State.enable_sem (fun _ => rfl)

theorem led_enable_timers_gate (env : Env) (s : State) :
    Frame gate_erase s (led_enable_timers env s) := by
  rw [led_enable_timers_eq]
  rfl

theorem led_status_write_enable_gate (env : Env) (s : State) :
    ((led_status_write_enable env s).touchkey_enable = s.touchkey_enable ∨
      (led_status_write_enable env s).touchkey_enable = 1) ∧
    (led_status_write_enable env s).enable_sem = s.enable_sem := by
  rw [led_status_write_enable_eq]
  split_ifs
  · have h3 := (led_enable_timers_gate env
      (led_enable_effect env (led_enable_power env s))).gate_fields
    have h2 := (led_enable_effect_frame env (led_enable_power env s)).eff_to_gate.gate_fields
    have h1 : (led_enable_power env s).touchkey_enable
        = if s.screen_on = 0 then 1 else s.touchkey_enable := by
      rw [led_enable_power_eq, ← led_enable_rails_touchkey_enable env s]
      exact (enable_touchkey_backlights_hw env _).field State.touchkey_enable
        (fun _ _ _ _ _ _ _ => rfl)
    have h0 := (led_enable_power_frame env s).act_enable_sem
    rw [h3.1, h3.2, h2.1, h2.2, h1, h0]
    refine ⟨?_, rfl⟩
    split_ifs
    · exact Or.inr rfl
    · exact Or.inl rfl
  · exact ⟨Or.inl rfl, rfl⟩

theorem led_status_write_disable_gate (env : Env) (s : State) :
    ((led_status_write_disable env s).touchkey_enable = s.touchkey_enable ∨
      (led_status_write_disable env s).touchkey_enable = 0) ∧
    (led_status_write_disable env s).enable_sem = s.enable_sem := by
  rw [led_status_write_disable_eq]
  split_ifs
  · have h2 := (led_disable_timers_frame (led_disable_power env s)).tmr_to_gate.gate_fields
    have h1 := led_disable_power_touchkey_enable env s
    have h0 := (led_disable_power_frame env s).act_enable_sem
    rw [h2.1, h2.2, h1, h0]
    refine ⟨?_, rfl⟩
    split_ifs
    · exact Or.inr rfl
    · exact Or.inl rfl
  · exact ⟨Or.inl rfl, rfl⟩

/-- Every write to the notification attribute returns when the gate is free, and leaves it
free. -/
theorem led_status_write_gate (env : Env) (data : Option Nat) (s : State) (h : GateInv s) :
    ∃ s', led_status_write env data s = some s' ∧ GateInv s' := by
  obtain ⟨he, hs⟩ := h
  cases data with
  | none => exact ⟨s, rfl, he, hs⟩
  | some d =>
    by_cases h1 : d = ENABLE_BL
    · refine ⟨led_status_write_enable env s, ?_, ?_⟩
      · simp only [led_status_write, if_pos h1]
      · obtain ⟨g1, g2⟩ := led_status_write_enable_gate env s
        refine ⟨?_, g2.trans hs⟩
        rcases g1 with g1 | g1
        · rw [g1]; exact he
        · exact Or.inr g1
    · by_cases h0 : d = DISABLE_BL
      · have hsem : s.enable_sem ≠ 0 := by rw [hs]; decide
        refine ⟨up (led_status_write_disable env (acquired s)), ?_, ?_⟩
        · simp only [led_status_write, if_neg h1, if_pos h0, down_eq s hsem]
        · obtain ⟨g1, g2⟩ := led_status_write_disable_gate env (acquired s)
          refine ⟨?_, ?_⟩
          · show (led_status_write_disable env (acquired s)).touchkey_enable = 0 ∨
              (led_status_write_disable env (acquired s)).touchkey_enable = 1
            rcases g1 with g1 | g1
            · rw [g1]; exact he
            · exact Or.inl g1
          · show (led_status_write_disable env (acquired s)).enable_sem + 1 = 1
            rw [g2]
            show s.enable_sem - 1 + 1 = 1
            rw [hs]
      · refine ⟨s, ?_, he, hs⟩
        simp only [led_status_write, if_neg h1, if_neg h0]

theorem sec_touchkey_early_suspend_gate (env : Env) (s : State) :
    (sec_touchkey_early_suspend env s).touchkey_enable = 0 ∧
    (sec_touchkey_early_suspend env s).enable_sem = s.enable_sem := by
  obtain ⟨q1, -, -⟩ := early_suspend_quiesce_proj env s
  have q2 := (early_suspend_quiesce_frame env s).keeps State.enable_sem (fun _ => rfl)
  rw [sec_touchkey_early_suspend_eq, early_suspend_power_eq env _ q1]
  generalize early_suspend_quiesce env s = t at *
  have hw := ((emit_hw (Ev.gpio_direction_input Gpio.TOUCH_INT) t).seq
    (touchkey_led_ldo_on_hw env false _)).seq (touchkey_ldo_on_hw env false _)
  exact ⟨(hw.field State.touchkey_enable (fun _ _ _ _ _ _ _ => rfl)).trans q1,
    (hw.field State.enable_sem (fun _ _ _ _ _ _ _ => rfl)).trans q2⟩

theorem led_timeout_write_gate (env : Env) (data : Option Int) (s : State) :
    Frame gate_erase s (led_timeout_write env data s) := by
  unfold led_timeout_write
  cases data with
  | none =>
    simp only []
    split_ifs
    · exact (touchkey_led_ldo_on_hw env false s).frame_gate
    · exact (touchkey_led_ldo_on_hw env true s).frame_gate
  | some d =>
    simp only []
    split_ifs
    · exact Frame.comp (b := { s with led_timeout := d }) rfl
        (touchkey_led_ldo_on_hw env false _).frame_gate
    · exact Frame.comp (b := { s with led_timeout := d }) rfl
        (touchkey_led_ldo_on_hw env true _).frame_gate

theorem brightness_control_gate (env : Env) (data : Option Int) (s : State) :
    Frame gate_erase s (brightness_control env data s) := by
  cases data with
  | none => rfl
  | some d =>
    exact Frame.comp (b := change_touch_key_led_voltage env d s)
      (change_touch_key_led_voltage_hw env d s).frame_gate rfl

theorem enable_breathing_write_gate (data : Option Nat) (s : State) :
    Frame gate_erase s (enable_breathing_write data 0 s).2 := by
  unfold enable_breathing_write
  cases data with
  | none => rfl
  | some d =>
    simp only []
    split_ifs <;> rfl

theorem enable_blinking_write_gate (data : Option Nat) (s : State) :
    Frame gate_erase s (enable_blinking_write data 0 s).2 := by
  unfold enable_blinking_write
  cases data with
  | none => rfl
  | some d =>
    simp only []
    split_ifs <;> rfl

theorem notification_timeout_write_gate (ret : Int) (d0 d1 d2 : Nat) (s : State) :
    Frame gate_erase s (notification_timeout_write ret d0 d1 d2 0 s).2 := by
  have a : ∀ t : State, Frame gate_erase t
      (if d1 = 0 ∨ d1 = 1 then
        { t with notification_persistent := (if d1 ≠ 0 then true else false) }
      else t) := by
    intro t
    by_cases h : d1 = 0 ∨ d1 = 1
    · rw [if_pos h]; rfl
    · rw [if_neg h]; rfl
  have b : ∀ t : State, Frame gate_erase t
      (if d2 = 0 ∨ d2 = 1 then { t with notification_renew := (if d2 ≠ 0 then true else false) }
      else t) := by
    intro t
    by_cases h : d2 = 0 ∨ d2 = 1
    · rw [if_pos h]; rfl
    · rw [if_neg h]; rfl
  unfold notification_timeout_write
  by_cases h : ret < 0 ∨ ret > 3
  · rw [if_pos h]; rfl
  · rw [if_neg h]
    have c : ∀ v : Int, Frame gate_erase s { s with notification_timeout := v } :=
      fun _ => rfl
    exact (c _).comp ((a _).comp (b _))

theorem led_fadeout_write_gate (data : Option Nat) (s : State) :
    Frame gate_erase s (led_fadeout_write data 0 s).2 := by
  unfold led_fadeout_write
  cases data with
  | none => rfl
  | some d =>
    simp only []
    split_ifs <;> rfl

theorem timer_expires_gate (t : TimerId) (s : State) :
    Frame gate_erase s (timer_expires t s) := by
  cases t <;> rfl

/-! ## Late resume under the gate -/

theorem is_bus_of_not_gate (rd : Bool) (e : Ev) (h : Ev.is_bus_of rd e = true) :
    Ev.not_gate e = true := by
  cases e <;> first | rfl | exact absurd h (by simp [Ev.is_bus_of])

theorem touchkey_ldo_on_ungated (env : Env) (b : Bool) (s : State) :
    TraceExt Ev.not_gate s (touchkey_ldo_on env b s) := by
  unfold touchkey_ldo_on
  split_ifs
  · exact TraceExt.refl _ _
  · exact ⟨[Ev.regulator_enable Regulator.touch], rfl, by simp [Ev.not_gate]⟩
  · exact TraceExt.refl _ _
  · exact ⟨[Ev.regulator_force_disable Regulator.touch], rfl, by simp [Ev.not_gate]⟩
  · exact TraceExt.refl _ _

theorem touchkey_led_ldo_on_ungated (env : Env) (b : Bool) (s : State) :
    TraceExt Ev.not_gate s (touchkey_led_ldo_on env b s) := by
  unfold touchkey_led_ldo_on
  split_ifs
  · exact TraceExt.refl _ _
  · exact ⟨[Ev.regulator_enable Regulator.touch_led], rfl, by simp [Ev.not_gate]⟩
  · exact TraceExt.refl _ _
  · exact ⟨[Ev.regulator_force_disable Regulator.touch_led], rfl, by simp [Ev.not_gate]⟩
  · exact TraceExt.refl _ _

theorem msleep_ungated (env : Env) (ms : Nat) (s : State) :
    TraceExt Ev.not_gate s (msleep env ms s) :=
  ⟨[Ev.msleep ms], rfl, by simp [Ev.not_gate]⟩

theorem i2c_touchkey_read_ungated (env : Env) (reg : Nat) (val : List Nat) (len : Nat)
    (s : State) : TraceExt Ev.not_gate s (i2c_touchkey_read env reg val len s).2.2 :=
  (i2c_touchkey_read_trace_ext env reg val len s).mono (is_bus_of_not_gate true)

theorem i2c_touchkey_write_ungated (env : Env) (val : List Nat) (len : Nat) (s : State) :
    TraceExt Ev.not_gate s (i2c_touchkey_write env val len s).2 :=
  (i2c_touchkey_write_trace_ext env val len s).mono (is_bus_of_not_gate false)

theorem change_touch_key_led_voltage_ungated (env : Env) (v : Int) (s : State) :
    TraceExt Ev.not_gate s (change_touch_key_led_voltage env v s) := by
  unfold change_touch_key_led_voltage
  split_ifs
  · exact TraceExt.refl _ _
  · exact ⟨[_], rfl, by simp [Ev.not_gate]⟩

theorem touchkey_autocalibration_loop_ungated (env : Env) (left : Nat) :
    ∀ (count : Int) (data : List Nat) (s : State),
      TraceExt Ev.not_gate s (touchkey_autocalibration_loop env left count data s).2 := by
  induction left with
  | zero => intro count data s; exact TraceExt.refl _ _
  | succ n ih =>
    intro count data s
    unfold touchkey_autocalibration_loop
    simp only []
    split_ifs
    · exact i2c_touchkey_read_ungated env _ data 4 s
    · exact (((i2c_touchkey_read_ungated env KEYCODE_REG data 4 s).trans
        (i2c_touchkey_write_ungated env _ 4 _)).trans (msleep_ungated env 100 _)).trans
        (i2c_touchkey_read_ungated env KEYCODE_REG _ 6 _)
    · exact ((((i2c_touchkey_read_ungated env KEYCODE_REG data 4 s).trans
        (i2c_touchkey_write_ungated env _ 4 _)).trans (msleep_ungated env 100 _)).trans
        (i2c_touchkey_read_ungated env KEYCODE_REG _ 6 _)).trans (ih _ _ _)

theorem late_resume_pins_eq (env : Env) (s : State) :
    late_resume_pins env s
      = { late_resume_calibrate env (late_resume_gpio s) with screen_on := 1 } := rfl

theorem late_resume_gpio_ungated (s : State) : TraceExt Ev.not_gate s (late_resume_gpio s) := by
  have e : ∀ (x : Ev) (t : State), Ev.not_gate x = true → TraceExt Ev.not_gate t (emit x t) :=
    fun x t h => TraceExt.emit _ x t h
  have h7 := ((((((e (Ev.gpio_direction_output Gpio.TOUCH_EN 1) s rfl).trans
    (e (Ev.gpio_direction_output Gpio.TOUCH_SDA_28V 1) _ rfl)).trans
    (e (Ev.gpio_direction_output Gpio.TOUCH_SCL_28V 1) _ rfl)).trans
    (e (Ev.gpio_direction_output Gpio.TOUCH_INT 1) _ rfl)).trans
    (e Ev.irq_set_irq_type _ rfl)).trans
    (e (Ev.s3c_gpio_cfgpin Gpio.TOUCH_INT) _ rfl)).trans
    (e (Ev.s3c_gpio_setpull Gpio.TOUCH_INT) _ rfl)
  exact h7.trans (TraceExt.of_trace_eq _ _ (late_resume_gpio s) rfl)

theorem late_resume_calibrate_ungated (env : Env) (s : State) :
    TraceExt Ev.not_gate s (late_resume_calibrate env s) := by
  unfold late_resume_calibrate
  split_ifs
  · exact ((msleep_ungated env 50 s).trans
      (touchkey_autocalibration_loop_ungated env 3 0 _ _)).trans (msleep_ungated env 200 _)
  · exact TraceExt.refl _ _

theorem late_resume_calibrate_hw (env : Env) (s : State) :
    HwStep s (late_resume_calibrate env s) := by
  unfold late_resume_calibrate
  split_ifs
  · exact ((msleep_hw env 50 s).seq (touchkey_autocalibration_hw env _)).seq
      (msleep_hw env 200 _)
  · exact HwStep.same s

theorem late_resume_pins_ungated (env : Env) (s : State) :
    TraceExt Ev.not_gate s (late_resume_pins env s) := by
  rw [late_resume_pins_eq]
  exact ((late_resume_gpio_ungated s).trans (late_resume_calibrate_ungated env _)).trans
    (TraceExt.of_trace_eq _ _ _ rfl)

theorem late_resume_pins_gate (env : Env) (s : State) :
    (late_resume_pins env s).touchkey_enable = 1 ∧
    (late_resume_pins env s).enable_sem = s.enable_sem := by
  have h := late_resume_calibrate_hw env (late_resume_gpio s)
  have h1 := h.field State.touchkey_enable (fun _ _ _ _ _ _ _ => rfl)
  have h2 := h.field State.enable_sem (fun _ _ _ _ _ _ _ => rfl)
  have h3 : (late_resume_gpio s).touchkey_enable = 1 := rfl
  have h4 : (late_resume_gpio s).enable_sem = s.enable_sem := by
    have e : ∀ (x : Ev) (t : State), HwStep t (emit x t) := fun x t => emit_hw x t
    have h7 := ((((((e (Ev.gpio_direction_output Gpio.TOUCH_EN 1) s).seq
      (e (Ev.gpio_direction_output Gpio.TOUCH_SDA_28V 1) _)).seq
      (e (Ev.gpio_direction_output Gpio.TOUCH_SCL_28V 1) _)).seq
      (e (Ev.gpio_direction_output Gpio.TOUCH_INT 1) _)).seq
      (e Ev.irq_set_irq_type _)).seq
      (e (Ev.s3c_gpio_cfgpin Gpio.TOUCH_INT) _)).seq
      (e (Ev.s3c_gpio_setpull Gpio.TOUCH_INT) _)
    exact h7.field State.enable_sem (fun _ _ _ _ _ _ _ => rfl)
  have e := late_resume_pins_eq env s
  generalize late_resume_pins env s = p at *
  generalize late_resume_gpio s = g at *
  generalize late_resume_calibrate env g = c at *
  subst e
  exact ⟨h1.trans h3, h2.trans h4⟩

theorem late_resume_notification_ungated (s : State) :
    TraceExt Ev.not_gate s (late_resume_notification s) := by
  unfold late_resume_notification
  simp only []
  split_ifs
  all_goals first
    | exact ⟨[Ev.wake_unlock], rfl, by simp [Ev.not_gate]⟩
    | exact TraceExt.refl _ _

theorem late_resume_notification_gate (s : State) :
    Frame gate_erase s (late_resume_notification s) := by
  unfold late_resume_notification
  simp only []
  split_ifs <;> rfl

theorem late_resume_backlight_ungated (env : Env) (s : State) :
    TraceExt Ev.not_gate s (late_resume_backlight env s) := by
  have h1 : TraceExt Ev.not_gate s (if s.led_timeout ≠ BL_ALWAYS_OFF then
      change_touch_key_led_voltage env s.led_brightness
        (enable_touchkey_backlights env (touchkey_led_ldo_on env true s))
      else disable_touchkey_backlights env s) := by
    split_ifs
    all_goals first
      | exact i2c_touchkey_write_ungated env [2] 1 s
      | exact ((touchkey_led_ldo_on_ungated env true s).trans
          (i2c_touchkey_write_ungated env [1] 1 _)).trans
          (change_touch_key_led_voltage_ungated env _ _)
  have h2 : ∀ (t : State) (x : Nat), TraceExt Ev.not_gate t
      (if t.led_timeout > 0 then { t with led_timer := mod_timer t.led_timer x } else t) := by
    intro t x
    split_ifs
    · exact TraceExt.of_trace_eq _ _ _ rfl
    · exact TraceExt.refl _ _
  have h3 : ∀ t : State, TraceExt Ev.not_gate t
      (if t.breathing_enabled ∨ t.blinking_enabled then
        { t with breathing_timer := del_timer t.breathing_timer }
      else t) := by
    intro t
    split_ifs
    · exact TraceExt.of_trace_eq _ _ _ rfl
    · exact TraceExt.refl _ _
  exact ((h1.trans (h2 _ _)).trans (h3 _)).trans ⟨[Ev.enable_irq], rfl, by simp [Ev.not_gate]⟩

theorem late_resume_backlight_gate (env : Env) (s : State) :
    Frame gate_erase s (late_resume_backlight env s) := by
  have h1 : Frame gate_erase s (if s.led_timeout ≠ BL_ALWAYS_OFF then
      change_touch_key_led_voltage env s.led_brightness
        (enable_touchkey_backlights env (touchkey_led_ldo_on env true s))
      else disable_touchkey_backlights env s) := by
    split_ifs
    all_goals first
      | exact (disable_touchkey_backlights_hw env s).frame_gate
      | exact (((touchkey_led_ldo_on_hw env true s).seq
          (enable_touchkey_backlights_hw env _)).seq
          (change_touch_key_led_voltage_hw env _ _)).frame_gate
  have h2 : ∀ (t : State) (x : Nat), Frame gate_erase t
      (if t.led_timeout > 0 then { t with led_timer := mod_timer t.led_timer x } else t) := by
    intro t x
    split_ifs <;> rfl
  have h3 : ∀ t : State, Frame gate_erase t
      (if t.breathing_enabled ∨ t.blinking_enabled then
        { t with breathing_timer := del_timer t.breathing_timer }
      else t) := by
    intro t
    split_ifs <;> rfl
  have h4 : ∀ t : State, Frame gate_erase t (enable_irq t) := fun _ => rfl
  exact ((h1.comp (h2 _ _)).comp (h3 _)).comp (h4 _)

/-- With `touchkey_enable` not negative and the gate free, `sec_touchkey_late_resume`
returns; its events are `down`, then events that are neither `down` nor `up`, then `up`;
the count of `enable_sem` is what it was and `touchkey_enable` is 1. -/
theorem sec_touchkey_late_resume_balanced (env : Env) (s : State)
    (he : 0 ≤ s.touchkey_enable) (hs : s.enable_sem ≠ 0) :
    ∃ s', sec_touchkey_late_resume env s = some s' ∧
      (∃ l, s'.trace = s.trace ++ Ev.down :: l ++ [Ev.up] ∧ ∀ e ∈ l, Ev.not_gate e = true) ∧
      s'.enable_sem = s.enable_sem ∧ s'.touchkey_enable = 1 := by
  have hs0 : (set_touchkey_debug 82 s).enable_sem ≠ 0 := hs
  have hd := down_eq (set_touchkey_debug 82 s) hs0
  have ha : (acquired (set_touchkey_debug 82 s)).trace = s.trace ++ [Ev.down] := rfl
  have hae : (acquired (set_touchkey_debug 82 s)).enable_sem = s.enable_sem - 1 := rfl
  have hat : (acquired (set_touchkey_debug 82 s)).touchkey_enable = s.touchkey_enable := rfl
  have hl := touchkey_ldo_on_hw env true (acquired (set_touchkey_debug 82 s))
  have hlt := touchkey_ldo_on_ungated env true (acquired (set_touchkey_debug 82 s))
  have hle := (hl.field State.enable_sem (fun _ _ _ _ _ _ _ => rfl)).trans hae
  have hlk := (hl.field State.touchkey_enable (fun _ _ _ _ _ _ _ => rfl)).trans hat
  unfold sec_touchkey_late_resume
  simp only [hd]
  generalize touchkey_ldo_on env true (acquired (set_touchkey_debug 82 s)) = t at *
  generalize acquired (set_touchkey_debug 82 s) = a at *
  rw [if_neg (by rw [hlk]; omega)]
  refine ⟨_, rfl, ?_, ?_, ?_⟩
  · obtain ⟨l, e, hp⟩ := ((hlt.trans (late_resume_pins_ungated env t)).trans
      (late_resume_notification_ungated _)).trans (late_resume_backlight_ungated env _)
    refine ⟨l, ?_, hp⟩
    show (late_resume_backlight env (late_resume_notification (late_resume_pins env t))).trace
      ++ [Ev.up] = _
    rw [e, ha]
    simp
  · have g := ((late_resume_notification_gate (late_resume_pins env t)).comp
      (late_resume_backlight_gate env _)).gate_fields.2
    show (late_resume_backlight env (late_resume_notification (late_resume_pins env t))).enable_sem
      + 1 = _
    rw [g, (late_resume_pins_gate env t).2, hle]
    omega
  · have g := ((late_resume_notification_gate (late_resume_pins env t)).comp
      (late_resume_backlight_gate env _)).gate_fields.1
    show (late_resume_backlight env (late_resume_notification
      (late_resume_pins env t))).touchkey_enable = _
    rw [g, (late_resume_pins_gate env t).1]

/-! ## The gate invariant over reachable states -/

theorem get_touchkey_module_version_hw (env : Env) (s : State) :
    HwStep s (get_touchkey_module_version env s).2 := by
  unfold get_touchkey_module_version
  have h := i2c_touchkey_read_hw env KEYCODE_REG [0, 0, 0] 3 s
  generalize i2c_touchkey_read env KEYCODE_REG [0, 0, 0] 3 s = r at *
  obtain ⟨ret, data, s1⟩ := r
  simp only []
  split_ifs <;> exact h

theorem i2c_touchkey_probe_eq (env : Env) (k : ProbeEnv) (s : State) :
    i2c_touchkey_probe env k s =
      if !k.kzalloc then (-ENOMEM, { s with touchkey_driver := false })
      else if !k.input_allocate_device then (-ENOMEM, { s with touchkey_driver := true })
      else if k.input_register_device ≠ 0 then
        (k.input_register_device, { s with touchkey_driver := true })
      else probe_tail env k (get_touchkey_module_version env (probe_power env s)) := rfl

theorem probe_power_gate (env : Env) (s : State) :
    (probe_power env s).touchkey_enable = 1 ∧ (probe_power env s).enable_sem = s.enable_sem := by
  refine ⟨rfl, ?_⟩
  have h : HwStep { s with touchkey_driver := true }
      (msleep env 50 (touchkey_ldo_on env true { s with touchkey_driver := true })) :=
    (touchkey_ldo_on_hw env true _).seq (msleep_hw env 50 _)
  exact h.field State.enable_sem (fun _ _ _ _ _ _ _ => rfl)

theorem i2c_touchkey_probe_finish_gate (env : Env) (s : State) :
    Frame gate_erase s (i2c_touchkey_probe_finish env s).2 := by
  have h1 : Frame gate_erase s
      (if env.CONFIG_TARGET_LOCALE_NAATT then
        touchkey_autocalibration env (msleep env 100 (touchkey_led_ldo_on env true s))
      else (0, touchkey_led_ldo_on env true s)).2 := by
    split_ifs
    · exact (((touchkey_led_ldo_on_hw env true s).seq (msleep_hw env 100 _)).seq
        (touchkey_autocalibration_hw env _)).frame_gate
    · exact (touchkey_led_ldo_on_hw env true s).frame_gate
  unfold i2c_touchkey_probe_finish
  simp only []
  generalize (if env.CONFIG_TARGET_LOCALE_NAATT = true then
        touchkey_autocalibration env (msleep env 100 (touchkey_led_ldo_on env true s))
      else (0, touchkey_led_ldo_on env true s)) = r at *
  obtain ⟨ret, t⟩ := r
  simp only []
  split_ifs
  · exact h1
  · refine h1.comp (Frame.comp ?_ (disable_touchkey_backlights_hw env _).frame_gate)
    rfl
  · exact h1.comp rfl

/-- A successful probe leaves `touchkey_enable` at 1 and does not touch the gate. -/
theorem i2c_touchkey_probe_gate (env : Env) (k : ProbeEnv) (s : State)
    (h : (i2c_touchkey_probe env k s).1 = 0) :
    (i2c_touchkey_probe env k s).2.touchkey_enable = 1 ∧
    (i2c_touchkey_probe env k s).2.enable_sem = s.enable_sem := by
  rw [i2c_touchkey_probe_eq] at h ⊢
  by_cases c1 : (!k.kzalloc) = true
  · rw [if_pos c1] at h
    have h0 : (-ENOMEM : Int) = 0 := h
    exact absurd h0 (by decide)
  rw [if_neg c1] at h ⊢
  by_cases c2 : (!k.input_allocate_device) = true
  · rw [if_pos c2] at h
    have h0 : (-ENOMEM : Int) = 0 := h
    exact absurd h0 (by decide)
  rw [if_neg c2] at h ⊢
  by_cases c3 : k.input_register_device ≠ 0
  · rw [if_pos c3] at h
    exact absurd h c3
  rw [if_neg c3] at h ⊢
  obtain ⟨p1, p2⟩ := probe_power_gate env s
  have hv := get_touchkey_module_version_hw env (probe_power env s)
  have v1 := (hv.field State.touchkey_enable (fun _ _ _ _ _ _ _ => rfl)).trans p1
  have v2 := (hv.field State.enable_sem (fun _ _ _ _ _ _ _ => rfl)).trans p2
  generalize get_touchkey_module_version env (probe_power env s) = r at *
  obtain ⟨mv, t⟩ := r
  unfold probe_tail at h ⊢
  by_cases c4 : mv < 0
  · rw [if_pos c4] at h
    have h0 : (-ENODEV : Int) = 0 := h
    exact absurd h0 (by decide)
  rw [if_neg c4] at h ⊢
  by_cases c5 : k.request_irq ≠ 0
  · rw [if_pos c5] at h
    have h0 : (-EBUSY : Int) = 0 := h
    exact absurd h0 (by decide)
  rw [if_neg c5] at h ⊢
  have g := (i2c_touchkey_probe_finish_gate env
    (emit Ev.register_early_suspend (emit Ev.request_irq t))).gate_fields
  exact ⟨g.1.trans v1, g.2.trans v2⟩

theorem enable_bln_charging_gate (status : Int) (s : State) :
    Frame gate_erase s (enable_bln_charging status s) := by
  unfold enable_bln_charging
  split_ifs <;> rfl

theorem notification_enabled_charging_write_gate (ret : Int) (data : Nat) (s : State) :
    Frame gate_erase s (notification_enabled_charging_write ret data 0 s).2 := by
  unfold notification_enabled_charging_write
  simp only []
  split_ifs <;> rfl

theorem blink_control_write_hw (env : Env) (data : Option Nat) (s : State) :
    HwStep s (blink_control_write env data 0 s).2 := by
  unfold blink_control_write
  cases data with
  | none => exact HwStep.same s
  | some d =>
    simp only []
    split_ifs
    · exact disable_touchkey_backlights_hw env s
    · exact enable_touchkey_backlights_hw env s
    · exact HwStep.same s

theorem breathing_config_write_gate (data : Option Breathing) (s : State) :
    Frame gate_erase s (breathing_config_write data 0 s).2 := by
  cases data <;> rfl

theorem blinking_config_write_gate (data : Option Blinking) (s : State) :
    Frame gate_erase s (blinking_config_write data 0 s).2 := by
  cases data <;> rfl

theorem notification_enabled_write_gate (data : Option Int) (s : State) :
    Frame gate_erase s (notification_enabled_write data s) := by
  cases data <;> rfl

theorem check_battery_write_gate (data : Option (Nat × Nat)) (s : State) :
    Frame gate_erase s (check_battery_write data 0 s).2 := by
  cases data <;> rfl

/-- Every entry point returns when the gate invariant holds, and keeps it. -/
theorem step_gate (env : Env) (op : Op) (s : State) (h : GateInv s) :
    ∃ s', step env op s = some s' ∧ GateInv s' := by
  cases op with
  | led_status_write data => exact led_status_write_gate env data s h
  | touchkey_interrupt => exact ⟨_, rfl, GateInv.of_frame (a := s) rfl h⟩
  | touchkey_work_func =>
    obtain ⟨s', e, f⟩ := touchkey_work_func_frame env { s with touchkey_work_queued := false }
    exact ⟨s', e, GateInv.of_frame (Frame.comp (b := { s with touchkey_work_queued := false })
      rfl f.key_to_gate) h⟩
  | timer_expires t => exact ⟨_, rfl, GateInv.of_frame (timer_expires_gate t s) h⟩
  | bl_off => exact ⟨_, rfl, GateInv.of_frame (bl_off_hw env s).frame_gate h⟩
  | notification_off =>
    obtain ⟨g1, g2⟩ := notification_off_gate env s
    refine ⟨_, rfl, GateInv.of_fields ?_ g2 h⟩
    rcases g1 with g1 | g1
    · rw [g1]; exact h.1
    · exact Or.inl g1
  | breathing_timer_action =>
    exact ⟨_, rfl, GateInv.of_frame (breathing_timer_action_frame env s).eff_to_gate h⟩
  | polling_timer_action =>
    exact ⟨_, rfl, GateInv.of_frame (polling_timer_action_gate env s) h⟩
  | sec_touchkey_early_suspend =>
    obtain ⟨g1, g2⟩ := sec_touchkey_early_suspend_gate env s
    exact ⟨_, rfl, GateInv.of_fields (Or.inl g1) g2 h⟩
  | sec_touchkey_late_resume =>
    have he : 0 ≤ s.touchkey_enable := by
      rcases h.1 with e | e <;> omega
    have hs : s.enable_sem ≠ 0 := by rw [h.2]; decide
    obtain ⟨s', e, -, g2, g1⟩ := sec_touchkey_late_resume_balanced env s he hs
    exact ⟨s', e, GateInv.of_fields (Or.inr g1) g2 h⟩
  | enable_breathing_write data =>
    exact ⟨_, rfl, GateInv.of_frame (enable_breathing_write_gate data s) h⟩
  | enable_blinking_write data =>
    exact ⟨_, rfl, GateInv.of_frame (enable_blinking_write_gate data s) h⟩
  | breathing_config_write data =>
    exact ⟨_, rfl, GateInv.of_frame (breathing_config_write_gate data s) h⟩
  | blinking_config_write data =>
    exact ⟨_, rfl, GateInv.of_frame (blinking_config_write_gate data s) h⟩
  | notification_enabled_write data =>
    exact ⟨_, rfl, GateInv.of_frame (notification_enabled_write_gate data s) h⟩
  | notification_timeout_write ret d0 d1 d2 =>
    exact ⟨_, rfl, GateInv.of_frame (notification_timeout_write_gate ret d0 d1 d2 s) h⟩
  | led_timeout_write data =>
    exact ⟨_, rfl, GateInv.of_frame (led_timeout_write_gate env data s) h⟩
  | led_fadeout_write data =>
    exact ⟨_, rfl, GateInv.of_frame (led_fadeout_write_gate data s) h⟩
  | check_battery_write data =>
    exact ⟨_, rfl, GateInv.of_frame (check_battery_write_gate data s) h⟩
  | brightness_control data =>
    exact ⟨_, rfl, GateInv.of_frame (brightness_control_gate env data s) h⟩
  | touch_update_write buf0 =>
    exact ⟨_, rfl, GateInv.of_frame (touch_update_write_gate buf0 s) h⟩
  | touchkey_update_func issp =>
    obtain ⟨g1, g2⟩ := touchkey_update_func_gate env issp s
    exact ⟨_, rfl, GateInv.of_fields g1 g2 h⟩
  | set_touchkey_update_show issp =>
    exact ⟨_, rfl, GateInv.of_frame (set_touchkey_update_show_gate env issp s) h⟩
  | touch_version_read =>
    exact ⟨_, rfl, GateInv.of_frame (touch_version_read_hw env s).frame_gate h⟩
  | touch_led_control data =>
    exact ⟨_, rfl, GateInv.of_frame (touch_led_control_hw env data s).frame_gate h⟩
  | touch_sensitivity_control =>
    exact ⟨_, rfl, GateInv.of_frame (touch_sensitivity_control_hw env s).frame_gate h⟩
  | touchkey_show data len =>
    exact ⟨_, rfl, GateInv.of_frame (touchkey_show_hw env data len s).frame_gate h⟩
  | set_touchkey_autocal_testmode data =>
    exact ⟨_, rfl, GateInv.of_frame (set_touchkey_autocal_testmode_hw env data s).frame_gate h⟩
  | blink_control_write data =>
    exact ⟨_, rfl, GateInv.of_frame (blink_control_write_hw env data s).frame_gate h⟩
  | notification_enabled_charging_write ret data =>
    exact ⟨_, rfl, GateInv.of_frame (notification_enabled_charging_write_gate ret data s) h⟩
  | enable_bln_charging status =>
    exact ⟨_, rfl, GateInv.of_frame (enable_bln_charging_gate status s) h⟩
  | time_passes j => exact ⟨_, rfl, GateInv.of_frame (a := s) rfl h⟩
  | battery_update b c => exact ⟨_, rfl, GateInv.of_frame (a := s) rfl h⟩

/-- Every sequence of entry points runs to its end from a state with the gate invariant. -/
theorem run_gate (env : Env) (ops : List Op) :
    ∀ s : State, GateInv s → ∃ s', run env ops s = some s' ∧ GateInv s' := by
  induction ops with
  | nil => intro s h; exact ⟨s, rfl, h⟩
  | cons op ops ih =>
    intro s h
    obtain ⟨s1, e1, h1⟩ := step_gate env op s h
    obtain ⟨s2, e2, h2⟩ := ih s1 h1
    refine ⟨s2, ?_, h2⟩
    show (match step env op s with
      | none => none
      | some s1 => run env ops s1) = some s2
    rw [e1]
    exact e2

theorem Reachable.gate {env : Env} {s : State} (h : Reachable env s) : GateInv s := by
  obtain ⟨k, s0, ops, hp, hr⟩ := h
  have h1 : (i2c_touchkey_probe env k init_state).1 = 0 := by rw [hp]
  obtain ⟨p1, p2⟩ := i2c_touchkey_probe_gate env k init_state h1
  rw [hp] at p1 p2
  have h0 : GateInv s0 := ⟨Or.inr p1, p2⟩
  obtain ⟨s', e, g⟩ := run_gate env ops s0 h0
  rw [hr] at e
  cases e
  exact g

theorem led_status_write_disable_trace_ext (env : Env) (s : State) :
    TraceExt (fun _ => true) s (led_status_write_disable env s) := by
  rw [led_status_write_disable_eq]
  split_ifs
  · exact (led_disable_power_trace_ext env s).trans (led_disable_timers_trace_ext _)
  · exact TraceExt.refl _ _

/-- With the gate free, Deactivate returns and its first event is the `down`. -/
theorem led_deactivate_acquires (env : Env) (s : State) (hs : s.enable_sem ≠ 0) :
    ∃ s', led_status_write env (some DISABLE_BL) s = some s' ∧
      ∃ l, s'.trace = s.trace ++ Ev.down :: l := by
  refine ⟨_, led_status_write_deactivate env s hs, ?_⟩
  obtain ⟨l, e, -⟩ := led_status_write_disable_trace_ext env (acquired s)
  refine ⟨l ++ [Ev.up], ?_⟩
  show (led_status_write_disable env (acquired s)).trace ++ [Ev.up] = _
  rw [e]
  show s.trace ++ [Ev.down] ++ l ++ [Ev.up] = _
  simp

/-- C20: in every state reachable after a successful probe by any sequence of entry points,
`sec_touchkey_late_resume` returns; the events it adds to the trace are `down(&enable_sem)`
first, then events that are neither `down` nor `up`, then `up(&enable_sem)` last, and the
count of `enable_sem` afterwards is what it was before.  After it, every sequence of entry
points runs to its end, and a Deactivate (write of `DISABLE_BL`) issued then returns and
starts by acquiring `enable_sem`. -/
theorem C20_late_resume_balanced (env : Env) (s : State) (h : Reachable env s) :
    ∃ s', sec_touchkey_late_resume env s = some s' ∧
      (∃ l, s'.trace = s.trace ++ Ev.down :: l ++ [Ev.up] ∧ ∀ e ∈ l, Ev.not_gate e = true) ∧
      s'.enable_sem = s.enable_sem ∧
      ∀ ops : List Op, ∃ s2 s3, run env ops s' = some s2 ∧
        led_status_write env (some DISABLE_BL) s2 = some s3 ∧
        ∃ l, s3.trace = s2.trace ++ Ev.down :: l := by
  have g := h.gate
  have he : 0 ≤ s.touchkey_enable := by
    rcases g.1 with e | e <;> omega
  have hs : s.enable_sem ≠ 0 := by rw [g.2]; decide
  obtain ⟨s', e, t, g2, g1⟩ := sec_touchkey_late_resume_balanced env s he hs
  refine ⟨s', e, t, g2, ?_⟩
  intro ops
  obtain ⟨s2, e2, h2⟩ := run_gate env ops s' (GateInv.of_fields (Or.inr g1) g2 g)
  obtain ⟨s3, e3, t3⟩ := led_deactivate_acquires env s2 (by rw [h2.2]; decide)
  exact ⟨s2, s3, e2, e3, t3⟩

theorem C20_late_resume_balanced_witness :
    Reachable (sample_env (fun _ => 1) 0 0) booted_state ∧
    ∃ s', sec_touchkey_late_resume (sample_env (fun _ => 1) 0 0) booted_state = some s' ∧
      (∃ l, s'.trace = booted_state.trace ++ Ev.down :: l ++ [Ev.up] ∧
        ∀ e ∈ l, Ev.not_gate e = true) ∧
      s'.enable_sem = booted_state.enable_sem ∧
      ∀ ops : List Op, ∃ s2 s3, run (sample_env (fun _ => 1) 0 0) ops s' = some s2 ∧
        led_status_write (sample_env (fun _ => 1) 0 0) (some DISABLE_BL) s2 = some s3 ∧
        ∃ l, s3.trace = s2.trace ++ Ev.down :: l :=
  ⟨⟨sample_probe_env, booted_state, [], rfl, rfl⟩,
    C20_late_resume_balanced (sample_env (fun _ => 1) 0 0) booted_state
      ⟨sample_probe_env, booted_state, [], rfl, rfl⟩⟩

/-! ## Timer work: claims -/

/-- C25: in every state with `led_on != 0` the KeyBacklight expiry work `bl_off` returns the
state unchanged, whatever `fade_out` is: the trace gains no event (no
`regulator_set_voltage`, no bus transfer) and no variable changes. -/
theorem C25_bl_off_noop_while_notifying (env : Env) (s : State) (h : s.led_on ≠ 0) :
    bl_off env s = s ∧
    ∀ f : Bool, bl_off env { s with fade_out := f } = { s with fade_out := f } := by
  have h0 : ∀ t : State, t.led_on ≠ 0 → bl_off env t = t := by
    intro t ht
    unfold bl_off
    rw [if_pos (Or.inl ht)]
  exact ⟨h0 s h, fun f => h0 _ h⟩

theorem C25_bl_off_noop_while_notifying_witness :
    lit_state.led_on ≠ 0 ∧
    bl_off (sample_env (fun _ => 1) 0 0) lit_state = lit_state :=
  ⟨by decide,
    (C25_bl_off_noop_while_notifying (sample_env (fun _ => 1) 0 0) lit_state (by decide)).1⟩

theorem notification_off_noop (env : Env) (s : State)
    (h : s.led_on = 0 ∨ s.touchkey_enable = 0) : notification_off env s = s := by
  unfold notification_off
  rw [if_pos h]

theorem notification_off_eq (env : Env) (s : State) (h1 : s.led_on ≠ 0)
    (h2 : s.touchkey_enable ≠ 0) :
    notification_off env s = notification_off_release (disable_touchkey_backlights env
      (touchkey_ldo_on env false (touchkey_led_ldo_on env false s))) := by
  unfold notification_off
  rw [if_neg (by rintro (h | h); exact h1 h; exact h2 h)]
  rfl

theorem notification_off_release_proj (s : State) :
    (notification_off_release s).led_on = 0 ∧
    (notification_off_release s).notification_count = 0 ∧
    (notification_off_release s).touchkey_enable = 0 ∧
    (notification_off_release s).led_wake_lock = false ∧
    (notification_off_release s).touch_regulator = s.touch_regulator ∧
    (notification_off_release s).touch_led_regulator = s.touch_led_regulator ∧
    (notification_off_release s).screen_on = s.screen_on ∧
    (notification_off_release s).enable_sem = s.enable_sem ∧
    ∃ l, (notification_off_release s).trace = s.trace ++ l := by
  unfold notification_off_release
  by_cases hw : s.led_wake_lock = true
  · have hw1 : ({ s with touchkey_enable := 0, led_on := 0, notification_count := 0 } :
        State).led_wake_lock = true := hw
    rw [if_pos hw1]
    exact ⟨rfl, rfl, rfl, rfl, rfl, rfl, rfl, rfl, [Ev.wake_unlock], rfl⟩
  · have hw1 : ¬ ({ s with touchkey_enable := 0, led_on := 0, notification_count := 0 } :
        State).led_wake_lock = true := hw
    rw [if_neg hw1]
    exact ⟨rfl, rfl, rfl, by simpa using hw, rfl, rfl, rfl, rfl, [], by simp⟩

/-- What `notification_off` does when its guard lets it act. -/
theorem notification_off_effects (env : Env) (s : State) (h1 : s.led_on ≠ 0)
    (h2 : s.touchkey_enable ≠ 0) :
    (notification_off env s).led_on = 0 ∧
    (notification_off env s).notification_count = 0 ∧
    (notification_off env s).touchkey_enable = 0 ∧
    (notification_off env s).led_wake_lock = false ∧
    (env.regulator_get Regulator.touch = true →
      (notification_off env s).touch_regulator = false) ∧
    (env.regulator_get Regulator.touch_led = true →
      (notification_off env s).touch_led_regulator = false) ∧
    (notification_off env s).screen_on = s.screen_on ∧
    (ready s → ∃ l, (notification_off env s).trace = s.trace ++ l ∧
      Ev.i2c_transfer I2C_M_WR 1 [2] (env.i2c_transfer s.xfers) ∈ l) := by
  rw [notification_off_eq env s h1 h2]
  have a1 := touchkey_led_ldo_on_off env s
  have a2 := touchkey_ldo_on_off env (touchkey_led_ldo_on env false s)
  have a3 := disable_touchkey_backlights_regulators env
    (touchkey_ldo_on env false (touchkey_led_ldo_on env false s))
  have hw12 := (touchkey_led_ldo_on_hw env false s).seq (touchkey_ldo_on_hw env false _)
  have hw := hw12.seq (disable_touchkey_backlights_hw env _)
  have hso := hw.field State.screen_on (fun _ _ _ _ _ _ _ => rfl)
  have hx : (touchkey_ldo_on env false (touchkey_led_ldo_on env false s)).xfers = s.xfers := by
    rw [touchkey_ldo_on_xfers, touchkey_led_ldo_on_xfers]
  have hr : ready s → ready (touchkey_ldo_on env false (touchkey_led_ldo_on env false s)) := by
    intro r
    exact ⟨(hw12.field State.touchkey_driver (fun _ _ _ _ _ _ _ => rfl)).trans r.1,
      (hw12.field State.touchkey_enable (fun _ _ _ _ _ _ _ => rfl)).trans r.2.1,
      (hw12.field State.touchkey_probe (fun _ _ _ _ _ _ _ => rfl)).trans r.2.2⟩
  obtain ⟨l1, t1, -⟩ := (touchkey_led_ldo_on_trace_ext env false s).trans
    (touchkey_ldo_on_trace_ext env false _)
  have t2 : ready s → ∃ l, (disable_touchkey_backlights env
      (touchkey_ldo_on env false (touchkey_led_ldo_on env false s))).trace
        = (touchkey_ldo_on env false (touchkey_led_ldo_on env false s)).trace
          ++ Ev.i2c_transfer I2C_M_WR 1 [2] (env.i2c_transfer s.xfers) :: l := by
    intro r
    obtain ⟨l, e⟩ := i2c_touchkey_write_first_event env [2] 1 _ (hr r)
    rw [hx] at e
    exact ⟨l, e⟩
  obtain ⟨p1, p2, p3, p4, p5, p6, p7, -, l3, p9⟩ := notification_off_release_proj
    (disable_touchkey_backlights env
      (touchkey_ldo_on env false (touchkey_led_ldo_on env false s)))
  generalize disable_touchkey_backlights env
    (touchkey_ldo_on env false (touchkey_led_ldo_on env false s)) = X at *
  generalize touchkey_ldo_on env false (touchkey_led_ldo_on env false s) = Y at *
  generalize touchkey_led_ldo_on env false s = Z at *
  refine ⟨p1, p2, p3, p4, ?_, ?_, p7.trans hso, ?_⟩
  · intro hg
    rw [p5, a3.1]
    exact a2.1 hg
  · intro hg
    rw [p6, a3.2, a2.2]
    exact a1.1 hg
  · intro r
    obtain ⟨l2, e2⟩ := t2 r
    refine ⟨l1 ++ (Ev.i2c_transfer I2C_M_WR 1 [2] (env.i2c_transfer s.xfers) :: l2) ++ l3,
      ?_, by simp⟩
    rw [p9, e2, t1]
    simp

/-- C13 amended: with `batt_limit = 20`, `polling_interval = 500`, `notification_enabled > 0`
and `batt_status = 25`, Activate powers the LED at once (`led_on = 1`, and the backlight-on
command is put on the bus when the transport is ready).  Every battery poll that observes
`batt_status > 20` only re-arms the BatteryPoll timer 500 ms ahead, and every poll that
observes `batt_status <= 20` does not re-arm it but only arms the NotificationTimeout timer
10 ms ahead; no poll changes `led_on`.  The work of that timer, `notification_off`, sets
`led_on = 0` when it runs with `led_on != 0` and `touchkey_enable != 0`, and changes nothing
otherwise. -/
theorem C13_led_on_at_once_poll_rearms (env : Env) (s : State) (hl : s.batt_limit = 20)
    (hp : s.polling_interval = 500) (hen : s.notification_enabled > 0)
    (hb : s.batt_status = 25) :
    (∃ s', led_status_write env (some ENABLE_BL) s = some s' ∧ s'.led_on = 1 ∧
      (s.touchkey_driver = true → s.touchkey_probe = true →
        (s.touchkey_enable = 1 ∨ s.screen_on = 0) →
        ∃ l, s'.trace = s.trace ++ l ∧
          Ev.i2c_transfer I2C_M_WR 1 [1] (env.i2c_transfer s.xfers) ∈ l)) ∧
    polling_timer_action env s =
      { s with polling_timer := ⟨true, jiffies_add s.jiffies (env.msecs_to_jiffies 500)⟩ } ∧
    (∀ t : State, t.batt_limit = 20 → t.polling_interval = 500 → t.batt_status > 20 →
      polling_timer_action env t =
        { t with polling_timer :=
            ⟨true, jiffies_add t.jiffies (env.msecs_to_jiffies 500)⟩ }) ∧
    (∀ t : State, t.batt_limit = 20 → t.batt_status ≤ 20 →
      polling_timer_action env t =
        { t with notification_timer :=
            ⟨true, jiffies_add t.jiffies (env.msecs_to_jiffies 10)⟩ }) ∧
    (∀ t : State, (polling_timer_action env t).led_on = t.led_on) ∧
    (∀ t : State, t.led_on ≠ 0 → t.touchkey_enable ≠ 0 →
      (notification_off env t).led_on = 0) ∧
    (∀ t : State, t.led_on = 0 ∨ t.touchkey_enable = 0 → notification_off env t = t) := by
  refine ⟨⟨_, led_status_write_activate env s hen, led_activate_led_on env s,
    led_activate_command env s⟩, ?_, ?_, ?_, ?_, ?_, ?_⟩
  · rw [polling_timer_action_above env s (by rw [hl, hb]; decide), hp]
  · intro t htl htp htb
    rw [polling_timer_action_above env t (by rw [htl]; exact not_le.mpr htb), htp]
  · intro t htl htb
    exact polling_timer_action_below env t (by rw [htl]; exact htb)
  · intro t
    by_cases h : t.batt_status ≤ t.batt_limit
    · rw [polling_timer_action_below env t h]
    · rw [polling_timer_action_above env t h]
  · intro t h1 h2
    exact (notification_off_effects env t h1 h2).1
  · intro t h
    exact notification_off_noop env t h

theorem C13_led_on_at_once_poll_rearms_witness :
    (∃ s', led_status_write (sample_env (fun _ => 1) 0 0) (some ENABLE_BL) gated_state = some s' ∧
      s'.led_on = 1) ∧
    (polling_timer_action (sample_env (fun _ => 1) 0 0) gated_state).polling_timer.pending
      = true :=
  ⟨(C13_led_on_at_once_poll_rearms (sample_env (fun _ => 1) 0 0) gated_state rfl rfl
    (by decide) rfl).1.imp (fun _ h => ⟨h.1, h.2.1⟩),
   by rw [(C13_led_on_at_once_poll_rearms (sample_env (fun _ => 1) 0 0) gated_state rfl rfl
    (by decide) rfl).2.1]⟩

/-- C22, as stated, fails.  After a notification with a 5000 ms timeout shown with the
display on and a suspend (`led_on = 1`, wake-lock held, `touchkey_enable = 0`), the timer
fires and `notification_off` returns at its guard: `led_on` stays 1 and the wake-lock stays
held.  In a probed state with `led_on = 0` it leaves `touchkey_enable = 1`. -/
theorem C22_counterexample :
    (run (sample_env (fun _ => 1) 0 0) notify_then_suspend booted_state).map
      (fun s => (s.led_on, s.led_wake_lock, s.touchkey_enable, s.notification_timer.pending))
      = some (1, true, 0, true) ∧
    (run (sample_env (fun _ => 1) 0 0) (notify_then_suspend ++ timeout_fires)
      booted_state).map (fun s => (s.led_on, s.led_wake_lock)) = some (1, true) ∧
    probed_state.led_on = 0 ∧
    (notification_off (sample_env (fun _ => 1) 0 0) probed_state).touchkey_enable = 1 := by
  refine ⟨by rfl, by rfl, rfl, by rfl⟩

/-- C22 amended: `notification_off` acts only when `led_on != 0` and `touchkey_enable != 0`;
in every other state it returns the state unchanged.  When it acts, afterwards `led_on = 0`,
`notification_count = 0`, `touchkey_enable = 0`, the wake-lock is not held, each regulator
that is available is disabled, and the backlight-off command (one byte, 2) has been put on
the bus if the transport was ready (`touchkey_enable = 1`, driver present, probe not
failed). -/
theorem C22_notification_off_guarded (env : Env) (s : State) (h1 : s.led_on ≠ 0)
    (h2 : s.touchkey_enable ≠ 0) :
    (∀ t : State, t.led_on = 0 ∨ t.touchkey_enable = 0 → notification_off env t = t) ∧
    (notification_off env s).led_on = 0 ∧
    (notification_off env s).notification_count = 0 ∧
    (notification_off env s).touchkey_enable = 0 ∧
    (notification_off env s).led_wake_lock = false ∧
    (env.regulator_get Regulator.touch = true →
      (notification_off env s).touch_regulator = false) ∧
    (env.regulator_get Regulator.touch_led = true →
      (notification_off env s).touch_led_regulator = false) ∧
    (ready s → ∃ l, (notification_off env s).trace = s.trace ++ l ∧
      Ev.i2c_transfer I2C_M_WR 1 [2] (env.i2c_transfer s.xfers) ∈ l) := by
  obtain ⟨e1, e2, e3, e4, e5, e6, -, e8⟩ := notification_off_effects env s h1 h2
  exact ⟨fun t ht => notification_off_noop env t ht, e1, e2, e3, e4, e5, e6, e8⟩

theorem C22_notification_off_guarded_witness :
    lit_powered_state.led_on ≠ 0 ∧ lit_powered_state.touchkey_enable ≠ 0 ∧
    (notification_off (sample_env (fun _ => 1) 0 0) lit_powered_state).led_on = 0 ∧
    (notification_off (sample_env (fun _ => 1) 0 0) lit_powered_state).touch_led_regulator
      = false ∧
    ∃ l, (notification_off (sample_env (fun _ => 1) 0 0) lit_powered_state).trace
        = lit_powered_state.trace ++ l ∧
      Ev.i2c_transfer I2C_M_WR 1 [2]
        ((sample_env (fun _ => 1) 0 0).i2c_transfer lit_powered_state.xfers) ∈ l :=
  ⟨by decide, by decide,
    (C22_notification_off_guarded (sample_env (fun _ => 1) 0 0) lit_powered_state
      (by decide) (by decide)).2.1,
    (C22_notification_off_guarded (sample_env (fun _ => 1) 0 0) lit_powered_state
      (by decide) (by decide)).2.2.2.2.2.2.1 rfl,
    (C22_notification_off_guarded (sample_env (fun _ => 1) 0 0) lit_powered_state
      (by decide) (by decide)).2.2.2.2.2.2.2 ⟨rfl, rfl, rfl⟩⟩

/-! ## Key work and the KeyBacklight timer -/

/-- The common tail of `touchkey_work_func` re-arms the KeyBacklight timer from the clock at
that point when `led_timeout > 0` and leaves it as it was otherwise. -/
theorem touchkey_work_tail_led_timer (env : Env) (s : State) :
    (s.led_timeout > 0 →
      (enable_irq (set_touchkey_debug 65
        (touchkey_work_timer env (touchkey_work_backlight env s)))).led_timer
        = ⟨true, jiffies_add (enable_irq (set_touchkey_debug 65
            (touchkey_work_timer env (touchkey_work_backlight env s)))).jiffies
            (env.msecs_to_jiffies (uint32 s.led_timeout))⟩) ∧
    (s.led_timeout ≤ 0 →
      (enable_irq (set_touchkey_debug 65
        (touchkey_work_timer env (touchkey_work_backlight env s)))).led_timer = s.led_timer) := by
  have hw := touchkey_work_backlight_hw env s
  have b1 := hw.field State.led_timeout (fun _ _ _ _ _ _ _ => rfl)
  have b2 := hw.field State.led_timer (fun _ _ _ _ _ _ _ => rfl)
  have e1 : (enable_irq (set_touchkey_debug 65
      (touchkey_work_timer env (touchkey_work_backlight env s)))).led_timer
      = (touchkey_work_timer env (touchkey_work_backlight env s)).led_timer := rfl
  have e2 : (enable_irq (set_touchkey_debug 65
      (touchkey_work_timer env (touchkey_work_backlight env s)))).jiffies
      = (touchkey_work_timer env (touchkey_work_backlight env s)).jiffies := rfl
  rw [e1, e2]
  generalize touchkey_work_backlight env s = B at *
  unfold touchkey_work_timer
  constructor
  · intro h
    rw [if_pos (by rw [b1]; exact h), ← b1]
    rfl
  · intro h
    rw [if_neg (by rw [b1]; exact not_lt.mpr h), ← b2]

/-- C24: after `touchkey_work_func` has read a frame (result 0) whose key index
`b & 0x07` is valid, whether or not the event was held back, the KeyBacklight timer is pending
with `expires = jiffies + msecs_to_jiffies(led_timeout)` (the clock being the one the function
returns with) when `led_timeout > 0`, and is exactly as before when `led_timeout <= 0`, in
particular for -1 and -2; the NotificationTimeout, Effect and BatteryPoll timers are as
before. -/
theorem C24_key_backlight_timer (env : Env) (s s1 : State) (b : Nat) (rest : List Nat)
    (hread : touchkey_read_retry env 3 0 [0, 0, 0] (set_touchkey_debug 97 s)
      = (0, b :: rest, s1))
    (hlo : 1 ≤ b &&& 7) (hhi : ((b &&& 7 : Nat) : Int) < touchkey_count env) :
    ∃ s', touchkey_work_func env s = some s' ∧
      (s.led_timeout > 0 → s'.led_timer
        = ⟨true, jiffies_add s'.jiffies (env.msecs_to_jiffies (uint32 s.led_timeout))⟩) ∧
      (s.led_timeout ≤ 0 → s'.led_timer = s.led_timer) ∧
      s'.notification_timer = s.notification_timer ∧
      s'.breathing_timer = s.breathing_timer ∧
      s'.polling_timer = s.polling_timer := by
  have hhi1 : b &&& 7 < (touchkey_keycode env).length := by
    rw [touchkey_count_eq] at hhi; omega
  obtain ⟨-, -, -, hfr⟩ := touchkey_work_read_frame env s s1 0 (b :: rest) hread
  have r1 : s1.led_timeout = s.led_timeout := by
    have h := congrArg State.led_timeout hfr
    exact h
  have r2 : s1.led_timer = s.led_timer := by
    have h := congrArg State.led_timer hfr
    exact h
  have d : ∀ (v : Nat) (t : State), (set_touchkey_debug v t).led_timeout = t.led_timeout ∧
      (set_touchkey_debug v t).led_timer = t.led_timer := fun _ _ => ⟨rfl, rfl⟩
  have m : ∀ (e : Ev) (t : State), (emit e t).led_timeout = t.led_timeout ∧
      (emit e t).led_timer = t.led_timer := fun _ _ => ⟨rfl, rfl⟩
  have x80 : (set_touchkey_debug 80 (set_touchkey_debug b s1)).led_timeout = s.led_timeout ∧
      (set_touchkey_debug 80 (set_touchkey_debug b s1)).led_timer = s.led_timer :=
    ⟨((d 80 _).1.trans (d b s1).1).trans r1, ((d 80 _).2.trans (d b s1).2).trans r2⟩
  have xb : (set_touchkey_debug b s1).led_timeout = s.led_timeout ∧
      (set_touchkey_debug b s1).led_timer = s.led_timer :=
    ⟨(d b s1).1.trans r1, (d b s1).2.trans r2⟩
  obtain ⟨s2, e2, f2⟩ := touchkey_work_func_frame env s
  have k1 := f2.keeps State.notification_timer (fun _ => rfl)
  have k2 := f2.keeps State.breathing_timer (fun _ => rfl)
  have k3 := f2.keeps State.polling_timer (fun _ => rfl)
  have key : ∀ X : State, X.led_timeout = s.led_timeout → X.led_timer = s.led_timer →
      touchkey_work_func env s = some (enable_irq (set_touchkey_debug 65
        (touchkey_work_timer env (touchkey_work_backlight env X)))) →
      ∃ s', touchkey_work_func env s = some s' ∧
        (s.led_timeout > 0 → s'.led_timer
          = ⟨true, jiffies_add s'.jiffies (env.msecs_to_jiffies (uint32 s.led_timeout))⟩) ∧
        (s.led_timeout ≤ 0 → s'.led_timer = s.led_timer) ∧
        s'.notification_timer = s.notification_timer ∧
        s'.breathing_timer = s.breathing_timer ∧
        s'.polling_timer = s.polling_timer := by
    intro X x1 x2 hX
    obtain ⟨t1, t2⟩ := touchkey_work_tail_led_timer env X
    rw [x1] at t1 t2
    rw [x2] at t2
    rw [hX] at e2
    cases e2
    exact ⟨_, hX, t1, t2, k1, k2, k3⟩
  have hF := touchkey_work_func_of_read env s s1 _ hread
  rw [touchkey_work_decode_valid env b rest s1 hlo hhi1] at hF
  by_cases h8 : b &&& 8 = 0
  · rw [if_pos h8] at hF
    by_cases ht : env.get_tsp_status ≠ 0
    · rw [if_pos ht] at hF
      exact key _ x80.1 x80.2 hF
    · rw [if_neg ht] at hF
      exact key _ (((m _ _).1.trans (m _ _).1).trans x80.1)
        (((m _ _).2.trans (m _ _).2).trans x80.2) hF
  · rw [if_neg h8] at hF
    exact key _ (((m _ _).1.trans (m _ _).1).trans xb.1)
      (((m _ _).2.trans (m _ _).2).trans xb.2) hF

theorem C24_key_backlight_timer_witness :
    ∃ s', touchkey_work_func (sample_env (fun _ => 1) 9 1) probed_state = some s' ∧
      (probed_state.led_timeout > 0 → s'.led_timer
        = ⟨true, jiffies_add s'.jiffies
            ((sample_env (fun _ => 1) 9 1).msecs_to_jiffies (uint32 probed_state.led_timeout))⟩) ∧
      (probed_state.led_timeout ≤ 0 → s'.led_timer = probed_state.led_timer) ∧
      s'.notification_timer = probed_state.notification_timer ∧
      s'.breathing_timer = probed_state.breathing_timer ∧
      s'.polling_timer = probed_state.polling_timer :=
  C24_key_backlight_timer (sample_env (fun _ => 1) 9 1) probed_state
    (touchkey_read_retry (sample_env (fun _ => 1) 9 1) 3 0 [0, 0, 0]
      (set_touchkey_debug 97 probed_state)).2.2 9 [9, 9]
    (by rfl) (by decide) (by decide)

/-! ## The fade-out ramp -/

theorem fade_volts_below (i : Int) (h : ¬ i ≥ 2500) : fade_volts i = [] := by
  unfold fade_volts
  rw [if_neg h]

theorem fade_volts_cons (i : Int) (h : i ≥ 2500) : fade_volts i = i :: fade_volts (i - 50) := by
  unfold fade_volts
  rw [if_pos h]
  by_cases h2 : i - 50 ≥ 2500
  · rw [if_pos h2]
    have e : ((i - 2500) / 50).toNat = ((i - 50 - 2500) / 50).toNat + 1 := by omega
    rw [e, List.range_succ_eq_map, List.map_cons, List.map_map]
    congr 1
    · simp
    · apply List.map_congr_left
      intro k _
      simp only [Function.comp, Nat.succ_eq_add_one, Nat.cast_add, Nat.cast_one]
      ring
  · rw [if_neg h2]
    have e : ((i - 2500) / 50).toNat = 0 := by omega
    rw [e]
    simp [List.range_succ]

/-- With enough iterations allowed, the loop of `led_fadeout` is the fold of `fade_step`
over `fade_volts`. -/
theorem led_fadeout_loop_eq (env : Env) (fuel : Nat) :
    ∀ (i : Int) (s : State), (i - 2499).toNat ≤ fuel →
      led_fadeout_loop env fuel i s = (fade_volts i).foldl (fade_step env) s := by
  induction fuel with
  | zero =>
    intro i s h
    have hi : ¬ i ≥ 2500 := by omega
    rw [fade_volts_below i hi]
    rfl
  | succ n ih =>
    intro i s h
    unfold led_fadeout_loop
    by_cases hi : i ≥ 2500
    · have hi1 : i ≥ (BREATHING_MIN_VOLT : Int) := hi
      rw [if_pos hi1, fade_volts_cons i hi, List.foldl_cons]
      exact ih (i - 50) _ (by omega)
    · have hi1 : ¬ i ≥ (BREATHING_MIN_VOLT : Int) := hi
      rw [if_neg hi1, fade_volts_below i hi]
      rfl

theorem fade_volts_length (b : Int) :
    (fade_volts b).length = if b ≥ 2500 then ((b - 2500) / 50).toNat + 1 else 0 := by
  unfold fade_volts
  split_ifs <;> simp

theorem fade_volts_get (b : Int) (k : Nat) (h : k < (fade_volts b).length) :
    (fade_volts b)[k]? = some (b - 50 * (k : Int)) := by
  unfold fade_volts at h ⊢
  split_ifs at h ⊢ with hb
  · simp only [List.length_map, List.length_range] at h
    simp [List.getElem?_map, List.getElem?_range h]
  · simp at h

theorem fade_volts_floor (b v : Int) (h : v ∈ fade_volts b) : v ≥ 2500 := by
  unfold fade_volts at h
  split_ifs at h with hb
  · simp only [List.mem_map, List.mem_range] at h
    obtain ⟨k, hk, e⟩ := h
    omega
  · simp at h

theorem fade_volts_decreasing (b : Int) : List.Pairwise (fun x y => x > y) (fade_volts b) := by
  unfold fade_volts
  split_ifs
  · rw [List.pairwise_map]
    refine List.Pairwise.imp ?_ (List.pairwise_lt_range _)
    intro x y hxy
    omega
  · exact List.Pairwise.nil

/-- C26: for every value `b` of `led_brightness`, `led_fadeout` is: call
`change_touch_key_led_voltage(v)` followed by `msleep(50)` for each `v` of `fade_volts b` in
order, then call `disable_touchkey_backlights` once.  The loop is never cut short by the
iteration bound of the model, and any larger bound gives the same result.  `fade_volts b`
has `floor((b - 2500) / 50) + 1` entries when `b >= 2500` and none when `b < 2500`; its
entry number `k` is `b - 50 k`; the entries are strictly decreasing and all at least
2500. -/
theorem C26_fadeout_ramp (env : Env) (s : State) :
    led_fadeout env s = disable_touchkey_backlights env
      ((fade_volts s.led_brightness).foldl (fade_step env) s) ∧
    (∀ fuel : Nat, (s.led_brightness - 2499).toNat ≤ fuel →
      led_fadeout_loop env fuel s.led_brightness s
        = (fade_volts s.led_brightness).foldl (fade_step env) s) ∧
    (fade_volts s.led_brightness).length
      = (if s.led_brightness ≥ 2500 then ((s.led_brightness - 2500) / 50).toNat + 1 else 0) ∧
    (∀ k : Nat, k < (fade_volts s.led_brightness).length →
      (fade_volts s.led_brightness)[k]? = some (s.led_brightness - 50 * (k : Int))) ∧
    List.Pairwise (fun x y => x > y) (fade_volts s.led_brightness) ∧
    ∀ v ∈ fade_volts s.led_brightness, v ≥ 2500 := by
  refine ⟨?_, fun fuel h => led_fadeout_loop_eq env fuel _ s h, fade_volts_length _,
    fun k h => fade_volts_get _ k h, fade_volts_decreasing _, fun v h => fade_volts_floor _ v h⟩
  unfold led_fadeout
  rw [led_fadeout_loop_eq env _ _ s (le_refl _)]

theorem C26_fadeout_ramp_witness :
    fade_volts dim_state.led_brightness = [2600, 2550, 2500] ∧
    led_fadeout (sample_env (fun _ => 1) 0 0) dim_state
      = disable_touchkey_backlights (sample_env (fun _ => 1) 0 0)
          ((fade_volts dim_state.led_brightness).foldl
            (fade_step (sample_env (fun _ => 1) 0 0)) dim_state) ∧
    led_fadeout_loop (sample_env (fun _ => 1) 0 0) 1000 dim_state.led_brightness dim_state
      = (fade_volts dim_state.led_brightness).foldl
          (fade_step (sample_env (fun _ => 1) 0 0)) dim_state :=
  ⟨by decide, (C26_fadeout_ramp (sample_env (fun _ => 1) 0 0) dim_state).1,
    (C26_fadeout_ramp (sample_env (fun _ => 1) 0 0) dim_state).2.1 1000 (by decide)⟩

/-! ## Effect phase after Activate -/

/-- C23 fails for blinking.  From the probed state: notifications and blinking are enabled;
the first Activate and one effect tick leave `blink_on = false`; Deactivate and a second
Activate follow.  After that Activate `notification_enabled > 0`, blinking is enabled,
`led_on = 1` and the Effect timer is pending, but `blink_on` is still false, and the next
effect tick puts the backlight-off command (one byte, 2) on the bus instead of the
backlight-on command.  With breathing enabled instead, the same sequence ends with
`breathe_in = true` and `breathe_volt = breathe.min`. -/
theorem C23_blink_phase_not_reset :
    (run (sample_env (fun _ => 1) 0 0) (blink_twice.take 4) booted_state).map
      (fun s => s.blink_on) = some false ∧
    (run (sample_env (fun _ => 1) 0 0) blink_twice booted_state).map
      (fun s => (decide (s.notification_enabled > 0), s.blinking_enabled, s.led_on,
        s.breathing_timer.pending, s.blink_on)) = some (true, true, 1, true, false) ∧
    (run (sample_env (fun _ => 1) 0 0) (blink_twice ++ [Op.breathing_timer_action])
      booted_state).map (fun s => s.trace.getLast?)
      = some (some (Ev.i2c_transfer I2C_M_WR 1 [2] 1)) ∧
    (run (sample_env (fun _ => 1) 0 0)
      [Op.notification_enabled_write (some 1), Op.enable_breathing_write (some 1),
        Op.led_status_write (some ENABLE_BL), Op.breathing_timer_action,
        Op.led_status_write (some DISABLE_BL), Op.led_status_write (some ENABLE_BL)]
      booted_state).map
      (fun s => (s.breathe_in, decide (s.breathe_volt = s.breathe.min)))
      = some (true, true) := by
  refine ⟨by rfl, by rfl, by rfl, by rfl⟩

/-! ## Interrupt depth across suspend and resume -/

theorem HwStep.frame_irq {s1 s2 : State} (h : HwStep s1 s2) : Frame irq_erase s1 s2 := by
  obtain ⟨t, x, j, r1, r2, u, e⟩ := h
  rw [e]
  rfl

theorem Frame.irq_fields {s1 s2 : State} (h : Frame irq_erase s1 s2) :
    s2.irq_depth = s1.irq_depth ∧ s2.touchkey_work_queued = s1.touchkey_work_queued := by
  have h1 := congrArg State.irq_depth h
  have h2 := congrArg State.touchkey_work_queued h
  exact ⟨h1, h2⟩

theorem Frame.of_irq_fields {a b : State} (h1 : b.irq_depth = a.irq_depth)
    (h2 : b.touchkey_work_queued = a.touchkey_work_queued) : Frame irq_erase a b := by
  unfold Frame irq_erase
  rw [h1, h2]

theorem early_suspend_quiesce_eq (env : Env) (s : State) :
    early_suspend_quiesce env s = set_touchkey_debug 83
      { release_keys env (cancel_key_work (disable_irq s)) with touchkey_enable := 0 } := rfl

theorem cancel_key_work_irq (s : State) :
    (cancel_key_work s).irq_depth = (if s.touchkey_work_queued then s.irq_depth - 1
      else s.irq_depth) ∧
    (cancel_key_work s).touchkey_work_queued = false := by
  unfold cancel_key_work
  simp only []
  split_ifs <;> exact ⟨rfl, rfl⟩

theorem sec_touchkey_early_suspend_irq (env : Env) (s : State) :
    (sec_touchkey_early_suspend env s).irq_depth
      = (if s.touchkey_work_queued then s.irq_depth + 1 - 1 else s.irq_depth + 1) ∧
    (sec_touchkey_early_suspend env s).touchkey_work_queued = false := by
  obtain ⟨q1, -, -⟩ := early_suspend_quiesce_proj env s
  rw [sec_touchkey_early_suspend_eq, early_suspend_power_eq env _ q1]
  have hw := (((emit_hw (Ev.gpio_direction_input Gpio.TOUCH_INT)
    (early_suspend_quiesce env s)).seq (touchkey_led_ldo_on_hw env false _)).seq
    (touchkey_ldo_on_hw env false _)).frame_irq.irq_fields
  have c := cancel_key_work_irq (disable_irq s)
  have r := (release_keys_hw env (cancel_key_work (disable_irq s))).frame_irq.irq_fields
  have e := early_suspend_quiesce_eq env s
  generalize early_suspend_quiesce env s = Q at *
  generalize release_keys env (cancel_key_work (disable_irq s)) = R at *
  generalize cancel_key_work (disable_irq s) = C at *
  subst e
  refine ⟨hw.1.trans (r.1.trans c.1), hw.2.trans (r.2.trans c.2)⟩

theorem sec_touchkey_late_resume_eq (env : Env) (s : State) (hs : s.enable_sem ≠ 0) :
    sec_touchkey_late_resume env s =
      if (touchkey_ldo_on env true (acquired (set_touchkey_debug 82 s))).touchkey_enable < 0 then
        some (touchkey_ldo_on env true (acquired (set_touchkey_debug 82 s)))
      else
        some (up (late_resume_backlight env (late_resume_notification (late_resume_pins env
          (touchkey_ldo_on env true (acquired (set_touchkey_debug 82 s))))))) := by
  have hs0 : (set_touchkey_debug 82 s).enable_sem ≠ 0 := hs
  unfold sec_touchkey_late_resume
  simp only [down_eq (set_touchkey_debug 82 s) hs0]

theorem late_resume_pins_irq (env : Env) (s : State) :
    Frame irq_erase s (late_resume_pins env s) := by
  have e : ∀ (x : Ev) (t : State), HwStep t (emit x t) := fun x t => emit_hw x t
  have h7 := ((((((e (Ev.gpio_direction_output Gpio.TOUCH_EN 1) s).seq
    (e (Ev.gpio_direction_output Gpio.TOUCH_SDA_28V 1) _)).seq
    (e (Ev.gpio_direction_output Gpio.TOUCH_SCL_28V 1) _)).seq
    (e (Ev.gpio_direction_output Gpio.TOUCH_INT 1) _)).seq
    (e Ev.irq_set_irq_type _)).seq
    (e (Ev.s3c_gpio_cfgpin Gpio.TOUCH_INT) _)).seq
    (e (Ev.s3c_gpio_setpull Gpio.TOUCH_INT) _)
  have g1 := h7.frame_irq.irq_fields
  have g2 : (late_resume_gpio s).irq_depth = (emit (Ev.s3c_gpio_setpull Gpio.TOUCH_INT)
      (emit (Ev.s3c_gpio_cfgpin Gpio.TOUCH_INT) (emit Ev.irq_set_irq_type
      (emit (Ev.gpio_direction_output Gpio.TOUCH_INT 1)
      (emit (Ev.gpio_direction_output Gpio.TOUCH_SCL_28V 1)
      (emit (Ev.gpio_direction_output Gpio.TOUCH_SDA_28V 1)
      (emit (Ev.gpio_direction_output Gpio.TOUCH_EN 1) s))))))).irq_depth := rfl
  have g3 : (late_resume_gpio s).touchkey_work_queued
      = (emit (Ev.s3c_gpio_setpull Gpio.TOUCH_INT)
      (emit (Ev.s3c_gpio_cfgpin Gpio.TOUCH_INT) (emit Ev.irq_set_irq_type
      (emit (Ev.gpio_direction_output Gpio.TOUCH_INT 1)
      (emit (Ev.gpio_direction_output Gpio.TOUCH_SCL_28V 1)
      (emit (Ev.gpio_direction_output Gpio.TOUCH_SDA_28V 1)
      (emit (Ev.gpio_direction_output Gpio.TOUCH_EN 1) s))))))).touchkey_work_queued := rfl
  have c := (late_resume_calibrate_hw env (late_resume_gpio s)).frame_irq.irq_fields
  have p := late_resume_pins_eq env s
  generalize late_resume_pins env s = P at *
  generalize late_resume_calibrate env (late_resume_gpio s) = C at *
  generalize late_resume_gpio s = G at *
  generalize (emit (Ev.s3c_gpio_setpull Gpio.TOUCH_INT)
      (emit (Ev.s3c_gpio_cfgpin Gpio.TOUCH_INT) (emit Ev.irq_set_irq_type
      (emit (Ev.gpio_direction_output Gpio.TOUCH_INT 1)
      (emit (Ev.gpio_direction_output Gpio.TOUCH_SCL_28V 1)
      (emit (Ev.gpio_direction_output Gpio.TOUCH_SDA_28V 1)
      (emit (Ev.gpio_direction_output Gpio.TOUCH_EN 1) s))))))) = E at *
  subst p
  have i1 : C.irq_depth = s.irq_depth := c.1.trans (g2.trans g1.1)
  have i2 : C.touchkey_work_queued = s.touchkey_work_queued := c.2.trans (g3.trans g1.2)
  exact Frame.of_irq_fields i1 i2

theorem late_resume_notification_irq (s : State) :
    Frame irq_erase s (late_resume_notification s) := by
  unfold late_resume_notification
  simp only []
  split_ifs <;> rfl

theorem late_resume_backlight_irq (env : Env) (s : State) :
    (late_resume_backlight env s).irq_depth = s.irq_depth - 1 ∧
    (late_resume_backlight env s).touchkey_work_queued = s.touchkey_work_queued := by
  have h1 : Frame irq_erase s (if s.led_timeout ≠ BL_ALWAYS_OFF then
      change_touch_key_led_voltage env s.led_brightness
        (enable_touchkey_backlights env (touchkey_led_ldo_on env true s))
      else disable_touchkey_backlights env s) := by
    split_ifs
    all_goals first
      | exact (disable_touchkey_backlights_hw env s).frame_irq
      | exact (((touchkey_led_ldo_on_hw env true s).seq
          (enable_touchkey_backlights_hw env _)).seq
          (change_touch_key_led_voltage_hw env _ _)).frame_irq
  have h2 : ∀ (t : State) (x : Nat), Frame irq_erase t
      (if t.led_timeout > 0 then { t with led_timer := mod_timer t.led_timer x } else t) := by
    intro t x
    split_ifs <;> rfl
  have h3 : ∀ t : State, Frame irq_erase t
      (if t.breathing_enabled ∨ t.blinking_enabled then
        { t with breathing_timer := del_timer t.breathing_timer }
      else t) := by
    intro t
    split_ifs <;> rfl
  have hY : ∃ Y, late_resume_backlight env s = enable_irq Y ∧ Frame irq_erase s Y := by
    refine ⟨_, rfl, ?_⟩
    exact (h1.comp (h2 _ _)).comp (h3 _)
  obtain ⟨Y, e, f⟩ := hY
  rw [e]
  have h := f.irq_fields
  have k : (enable_irq Y).irq_depth = Y.irq_depth - 1 ∧
      (enable_irq Y).touchkey_work_queued = Y.touchkey_work_queued := ⟨rfl, rfl⟩
  exact ⟨k.1.trans (by rw [h.1]), k.2.trans h.2⟩

/-- C30: in every state where the disable depth of the key interrupt is 1 with the key work
queued or 0 with it not queued (and `enable_sem` is free, so that the resume returns),
`sec_touchkey_early_suspend` leaves the depth at 1 with no key work queued, and a
`sec_touchkey_late_resume` that follows returns with the depth at 0 and no key work
queued. -/
theorem C30_irq_depth_suspend_resume (env : Env) (s : State)
    (hd : s.irq_depth = if s.touchkey_work_queued then 1 else 0) (hs : s.enable_sem ≠ 0) :
    (sec_touchkey_early_suspend env s).irq_depth = 1 ∧
    (sec_touchkey_early_suspend env s).touchkey_work_queued = false ∧
    ∃ s2, sec_touchkey_late_resume env (sec_touchkey_early_suspend env s) = some s2 ∧
      s2.irq_depth = 0 ∧ s2.touchkey_work_queued = false := by
  obtain ⟨i1, i2⟩ := sec_touchkey_early_suspend_irq env s
  obtain ⟨g1, g2⟩ := sec_touchkey_early_suspend_gate env s
  have d1 : (sec_touchkey_early_suspend env s).irq_depth = 1 := by
    rw [i1, hd]
    split_ifs <;> rfl
  have hs1 : (sec_touchkey_early_suspend env s).enable_sem ≠ 0 := by rw [g2]; exact hs
  refine ⟨d1, i2, ?_⟩
  generalize sec_touchkey_early_suspend env s = t at *
  have a : Frame irq_erase t (touchkey_ldo_on env true (acquired (set_touchkey_debug 82 t))) :=
    Frame.comp (b := acquired (set_touchkey_debug 82 t)) rfl
      (touchkey_ldo_on_hw env true _).frame_irq
  have ak := (touchkey_ldo_on_hw env true (acquired (set_touchkey_debug 82 t))).field
    State.touchkey_enable (fun _ _ _ _ _ _ _ => rfl)
  have ak1 : (touchkey_ldo_on env true (acquired (set_touchkey_debug 82 t))).touchkey_enable
      = 0 := ak.trans g1
  rw [sec_touchkey_late_resume_eq env t hs1, if_neg (by rw [ak1]; decide)]
  have f := ((a.comp (late_resume_pins_irq env _)).comp
    (late_resume_notification_irq _)).irq_fields
  obtain ⟨b1, b2⟩ := late_resume_backlight_irq env (late_resume_notification
    (late_resume_pins env (touchkey_ldo_on env true (acquired (set_touchkey_debug 82 t)))))
  refine ⟨_, rfl, ?_, ?_⟩
  · show (late_resume_backlight env (late_resume_notification (late_resume_pins env
      (touchkey_ldo_on env true (acquired (set_touchkey_debug 82 t)))))).irq_depth = 0
    rw [b1, f.1, d1]
  · show (late_resume_backlight env (late_resume_notification (late_resume_pins env
      (touchkey_ldo_on env true (acquired (set_touchkey_debug 82 t)))))).touchkey_work_queued
      = false
    rw [b2, f.2, i2]

theorem C30_irq_depth_suspend_resume_witness :
    key_pending_state.irq_depth = 1 ∧ key_pending_state.touchkey_work_queued = true ∧
    (sec_touchkey_early_suspend (sample_env (fun _ => 1) 0 0) key_pending_state).irq_depth = 1 ∧
    (sec_touchkey_early_suspend (sample_env (fun _ => 1) 0 0)
      key_pending_state).touchkey_work_queued = false ∧
    ∃ s2, sec_touchkey_late_resume (sample_env (fun _ => 1) 0 0)
        (sec_touchkey_early_suspend (sample_env (fun _ => 1) 0 0) key_pending_state) = some s2 ∧
      s2.irq_depth = 0 ∧ s2.touchkey_work_queued = false :=
  ⟨rfl, rfl, C30_irq_depth_suspend_resume (sample_env (fun _ => 1) 0 0) key_pending_state
    rfl (by decide)⟩

/-! ## Regulator calls and the gate -/

theorem regs_under_sem_cons (n : Nat) (e : Ev) (l : List Ev) (h : Ev.not_gate e = true) :
    regs_under_sem n (e :: l)
      = ((!e.is_regulator || decide (0 < n)) && regs_under_sem n l) := by
  cases e <;> first | rfl | exact absurd h (by decide)

/-- Events without `down` and `up` emitted while the semaphore is held pass the check. -/
theorem regs_under_sem_append (l : List Ev) (hl : ∀ e ∈ l, Ev.not_gate e = true) (n : Nat)
    (hn : 0 < n) (r : List Ev) : regs_under_sem n (l ++ r) = regs_under_sem n r := by
  induction l with
  | nil => rfl
  | cons e t ih =>
    have he := hl e (List.mem_cons_self _ _)
    rw [List.cons_append, regs_under_sem_cons n e _ he,
      ih (fun x hx => hl x (List.mem_cons_of_mem _ hx))]
    simp [hn]

theorem regs_under_sem_bracket (l : List Ev) (hl : ∀ e ∈ l, Ev.not_gate e = true) :
    regs_under_sem 0 (Ev.down :: l ++ [Ev.up]) = true := by
  show regs_under_sem 1 (l ++ [Ev.up]) = true
  rw [regs_under_sem_append l hl 1 Nat.one_pos]
  rfl

theorem regs_under_sem_open (l : List Ev) (hl : ∀ e ∈ l, Ev.not_gate e = true) :
    regs_under_sem 0 (Ev.down :: l) = true := by
  show regs_under_sem 1 l = true
  have h := regs_under_sem_append l hl 1 Nat.one_pos []
  rw [List.append_nil] at h
  rw [h]
  rfl

/-- A regulator call among events without `down` fails the check. -/
theorem regs_under_sem_outside (l : List Ev) (hl : ∀ e ∈ l, Ev.not_gate e = true) (x : Ev)
    (hx : x ∈ l) (hr : x.is_regulator = true) : regs_under_sem 0 l = false := by
  induction l with
  | nil => cases hx
  | cons e t ih =>
    have he := hl e (List.mem_cons_self _ _)
    rw [regs_under_sem_cons 0 e _ he]
    rcases List.mem_cons.mp hx with h | h
    · subst h
      simp [hr]
    · rw [ih (fun y hy => hl y (List.mem_cons_of_mem _ hy)) h]
      simp

theorem led_disable_timers_ungated (s : State) :
    TraceExt Ev.not_gate s (led_disable_timers s) := by
  unfold led_disable_timers
  simp only []
  split_ifs
  all_goals first
    | exact ⟨[Ev.wake_unlock], rfl, by simp [Ev.not_gate]⟩
    | exact TraceExt.of_trace_eq _ _ _ rfl

theorem led_disable_power_ungated (env : Env) (s : State) :
    TraceExt Ev.not_gate s (led_disable_power env s) := by
  have h0 : TraceExt Ev.not_gate s { disable_touchkey_backlights env s with led_on := 0 } :=
    (i2c_touchkey_write_ungated env [2] 1 s).trans (TraceExt.of_trace_eq _ _ _ rfl)
  rw [led_disable_power_eq]
  split_ifs
  · exact h0.trans ((touchkey_led_ldo_on_ungated env false _).trans
      ((touchkey_ldo_on_ungated env false _).trans (TraceExt.of_trace_eq _ _ _ rfl)))
  · exact h0

theorem led_status_write_disable_ungated (env : Env) (s : State) :
    TraceExt Ev.not_gate s (led_status_write_disable env s) := by
  rw [led_status_write_disable_eq]
  split_ifs
  · exact (led_disable_power_ungated env s).trans (led_disable_timers_ungated _)
  · exact TraceExt.refl _ _

/-- Deactivate with the gate free: its events are `down`, events without `down` and `up`,
then `up`. -/
theorem led_deactivate_bracket (env : Env) (s : State) (hs : s.enable_sem ≠ 0) :
    ∃ s' l, led_status_write env (some DISABLE_BL) s = some s' ∧
      s'.trace = s.trace ++ Ev.down :: l ++ [Ev.up] ∧ ∀ e ∈ l, Ev.not_gate e = true := by
  obtain ⟨l, e, hl⟩ := led_status_write_disable_ungated env (acquired s)
  refine ⟨_, l, led_status_write_deactivate env s hs, ?_, hl⟩
  show (led_status_write_disable env (acquired s)).trace ++ [Ev.up] = _
  rw [e]
  show s.trace ++ [Ev.down] ++ l ++ [Ev.up] = _
  simp

/-- Late resume with the gate free: all its regulator calls come after its `down` and before
its `up`, also when it returns through `touchkey_enable < 0`. -/
theorem sec_touchkey_late_resume_under_sem (env : Env) (s : State) (hs : s.enable_sem ≠ 0) :
    ∃ s' l, sec_touchkey_late_resume env s = some s' ∧ s'.trace = s.trace ++ l ∧
      regs_under_sem 0 l = true := by
  by_cases he : 0 ≤ s.touchkey_enable
  · obtain ⟨s', e, ⟨l, t, hl⟩, -, -⟩ := sec_touchkey_late_resume_balanced env s he hs
    exact ⟨s', Ev.down :: l ++ [Ev.up], e, by rw [t]; simp, regs_under_sem_bracket l hl⟩
  · have hk := (touchkey_ldo_on_hw env true (acquired (set_touchkey_debug 82 s))).field
      State.touchkey_enable (fun _ _ _ _ _ _ _ => rfl)
    have hk1 : (touchkey_ldo_on env true (acquired (set_touchkey_debug 82 s))).touchkey_enable
        < 0 := by
      rw [hk]
      exact not_le.mp he
    obtain ⟨l, t, hl⟩ := touchkey_ldo_on_ungated env true (acquired (set_touchkey_debug 82 s))
    rw [sec_touchkey_late_resume_eq env s hs, if_pos hk1]
    refine ⟨_, Ev.down :: l, rfl, ?_, regs_under_sem_open l hl⟩
    rw [t]
    show s.trace ++ [Ev.down] ++ l = _
    simp

theorem release_keys_ungated (env : Env) (s : State) :
    TraceExt Ev.not_gate s (release_keys env s) := by
  unfold release_keys
  generalize (touchkey_keycode env).drop 1 = l
  induction l generalizing s with
  | nil => exact TraceExt.refl _ _
  | cons c r ih => exact (TraceExt.emit _ _ s rfl).trans (ih _)

theorem cancel_key_work_ungated (s : State) : TraceExt Ev.not_gate s (cancel_key_work s) := by
  unfold cancel_key_work
  simp only []
  split_ifs
  · exact ⟨[Ev.cancel_work_sync, Ev.enable_irq],
      by show s.trace ++ [_] ++ [_] = _; simp, by simp [Ev.not_gate]⟩
  · exact ⟨[Ev.cancel_work_sync], rfl, by simp [Ev.not_gate]⟩

/-- Early suspend never calls `down` or `up`. -/
theorem sec_touchkey_early_suspend_ungated (env : Env) (s : State) :
    TraceExt Ev.not_gate s (sec_touchkey_early_suspend env s) := by
  obtain ⟨q1, -, -⟩ := early_suspend_quiesce_proj env s
  have h0 : TraceExt Ev.not_gate s (disable_irq s) :=
    ⟨[Ev.disable_irq], rfl, by simp [Ev.not_gate]⟩
  have hq : TraceExt Ev.not_gate s (early_suspend_quiesce env s) := by
    rw [early_suspend_quiesce_eq]
    exact ((h0.trans (cancel_key_work_ungated _)).trans (release_keys_ungated env _)).trans
      (TraceExt.of_trace_eq _ _ _ rfl)
  rw [sec_touchkey_early_suspend_eq, early_suspend_power_eq env _ q1]
  exact hq.trans ((((TraceExt.emit Ev.not_gate (Ev.gpio_direction_input Gpio.TOUCH_INT) _
    rfl).trans (touchkey_led_ldo_on_ungated env false _)).trans
    (touchkey_ldo_on_ungated env false _)).trans (TraceExt.of_trace_eq _ _ _ rfl))

theorem touchkey_ldo_on_off_trace (env : Env) (s : State)
    (hg : env.regulator_get Regulator.touch = true) (he : s.touch_regulator = true) :
    (touchkey_ldo_on env false s).trace
      = s.trace ++ [Ev.regulator_force_disable Regulator.touch] := by
  unfold touchkey_ldo_on
  have he' : regulator_is_enabled Regulator.touch s = true := he
  simp only [hg, he', Bool.false_eq_true, if_false, Bool.not_true, if_true]
  rfl

/-- Early suspend force-disables the touch regulator when it is available and enabled. -/
theorem early_suspend_touch_rail (env : Env) (s : State)
    (hg : env.regulator_get Regulator.touch = true) (he : s.touch_regulator = true) :
    ∃ l, (sec_touchkey_early_suspend env s).trace = s.trace ++ l ∧
      Ev.regulator_force_disable Regulator.touch ∈ l := by
  obtain ⟨q1, -, q3⟩ := early_suspend_quiesce_proj env s
  obtain ⟨l0, q5, -⟩ := early_suspend_quiesce_trace_ext env s
  rw [sec_touchkey_early_suspend_eq, early_suspend_power_eq env _ q1]
  generalize early_suspend_quiesce env s = t at *
  obtain ⟨l1, h1, -⟩ := touchkey_led_ldo_on_trace_ext env false
    (emit (Ev.gpio_direction_input Gpio.TOUCH_INT) t)
  have he' : (touchkey_led_ldo_on env false
      (emit (Ev.gpio_direction_input Gpio.TOUCH_INT) t)).touch_regulator = true :=
    ((touchkey_led_ldo_on_off env _).2).trans (q3.trans he)
  have h2 := touchkey_ldo_on_off_trace env _ hg he'
  refine ⟨l0 ++ [Ev.gpio_direction_input Gpio.TOUCH_INT] ++ l1 ++
    [Ev.regulator_force_disable Regulator.touch], ?_, by simp⟩
  show (touchkey_ldo_on env false _).trace = _
  rw [h2, h1]
  show (t.trace ++ [_]) ++ l1 ++ [_] = _
  rw [q5]
  simp

/-- C21, as stated, fails for `sec_touchkey_early_suspend`: on a state with both regulators
enabled it force-disables both, and its events contain no `down` at all. -/
theorem C21_counterexample :
    lit_powered_state.trace = [] ∧
    Ev.regulator_force_disable Regulator.touch_led ∈
      (sec_touchkey_early_suspend (sample_env (fun _ => 1) 0 0) lit_powered_state).trace ∧
    Ev.regulator_force_disable Regulator.touch ∈
      (sec_touchkey_early_suspend (sample_env (fun _ => 1) 0 0) lit_powered_state).trace ∧
    Ev.down ∉
      (sec_touchkey_early_suspend (sample_env (fun _ => 1) 0 0) lit_powered_state).trace ∧
    regs_under_sem 0
      (sec_touchkey_early_suspend (sample_env (fun _ => 1) 0 0) lit_powered_state).trace
      = false := by
  refine ⟨rfl, by decide, by decide, by decide, by rfl⟩

/-- C21 amended: with `enable_sem` free, `sec_touchkey_late_resume` and the `DISABLE_BL`
branch of `led_status_write` return, and each makes its regulator calls only between its
`down(&enable_sem)` and its `up(&enable_sem)`; with `enable_sem` taken neither gets past its
`down`.  `sec_touchkey_early_suspend` never takes `enable_sem`: its events contain no `down`
and no `up`, and for each of the two regulators, when it is available and enabled, they
contain its `regulator_force_disable`, made outside the semaphore. -/
theorem C21_resume_and_deactivate_under_sem (env : Env) (s : State) (hs : s.enable_sem ≠ 0) :
    (∃ s' l, sec_touchkey_late_resume env s = some s' ∧ s'.trace = s.trace ++ l ∧
      regs_under_sem 0 l = true) ∧
    (∃ s' l, led_status_write env (some DISABLE_BL) s = some s' ∧ s'.trace = s.trace ++ l ∧
      regs_under_sem 0 l = true) ∧
    (∀ t : State, t.enable_sem = 0 → sec_touchkey_late_resume env t = none ∧
      led_status_write env (some DISABLE_BL) t = none) ∧
    ∃ l, (sec_touchkey_early_suspend env s).trace = s.trace ++ l ∧
      (∀ e ∈ l, Ev.not_gate e = true) ∧
      (env.regulator_get Regulator.touch_led = true → s.touch_led_regulator = true →
        Ev.regulator_force_disable Regulator.touch_led ∈ l ∧ regs_under_sem 0 l = false) ∧
      (env.regulator_get Regulator.touch = true → s.touch_regulator = true →
        Ev.regulator_force_disable Regulator.touch ∈ l ∧ regs_under_sem 0 l = false) := by
  refine ⟨sec_touchkey_late_resume_under_sem env s hs, ?_, ?_, ?_⟩
  · obtain ⟨s', l, e, t, hl⟩ := led_deactivate_bracket env s hs
    exact ⟨s', Ev.down :: l ++ [Ev.up], e, by rw [t]; simp, regs_under_sem_bracket l hl⟩
  · intro t ht
    have hd : down t = none := by
      unfold down
      rw [if_pos ht]
    have hd2 : down (set_touchkey_debug 82 t) = none := by
      unfold down
      rw [if_pos (show (set_touchkey_debug 82 t).enable_sem = 0 from ht)]
    have h0 : ¬ (DISABLE_BL = ENABLE_BL) := by decide
    constructor
    · unfold sec_touchkey_late_resume
      simp only [hd2]
    · simp only [led_status_write, if_neg h0, if_true, hd]
  · obtain ⟨l, t, hl⟩ := sec_touchkey_early_suspend_ungated env s
    refine ⟨l, t, hl, ?_, ?_⟩
    · intro hg hen
      obtain ⟨-, -, h3, -, -⟩ := early_suspend_led_rail env s hg
      obtain ⟨l2, t2, m2⟩ := h3 hen
      have e : l2 = l := List.append_cancel_left (t2.symm.trans t)
      subst e
      exact ⟨m2, regs_under_sem_outside l2 hl _ m2 rfl⟩
    · intro hg hen
      obtain ⟨l2, t2, m2⟩ := early_suspend_touch_rail env s hg hen
      have e : l2 = l := List.append_cancel_left (t2.symm.trans t)
      subst e
      exact ⟨m2, regs_under_sem_outside l2 hl _ m2 rfl⟩

theorem C21_resume_and_deactivate_under_sem_witness :
    (∃ s' l, sec_touchkey_late_resume (sample_env (fun _ => 1) 0 0) lit_powered_state = some s' ∧
      s'.trace = lit_powered_state.trace ++ l ∧ regs_under_sem 0 l = true) ∧
    (∃ s' l, led_status_write (sample_env (fun _ => 1) 0 0) (some DISABLE_BL) lit_powered_state
        = some s' ∧
      s'.trace = lit_powered_state.trace ++ l ∧ regs_under_sem 0 l = true) ∧
    ∃ l, (sec_touchkey_early_suspend (sample_env (fun _ => 1) 0 0) lit_powered_state).trace
        = lit_powered_state.trace ++ l ∧
      Ev.regulator_force_disable Regulator.touch_led ∈ l ∧
      Ev.regulator_force_disable Regulator.touch ∈ l ∧ regs_under_sem 0 l = false :=
  ⟨(C21_resume_and_deactivate_under_sem (sample_env (fun _ => 1) 0 0) lit_powered_state
      (by decide)).1,
    (C21_resume_and_deactivate_under_sem (sample_env (fun _ => 1) 0 0) lit_powered_state
      (by decide)).2.1,
    (C21_resume_and_deactivate_under_sem (sample_env (fun _ => 1) 0 0) lit_powered_state
      (by decide)).2.2.2.elim
      (fun l h => ⟨l, h.1, (h.2.2.1 rfl rfl).1, (h.2.2.2 rfl rfl).1, (h.2.2.1 rfl rfl).2⟩)⟩

/-! ## The wake-lock invariant: frames of the entry points -/

theorem HwStep.frame_led {s1 s2 : State} (h : HwStep s1 s2) : Frame led_erase s1 s2 := by
  obtain ⟨t, x, j, r1, r2, u, e⟩ := h
  rw [e]
  rfl

theorem Frame.led_fields {s1 s2 : State} (h : Frame led_erase s1 s2) :
    s2.led_on = s1.led_on ∧ s2.led_wake_lock = s1.led_wake_lock := by
  have h1 := congrArg State.led_on h
  have h2 := congrArg State.led_wake_lock h
  exact ⟨h1, h2⟩

theorem Frame.of_led_fields {a b : State} (h1 : b.led_on = a.led_on)
    (h2 : b.led_wake_lock = a.led_wake_lock) : Frame led_erase a b := by
  unfold Frame led_erase
  rw [h1, h2]

theorem LedInv.of_led_frame {a b : State} (h : Frame led_erase a b) (hi : LedInv a) :
    LedInv b := by
  obtain ⟨h1, h2⟩ := h.led_fields
  unfold LedInv at *
  rw [h1, h2]
  exact hi

theorem LedInv.of_on {s : State} (h1 : s.led_on = 1) (h2 : s.led_wake_lock = true) :
    LedInv s :=
  ⟨fun _ => h1, fun _ => h2⟩

theorem LedInv.of_off {s : State} (h1 : s.led_on = 0) (h2 : s.led_wake_lock = false) :
    LedInv s := by
  unfold LedInv
  rw [h1, h2]
  decide

theorem touch_update_write_led (buf0 : Nat) (s : State) :
    Frame led_erase s (touch_update_write buf0 s) := by
  unfold touch_update_write
  split_ifs <;> rfl

theorem set_touchkey_update_loop_led (issp : Nat → Int) (retry n : Nat) (s : State) :
    Frame led_erase s (set_touchkey_update_loop issp retry n s).2 := by
  induction retry generalizing n s with
  | zero => rfl
  | succ k ih =>
    unfold set_touchkey_update_loop
    simp only []
    split_ifs
    · rfl
    · exact Frame.comp (b := emit (Ev.ISSP_main (issp n)) s) rfl (ih _ _)

theorem set_touchkey_update_show_led (env : Env) (issp : Nat → Int) (s : State) :
    Frame led_erase s (set_touchkey_update_show env issp s) := by
  unfold set_touchkey_update_show
  have h := set_touchkey_update_loop_led issp 3 0 { s with touchkey_update_status := 1 }
  have h0 : Frame led_erase s
      (set_touchkey_update_loop issp 3 0 { s with touchkey_update_status := 1 }).2 :=
    Frame.comp (b := { s with touchkey_update_status := 1 }) rfl h
  simp only []
  generalize (set_touchkey_update_loop issp 3 0 { s with touchkey_update_status := 1 }) = r at *
  obtain ⟨retry, t⟩ := r
  simp only []
  split_ifs
  · exact h0.comp (Frame.comp (b := msleep env 300 (touchkey_ldo_on env false t))
      ((touchkey_ldo_on_hw env false t).seq (msleep_hw env 300 _)).frame_led rfl)
  · exact h0.comp (init_hw_hw env t).frame_led

theorem led_timeout_write_led (env : Env) (data : Option Int) (s : State) :
    Frame led_erase s (led_timeout_write env data s) := by
  unfold led_timeout_write
  cases data with
  | none =>
    simp only []
    split_ifs
    · exact (touchkey_led_ldo_on_hw env false s).frame_led
    · exact (touchkey_led_ldo_on_hw env true s).frame_led
  | some d =>
    simp only []
    split_ifs
    · exact Frame.comp (b := { s with led_timeout := d }) rfl
        (touchkey_led_ldo_on_hw env false _).frame_led
    · exact Frame.comp (b := { s with led_timeout := d }) rfl
        (touchkey_led_ldo_on_hw env true _).frame_led

theorem brightness_control_led (env : Env) (data : Option Int) (s : State) :
    Frame led_erase s (brightness_control env data s) := by
  cases data with
  | none => rfl
  | some d =>
    exact Frame.comp (b := change_touch_key_led_voltage env d s)
      (change_touch_key_led_voltage_hw env d s).frame_led rfl

theorem enable_breathing_write_led (data : Option Nat) (s : State) :
    Frame led_erase s (enable_breathing_write data 0 s).2 := by
  unfold enable_breathing_write
  cases data with
  | none => rfl
  | some d =>
    simp only []
    split_ifs <;> rfl

theorem enable_blinking_write_led (data : Option Nat) (s : State) :
    Frame led_erase s (enable_blinking_write data 0 s).2 := by
  unfold enable_blinking_write
  cases data with
  | none => rfl
  | some d =>
    simp only []
    split_ifs <;> rfl

theorem notification_timeout_write_led (ret : Int) (d0 d1 d2 : Nat) (s : State) :
    Frame led_erase s (notification_timeout_write ret d0 d1 d2 0 s).2 := by
  have a : ∀ t : State, Frame led_erase t
      (if d1 = 0 ∨ d1 = 1 then
        { t with notification_persistent := (if d1 ≠ 0 then true else false) }
      else t) := by
    intro t
    by_cases h : d1 = 0 ∨ d1 = 1
    · rw [if_pos h]; rfl
    · rw [if_neg h]; rfl
  have b : ∀ t : State, Frame led_erase t
      (if d2 = 0 ∨ d2 = 1 then { t with notification_renew := (if d2 ≠ 0 then true else false) }
      else t) := by
    intro t
    by_cases h : d2 = 0 ∨ d2 = 1
    · rw [if_pos h]; rfl
    · rw [if_neg h]; rfl
  unfold notification_timeout_write
  by_cases h : ret < 0 ∨ ret > 3
  · rw [if_pos h]; rfl
  · rw [if_neg h]
    have c : ∀ v : Int, Frame led_erase s { s with notification_timeout := v } :=
      fun _ => rfl
    exact (c _).comp ((a _).comp (b _))

theorem led_fadeout_write_led (data : Option Nat) (s : State) :
    Frame led_erase s (led_fadeout_write data 0 s).2 := by
  unfold led_fadeout_write
  cases data with
  | none => rfl
  | some d =>
    simp only []
    split_ifs <;> rfl

theorem timer_expires_led (t : TimerId) (s : State) :
    Frame led_erase s (timer_expires t s) := by
  cases t <;> rfl

theorem breathing_config_write_led (data : Option Breathing) (s : State) :
    Frame led_erase s (breathing_config_write data 0 s).2 := by
  cases data <;> rfl

theorem blinking_config_write_led (data : Option Blinking) (s : State) :
    Frame led_erase s (blinking_config_write data 0 s).2 := by
  cases data <;> rfl

theorem notification_enabled_write_led (data : Option Int) (s : State) :
    Frame led_erase s (notification_enabled_write data s) := by
  cases data <;> rfl

theorem check_battery_write_led (data : Option (Nat × Nat)) (s : State) :
    Frame led_erase s (check_battery_write data 0 s).2 := by
  cases data <;> rfl

theorem polling_timer_action_led (env : Env) (s : State) :
    Frame led_erase s (polling_timer_action env s) := by
  unfold polling_timer_action
  simp only []
  split_ifs <;> rfl

theorem enable_bln_charging_led (status : Int) (s : State) :
    Frame led_erase s (enable_bln_charging status s) := by
  unfold enable_bln_charging
  split_ifs <;> rfl

theorem notification_enabled_charging_write_led (ret : Int) (data : Nat) (s : State) :
    Frame led_erase s (notification_enabled_charging_write ret data 0 s).2 := by
  unfold notification_enabled_charging_write
  simp only []
  split_ifs <;> rfl

theorem late_resume_backlight_led (env : Env) (s : State) :
    Frame led_erase s (late_resume_backlight env s) := by
  have h1 : Frame led_erase s (if s.led_timeout ≠ BL_ALWAYS_OFF then
      change_touch_key_led_voltage env s.led_brightness
        (enable_touchkey_backlights env (touchkey_led_ldo_on env true s))
      else disable_touchkey_backlights env s) := by
    split_ifs
    all_goals first
      | exact (disable_touchkey_backlights_hw env s).frame_led
      | exact (((touchkey_led_ldo_on_hw env true s).seq
          (enable_touchkey_backlights_hw env _)).seq
          (change_touch_key_led_voltage_hw env _ _)).frame_led
  have h2 : ∀ (t : State) (x : Nat), Frame led_erase t
      (if t.led_timeout > 0 then { t with led_timer := mod_timer t.led_timer x } else t) := by
    intro t x
    split_ifs <;> rfl
  have h3 : ∀ t : State, Frame led_erase t
      (if t.breathing_enabled ∨ t.blinking_enabled then
        { t with breathing_timer := del_timer t.breathing_timer }
      else t) := by
    intro t
    split_ifs <;> rfl
  have h4 : ∀ t : State, Frame led_erase t (enable_irq t) := fun _ => rfl
  exact ((h1.comp (h2 _ _)).comp (h3 _)).comp (h4 _)

theorem Frame.eff_to_led {s1 s2 : State} (h : Frame eff_erase s1 s2) : Frame led_erase s1 s2 :=
  h.keeps led_erase (fun _ => rfl)

theorem Frame.key_to_led {s1 s2 : State} (h : Frame key_erase s1 s2) : Frame led_erase s1 s2 :=
  h.keeps led_erase (fun _ => rfl)

theorem Frame.pm_to_led {s1 s2 : State} (h : Frame pm_erase s1 s2) : Frame led_erase s1 s2 :=
  h.keeps led_erase (fun _ => rfl)

theorem touchkey_update_loop_led (env : Env) (issp : Nat → Int) (retry n : Nat) (s : State) :
    Frame led_erase s (touchkey_update_loop env issp retry n s) := by
  induction retry generalizing n s with
  | zero => rfl
  | succ k ih =>
    unfold touchkey_update_loop
    simp only []
    split_ifs
    · have h := ((emit_hw (Ev.ISSP_main (issp n)) s).seq (init_hw_hw env _)).frame_led
      exact h.comp rfl
    · have h := ((((emit_hw (Ev.ISSP_main (issp n)) s).seq (touchkey_ldo_on_hw env false _)).seq
        (msleep_hw env 300 _)).seq (init_hw_hw env _)).frame_led
      exact h.comp (ih _ _)
    · exact (emit_hw (Ev.ISSP_main (issp n)) s).frame_led.comp (ih _ _)

theorem touchkey_update_func_led (env : Env) (issp : Nat → Int) (s : State) :
    Frame led_erase s (touchkey_update_func env issp s) := by
  unfold touchkey_update_func
  simp only []
  have hr : Frame led_erase s (if env.CONFIG_TARGET_LOCALE_NAATT = true then
      (i2c_touchkey_read env KEYCODE_REG [0, 0, 0] 3
        { s with touch_update_work_queued := false }).2.2
      else { s with touch_update_work_queued := false }) := by
    split_ifs
    · exact Frame.comp (b := { s with touch_update_work_queued := false }) rfl
        (i2c_touchkey_read_hw env KEYCODE_REG [0, 0, 0] 3 _).frame_led
    · rfl
  generalize (if env.CONFIG_TARGET_LOCALE_NAATT = true then
      (i2c_touchkey_read env KEYCODE_REG [0, 0, 0] 3
        { s with touch_update_work_queued := false }).2.2
      else { s with touch_update_work_queued := false }) = t at *
  have hu : Frame led_erase t { t with touchkey_update_status := 1, touchkey_enable := 0 } := rfl
  exact (hr.comp hu).comp (touchkey_update_loop_led env issp 10 0 _)

theorem led_status_write_enable_led (env : Env) (s : State) (h : LedInv s) :
    LedInv (led_status_write_enable env s) := by
  rw [led_status_write_enable_eq]
  split_ifs
  · refine LedInv.of_on (led_activate_led_on env s) ?_
    have h3 : (led_enable_timers env (led_enable_effect env (led_enable_power env s))).led_wake_lock
        = (led_enable_effect env (led_enable_power env s)).led_wake_lock := by
      rw [led_enable_timers_eq]
    rw [h3, (led_enable_effect_frame env _).keeps State.led_wake_lock (fun _ => rfl)]
    exact led_enable_power_wake_lock env s
  · exact h

theorem led_status_write_disable_led (env : Env) (s : State) (h : LedInv s) :
    LedInv (led_status_write_disable env s) := by
  rw [led_status_write_disable_eq]
  split_ifs
  · refine LedInv.of_off ?_ (led_disable_timers_wake_lock _)
    rw [(led_disable_timers_frame _).keeps State.led_on (fun _ => rfl)]
    exact led_disable_power_led_on env s
  · exact h

theorem led_status_write_led (env : Env) (data : Option Nat) (s s1 : State)
    (e : led_status_write env data s = some s1) (h : LedInv s) : LedInv s1 := by
  cases data with
  | none =>
    have e1 : some s = some s1 := e
    cases e1
    exact h
  | some d =>
    by_cases h1 : d = ENABLE_BL
    · simp only [led_status_write, if_pos h1] at e
      cases e
      exact led_status_write_enable_led env s h
    · by_cases h0 : d = DISABLE_BL
      · by_cases hs : s.enable_sem = 0
        · have hd : down s = none := by
            unfold down
            rw [if_pos hs]
          simp only [led_status_write, if_neg h1, if_pos h0, hd] at e
          cases e
        · simp only [led_status_write, if_neg h1, if_pos h0, down_eq s hs] at e
          cases e
          have ha : LedInv (acquired s) := LedInv.of_led_frame (a := s) rfl h
          exact LedInv.of_led_frame (a := led_status_write_disable env (acquired s)) rfl
            (led_status_write_disable_led env _ ha)
      · simp only [led_status_write, if_neg h1, if_neg h0] at e
        cases e
        exact h

theorem notification_off_led (env : Env) (s : State) (h : LedInv s) :
    LedInv (notification_off env s) := by
  by_cases g : s.led_on = 0 ∨ s.touchkey_enable = 0
  · rw [notification_off_noop env s g]
    exact h
  · have g1 : s.led_on ≠ 0 := fun x => g (Or.inl x)
    have g2 : s.touchkey_enable ≠ 0 := fun x => g (Or.inr x)
    obtain ⟨e1, -, -, e4, -⟩ := notification_off_effects env s g1 g2
    exact LedInv.of_off e1 e4

theorem early_suspend_power_frame (env : Env) (t : State) (h : t.touchkey_enable = 0) :
    Frame pm_erase t (early_suspend_power env t) := by
  rw [early_suspend_power_eq env t h]
  exact Frame.comp (b := touchkey_ldo_on env false (touchkey_led_ldo_on env false
      (emit (Ev.gpio_direction_input Gpio.TOUCH_INT) t)))
    (((emit_hw (Ev.gpio_direction_input Gpio.TOUCH_INT) t).seq
      (touchkey_led_ldo_on_hw env false _)).seq (touchkey_ldo_on_hw env false _)).frame_pm rfl

/-- Early suspend changes only what `pm_erase` erases. -/
theorem sec_touchkey_early_suspend_frame (env : Env) (s : State) :
    Frame pm_erase s (sec_touchkey_early_suspend env s) := by
  obtain ⟨q1, -, -⟩ := early_suspend_quiesce_proj env s
  rw [sec_touchkey_early_suspend_eq]
  exact (early_suspend_quiesce_frame env s).comp (early_suspend_power_frame env _ q1)

/-- A field that hardware calls and the assignments to `touchkey_enable` and `screen_on`
leave alone is the same after the pin set-up of late resume. -/
theorem late_resume_pins_field {α : Type} (f : State → α) (env : Env) (s : State)
    (hf : ∀ t x j r1 r2 u s, f (hw_put t x j r1 r2 u s) = f s)
    (h1 : ∀ (t : State) (v : Int), f { t with touchkey_enable := v } = f t)
    (h2 : ∀ (t : State) (v : Int), f { t with screen_on := v } = f t) :
    f (late_resume_pins env s) = f s := by
  have e : ∀ (x : Ev) (t : State), HwStep t (emit x t) := fun x t => emit_hw x t
  have h7 := ((((((e (Ev.gpio_direction_output Gpio.TOUCH_EN 1) s).seq
    (e (Ev.gpio_direction_output Gpio.TOUCH_SDA_28V 1) _)).seq
    (e (Ev.gpio_direction_output Gpio.TOUCH_SCL_28V 1) _)).seq
    (e (Ev.gpio_direction_output Gpio.TOUCH_INT 1) _)).seq
    (e Ev.irq_set_irq_type _)).seq
    (e (Ev.s3c_gpio_cfgpin Gpio.TOUCH_INT) _)).seq
    (e (Ev.s3c_gpio_setpull Gpio.TOUCH_INT) _)
  have g1 := h7.field f hf
  have g2 : late_resume_gpio s = { emit (Ev.s3c_gpio_setpull Gpio.TOUCH_INT)
      (emit (Ev.s3c_gpio_cfgpin Gpio.TOUCH_INT) (emit Ev.irq_set_irq_type
      (emit (Ev.gpio_direction_output Gpio.TOUCH_INT 1)
      (emit (Ev.gpio_direction_output Gpio.TOUCH_SCL_28V 1)
      (emit (Ev.gpio_direction_output Gpio.TOUCH_SDA_28V 1)
      (emit (Ev.gpio_direction_output Gpio.TOUCH_EN 1) s)))))) with touchkey_enable := 1 } := rfl
  have c := (late_resume_calibrate_hw env (late_resume_gpio s)).field f hf
  rw [late_resume_pins_eq, h2, c, g2, h1]
  exact g1

theorem late_resume_pins_led (env : Env) (s : State) :
    Frame led_erase s (late_resume_pins env s) :=
  Frame.of_led_fields
    (late_resume_pins_field State.led_on env s (fun _ _ _ _ _ _ _ => rfl) (fun _ _ => rfl)
      (fun _ _ => rfl))
    (late_resume_pins_field State.led_wake_lock env s (fun _ _ _ _ _ _ _ => rfl)
      (fun _ _ => rfl) (fun _ _ => rfl))

theorem late_resume_notification_led (s : State) (h : LedInv s) :
    LedInv (late_resume_notification s) := by
  unfold late_resume_notification
  by_cases g : s.led_on ≠ 0
  · rw [if_pos g]
    simp only []
    refine LedInv.of_off rfl ?_
    have k : ∀ t : State, (if t.led_wake_lock then wake_unlock t else t).led_wake_lock
        = false := by
      intro t
      cases h : t.led_wake_lock
      · simpa using h
      · rfl
    exact k _
  · rw [if_neg g]
    exact h

theorem sec_touchkey_late_resume_led (env : Env) (s s1 : State)
    (e : sec_touchkey_late_resume env s = some s1) (h : LedInv s) : LedInv s1 := by
  by_cases hs : s.enable_sem = 0
  · have hd : down (set_touchkey_debug 82 s) = none := by
      unfold down
      rw [if_pos (show (set_touchkey_debug 82 s).enable_sem = 0 from hs)]
    unfold sec_touchkey_late_resume at e
    simp only [hd] at e
    cases e
  · rw [sec_touchkey_late_resume_eq env s hs] at e
    have a : LedInv (touchkey_ldo_on env true (acquired (set_touchkey_debug 82 s))) :=
      LedInv.of_led_frame (Frame.comp (b := acquired (set_touchkey_debug 82 s)) rfl
        (touchkey_ldo_on_hw env true _).frame_led) h
    generalize touchkey_ldo_on env true (acquired (set_touchkey_debug 82 s)) = t at *
    split_ifs at e
    · cases e
      exact a
    · cases e
      have b := late_resume_notification_led _ (LedInv.of_led_frame (late_resume_pins_led env t) a)
      have c := LedInv.of_led_frame (late_resume_backlight_led env _) b
      exact LedInv.of_led_frame (a := late_resume_backlight env
        (late_resume_notification (late_resume_pins env t))) rfl c

/-- Every entry point keeps "the wake-lock is held exactly when `led_on` is 1". -/
theorem step_led (env : Env) (op : Op) (s s1 : State) (e : step env op s = some s1)
    (h : LedInv s) : LedInv s1 := by
  have fr : ∀ t : State, Frame led_erase s t → some t = some s1 → LedInv s1 := by
    intro t f e1
    cases e1
    exact LedInv.of_led_frame f h
  cases op with
  | led_status_write data => exact led_status_write_led env data s s1 e h
  | touchkey_interrupt => exact fr (touchkey_interrupt s) rfl e
  | touchkey_work_func =>
    obtain ⟨s2, e2, f2⟩ := touchkey_work_func_frame env { s with touchkey_work_queued := false }
    have e3 : touchkey_work_func env { s with touchkey_work_queued := false } = some s1 := e
    rw [e2] at e3
    exact fr s2 (Frame.comp (b := { s with touchkey_work_queued := false }) rfl f2.key_to_led) e3
  | timer_expires t => exact fr _ (timer_expires_led t s) e
  | bl_off => exact fr _ (bl_off_hw env s).frame_led e
  | notification_off =>
    have e1 : some (notification_off env s) = some s1 := e
    cases e1
    exact notification_off_led env s h
  | breathing_timer_action => exact fr _ (breathing_timer_action_frame env s).eff_to_led e
  | polling_timer_action => exact fr _ (polling_timer_action_led env s) e
  | sec_touchkey_early_suspend =>
    exact fr _ (sec_touchkey_early_suspend_frame env s).pm_to_led e
  | sec_touchkey_late_resume => exact sec_touchkey_late_resume_led env s s1 e h
  | enable_breathing_write data => exact fr _ (enable_breathing_write_led data s) e
  | enable_blinking_write data => exact fr _ (enable_blinking_write_led data s) e
  | breathing_config_write data => exact fr _ (breathing_config_write_led data s) e
  | blinking_config_write data => exact fr _ (blinking_config_write_led data s) e
  | notification_enabled_write data => exact fr _ (notification_enabled_write_led data s) e
  | notification_timeout_write ret d0 d1 d2 =>
    exact fr _ (notification_timeout_write_led ret d0 d1 d2 s) e
  | led_timeout_write data => exact fr _ (led_timeout_write_led env data s) e
  | led_fadeout_write data => exact fr _ (led_fadeout_write_led data s) e
  | check_battery_write data => exact fr _ (check_battery_write_led data s) e
  | brightness_control data => exact fr _ (brightness_control_led env data s) e
  | touch_update_write buf0 => exact fr _ (touch_update_write_led buf0 s) e
  | touchkey_update_func issp => exact fr _ (touchkey_update_func_led env issp s) e
  | set_touchkey_update_show issp => exact fr _ (set_touchkey_update_show_led env issp s) e
  | touch_version_read => exact fr _ (touch_version_read_hw env s).frame_led e
  | touch_led_control data => exact fr _ (touch_led_control_hw env data s).frame_led e
  | touch_sensitivity_control => exact fr _ (touch_sensitivity_control_hw env s).frame_led e
  | touchkey_show data len => exact fr _ (touchkey_show_hw env data len s).frame_led e
  | set_touchkey_autocal_testmode data =>
    exact fr _ (set_touchkey_autocal_testmode_hw env data s).frame_led e
  | blink_control_write data => exact fr _ (blink_control_write_hw env data s).frame_led e
  | notification_enabled_charging_write ret data =>
    exact fr _ (notification_enabled_charging_write_led ret data s) e
  | enable_bln_charging status => exact fr _ (enable_bln_charging_led status s) e
  | time_passes j => exact fr { s with jiffies := jiffies_add s.jiffies j } rfl e
  | battery_update b c => exact fr { s with batt_status := b, charging_status := c } rfl e

theorem run_led (env : Env) (ops : List Op) :
    ∀ s s1 : State, run env ops s = some s1 → LedInv s → LedInv s1 := by
  induction ops with
  | nil =>
    intro s s1 e h
    have e1 : some s = some s1 := e
    cases e1
    exact h
  | cons op ops ih =>
    intro s s1 e h
    have e1 : (match step env op s with
      | none => none
      | some s2 => run env ops s2) = some s1 := e
    cases hst : step env op s with
    | none => rw [hst] at e1; cases e1
    | some s2 =>
      rw [hst] at e1
      exact ih s2 s1 e1 (step_led env op s s2 hst h)

/-! ## Invariants over all states the driver can be in -/

theorem probe_power_led (env : Env) (s : State) : Frame led_erase s (probe_power env s) :=
  Frame.comp (b := { s with touchkey_driver := true }) rfl
    (Frame.comp (b := msleep env 50 (touchkey_ldo_on env true { s with touchkey_driver := true }))
      ((touchkey_ldo_on_hw env true _).seq (msleep_hw env 50 _)).frame_led rfl)

theorem i2c_touchkey_probe_finish_led (env : Env) (s : State) :
    (i2c_touchkey_probe_finish env s).2.led_on = s.led_on ∧
    ((i2c_touchkey_probe_finish env s).2.led_wake_lock = s.led_wake_lock ∨
      (i2c_touchkey_probe_finish env s).2.led_wake_lock = false) := by
  have h1 : HwStep s
      (if env.CONFIG_TARGET_LOCALE_NAATT then
        touchkey_autocalibration env (msleep env 100 (touchkey_led_ldo_on env true s))
      else (0, touchkey_led_ldo_on env true s)).2 := by
    split_ifs
    · exact ((touchkey_led_ldo_on_hw env true s).seq (msleep_hw env 100 _)).seq
        (touchkey_autocalibration_hw env _)
    · exact touchkey_led_ldo_on_hw env true s
  unfold i2c_touchkey_probe_finish
  simp only []
  generalize (if env.CONFIG_TARGET_LOCALE_NAATT = true then
        touchkey_autocalibration env (msleep env 100 (touchkey_led_ldo_on env true s))
      else (0, touchkey_led_ldo_on env true s)) = r at *
  obtain ⟨ret, t⟩ := r
  have a1 : t.led_on = s.led_on := h1.field State.led_on (fun _ _ _ _ _ _ _ => rfl)
  have a2 : t.led_wake_lock = s.led_wake_lock :=
    h1.field State.led_wake_lock (fun _ _ _ _ _ _ _ => rfl)
  simp only []
  split_ifs
  · exact ⟨a1, Or.inl a2⟩
  · exact ⟨((disable_touchkey_backlights_hw env _).field State.led_on
      (fun _ _ _ _ _ _ _ => rfl)).trans a1,
      Or.inr ((disable_touchkey_backlights_hw env _).field State.led_wake_lock
        (fun _ _ _ _ _ _ _ => rfl))⟩
  · exact ⟨a1, Or.inr rfl⟩

/-- Whatever `i2c_touchkey_probe` returns, it leaves `touchkey_enable` as it was or at 1,
does not touch `enable_sem` and `led_on`, and leaves the wake-lock as it was or not held. -/
theorem i2c_touchkey_probe_any (env : Env) (k : ProbeEnv) (s : State) :
    ((i2c_touchkey_probe env k s).2.touchkey_enable = s.touchkey_enable ∨
      (i2c_touchkey_probe env k s).2.touchkey_enable = 1) ∧
    (i2c_touchkey_probe env k s).2.enable_sem = s.enable_sem ∧
    (i2c_touchkey_probe env k s).2.led_on = s.led_on ∧
    ((i2c_touchkey_probe env k s).2.led_wake_lock = s.led_wake_lock ∨
      (i2c_touchkey_probe env k s).2.led_wake_lock = false) := by
  rw [i2c_touchkey_probe_eq]
  by_cases c1 : (!k.kzalloc) = true
  · rw [if_pos c1]
    exact ⟨Or.inl rfl, rfl, rfl, Or.inl rfl⟩
  rw [if_neg c1]
  by_cases c2 : (!k.input_allocate_device) = true
  · rw [if_pos c2]
    exact ⟨Or.inl rfl, rfl, rfl, Or.inl rfl⟩
  rw [if_neg c2]
  by_cases c3 : k.input_register_device ≠ 0
  · rw [if_pos c3]
    exact ⟨Or.inl rfl, rfl, rfl, Or.inl rfl⟩
  rw [if_neg c3]
  obtain ⟨p1, p2⟩ := probe_power_gate env s
  obtain ⟨p3, p4⟩ := (probe_power_led env s).led_fields
  have hv := get_touchkey_module_version_hw env (probe_power env s)
  have v1 := (hv.field State.touchkey_enable (fun _ _ _ _ _ _ _ => rfl)).trans p1
  have v2 := (hv.field State.enable_sem (fun _ _ _ _ _ _ _ => rfl)).trans p2
  have v3 := (hv.field State.led_on (fun _ _ _ _ _ _ _ => rfl)).trans p3
  have v4 := (hv.field State.led_wake_lock (fun _ _ _ _ _ _ _ => rfl)).trans p4
  generalize get_touchkey_module_version env (probe_power env s) = r at *
  obtain ⟨mv, t⟩ := r
  unfold probe_tail
  by_cases c4 : mv < 0
  · rw [if_pos c4]
    exact ⟨Or.inr v1, v2, v3, Or.inl v4⟩
  rw [if_neg c4]
  by_cases c5 : k.request_irq ≠ 0
  · rw [if_pos c5]
    exact ⟨Or.inr v1, v2, v3, Or.inl v4⟩
  rw [if_neg c5]
  have g := (i2c_touchkey_probe_finish_gate env
    (emit Ev.register_early_suspend (emit Ev.request_irq t))).gate_fields
  obtain ⟨f1, f2⟩ := i2c_touchkey_probe_finish_led env
    (emit Ev.register_early_suspend (emit Ev.request_irq t))
  refine ⟨Or.inr (g.1.trans v1), g.2.trans v2, f1.trans v3, ?_⟩
  rcases f2 with f2 | f2
  · exact Or.inl (f2.trans v4)
  · exact Or.inr f2

theorem Reachable.started {env : Env} {s : State} (h : Reachable env s) : Started env s := by
  obtain ⟨k, s0, ops, hp, hr⟩ := h
  exact ⟨s0, ops, Or.inr ⟨k, by rw [hp]⟩, hr⟩

/-- In every state the driver can be in, `touchkey_enable` is 0 or 1, `enable_sem` is free,
and the wake-lock is held exactly when `led_on` is 1. -/
theorem Started.inv {env : Env} {s : State} (h : Started env s) : GateInv s ∧ LedInv s := by
  obtain ⟨s0, ops, hb, hr⟩ := h
  have h0 : GateInv s0 ∧ LedInv s0 := by
    rcases hb with hb | ⟨k, hb⟩
    · rw [hb]
      exact ⟨⟨Or.inl rfl, rfl⟩, LedInv.of_off rfl rfl⟩
    · obtain ⟨a1, a2, a3, a4⟩ := i2c_touchkey_probe_any env k init_state
      rw [← hb] at a1 a2 a3 a4
      refine ⟨⟨?_, a2⟩, LedInv.of_off a3 ?_⟩
      · rcases a1 with a1 | a1
        · exact Or.inl a1
        · exact Or.inr a1
      · rcases a4 with a4 | a4
        · exact a4
        · exact a4
  obtain ⟨s1, e, g⟩ := run_gate env ops s0 h0.1
  rw [hr] at e
  cases e
  exact ⟨g, run_led env ops s0 s hr h0.2⟩

/-- C27: in every state the driver can be in (the static initial values, or the state a probe
leaves, followed by any sequence of entry points: Activate, Deactivate, `notification_off`,
`bl_off`, effect ticks, battery polls, early suspend, late resume and all the others), the
wake-lock is held if and only if `led_on` is 1. -/
theorem C27_wake_lock_iff_led_on (env : Env) (s : State) (h : Started env s) :
    s.led_wake_lock = true ↔ s.led_on = 1 :=
  h.inv.2

theorem C27_wake_lock_iff_led_on_witness :
    Started press_env notified_state ∧ notified_state.led_on = 1 ∧
    (notified_state.led_wake_lock = true ↔ notified_state.led_on = 1) :=
  ⟨⟨press_booted_state, notify_with_timeout, Or.inr ⟨sample_probe_env, rfl⟩, by rfl⟩, by rfl,
    C27_wake_lock_iff_led_on press_env notified_state
      ⟨press_booted_state, notify_with_timeout, Or.inr ⟨sample_probe_env, rfl⟩, by rfl⟩⟩

/-- C29: in every state the driver can be in (the static initial values, or the state a probe
leaves, followed by any sequence of entry points), `touchkey_enable` is 0 or 1.  Hence, when
`sec_touchkey_early_suspend` tests `touchkey_enable < 0` the test is false (there the value
is the 0 stored two statements before, in every state) and the function runs to
`screen_on = 0`; and when `sec_touchkey_late_resume` tests `touchkey_enable < 0` the test is
false and the function runs to `up(&enable_sem)`. -/
theorem C29_touchkey_enable_binary (env : Env) (s : State) (h : Started env s) :
    (s.touchkey_enable = 0 ∨ s.touchkey_enable = 1) ∧
    ¬ (early_suspend_quiesce env s).touchkey_enable < 0 ∧
    sec_touchkey_early_suspend env s =
      { touchkey_ldo_on env false (touchkey_led_ldo_on env false
          (emit (Ev.gpio_direction_input Gpio.TOUCH_INT) (early_suspend_quiesce env s))) with
        screen_on := 0 } ∧
    ¬ (touchkey_ldo_on env true (acquired (set_touchkey_debug 82 s))).touchkey_enable < 0 ∧
    sec_touchkey_late_resume env s =
      some (up (late_resume_backlight env (late_resume_notification (late_resume_pins env
        (touchkey_ldo_on env true (acquired (set_touchkey_debug 82 s))))))) := by
  obtain ⟨g1, g2⟩ := h.inv.1
  obtain ⟨q1, -, -⟩ := early_suspend_quiesce_proj env s
  have hs : s.enable_sem ≠ 0 := by rw [g2]; decide
  have hk := (touchkey_ldo_on_hw env true (acquired (set_touchkey_debug 82 s))).field
    State.touchkey_enable (fun _ _ _ _ _ _ _ => rfl)
  have hk0 : (acquired (set_touchkey_debug 82 s)).touchkey_enable = s.touchkey_enable := rfl
  have hk1 : ¬ (touchkey_ldo_on env true (acquired (set_touchkey_debug 82 s))).touchkey_enable
      < 0 := by
    rw [hk, hk0]
    rcases g1 with e | e <;> omega
  refine ⟨g1, by rw [q1]; decide, ?_, hk1, ?_⟩
  · rw [sec_touchkey_early_suspend_eq, early_suspend_power_eq env _ q1]
  · rw [sec_touchkey_late_resume_eq env s hs, if_neg hk1]

theorem C29_touchkey_enable_binary_witness :
    Started press_env notified_state ∧
    (notified_state.touchkey_enable = 0 ∨ notified_state.touchkey_enable = 1) :=
  ⟨⟨press_booted_state, notify_with_timeout, Or.inr ⟨sample_probe_env, rfl⟩, by rfl⟩,
    (C29_touchkey_enable_binary press_env notified_state
      ⟨press_booted_state, notify_with_timeout, Or.inr ⟨sample_probe_env, rfl⟩, by rfl⟩).1⟩

/-! ## Key input while the display is on -/

end Touchkey
